import Mathlib

/-!
# Verification of the PyRTFPA real-time fractal path analysis core

Shallow embedding of the repository's core modules:

* `src/line_tools.py`   — `Point3D`, `LineToolsRT.line_sphere_intersect`
* `rtfpa/running_d.py`  — `RunningD` (per-subject compass engine):
                          `add_point`, `fractal`, `calculate_path_length`
* `rtfpa/rtfpa.py`      — `RTFPA` dispatcher: `new_reading`, `start_new_path`,
                          `set_timeout`, `set_plane_constraint`, `set_velocity_mode`

Python floats are modelled as real numbers; `datetime`/`timedelta` values are
modelled as real-valued seconds (the code only subtracts and compares them).
Mutation is modelled by explicit state passing.  The `while` loop of
`calculate_path_length` carries an explicit fuel parameter: the source loop
terminates because every compass hop shortens the anchor-to-target distance by
exactly the compass radius, and each theorem quantifies over (or fixes) a fuel
large enough that the embedded loop reaches the source loop's exit condition.
-/

open scoped Classical

/-- `Point3D` from `line_tools.py`: an (x, y, z) triple of floats. -/
structure Point3D where
  x : ℝ
  y : ℝ
  z : ℝ

/-- `Point3D.distance`: Euclidean distance between two 3D points. -/
noncomputable def Point3D.distance (p1 p2 : Point3D) : ℝ :=
  Real.sqrt ((p1.x - p2.x) ^ 2 + (p1.y - p2.y) ^ 2 + (p1.z - p2.z) ^ 2)

/-- `Point3D.xy_distance`: distance between two points in the XY plane only. -/
noncomputable def Point3D.xy_distance (p1 p2 : Point3D) : ℝ :=
  Real.sqrt ((p1.x - p2.x) ^ 2 + (p1.y - p2.y) ^ 2)

/-- Quadratic coefficient `a = dx² + dy² + dz²` of `line_sphere_intersect`. -/
def lineA (p1 p2 : Point3D) : ℝ :=
  (p2.x - p1.x) ^ 2 + (p2.y - p1.y) ^ 2 + (p2.z - p1.z) ^ 2

/-- Quadratic coefficient `b` of `line_sphere_intersect`. -/
def lineB (p1 p2 c : Point3D) : ℝ :=
  2 * ((p2.x - p1.x) * (p1.x - c.x) + (p2.y - p1.y) * (p1.y - c.y) +
    (p2.z - p1.z) * (p1.z - c.z))

/-- Quadratic coefficient `c` of `line_sphere_intersect`. -/
def lineC (p1 c : Point3D) (r : ℝ) : ℝ :=
  c.x ^ 2 + c.y ^ 2 + c.z ^ 2 + p1.x ^ 2 + p1.y ^ 2 + p1.z ^ 2 -
    2 * (c.x * p1.x + c.y * p1.y + c.z * p1.z) - r ^ 2

/-- Discriminant `b² - 4ac` of `line_sphere_intersect`. -/
def discriminant (p1 p2 c : Point3D) (r : ℝ) : ℝ :=
  (lineB p1 p2 c) ^ 2 - 4 * lineA p1 p2 * lineC p1 c r

/-- The point `P1 + t·(P2 - P1)` built by `line_sphere_intersect`. -/
def pointOnLine (p1 p2 : Point3D) (t : ℝ) : Point3D :=
  ⟨p1.x + t * (p2.x - p1.x), p1.y + t * (p2.y - p1.y), p1.z + t * (p2.z - p1.z)⟩

/-- The per-root filter of the two-root branch of `line_sphere_intersect`:
a root `t` is kept unless (constrained and `t ∉ [0,1]`) or (constrained and
the corresponding point lies farther than the radius from the sphere center). -/
noncomputable def lsiKeep (p1 p2 c : Point3D) (r : ℝ) (constrain_to_segment : Bool)
    (t : ℝ) : Bool :=
  if constrain_to_segment = true ∧ ¬(0 ≤ t ∧ t ≤ 1) then false
  else if constrain_to_segment = true ∧ r < Point3D.distance (pointOnLine p1 p2 t) c then false
  else true

/-- Root `t1 = (-b + √disc) / 2a` of `line_sphere_intersect`. -/
noncomputable def lsiT1 (p1 p2 c : Point3D) (r : ℝ) : ℝ :=
  (-(lineB p1 p2 c) + Real.sqrt (discriminant p1 p2 c r)) / (2 * lineA p1 p2)

/-- Root `t2 = (-b - √disc) / 2a` of `line_sphere_intersect`. -/
noncomputable def lsiT2 (p1 p2 c : Point3D) (r : ℝ) : ℝ :=
  (-(lineB p1 p2 c) - Real.sqrt (discriminant p1 p2 c r)) / (2 * lineA p1 p2)

/-- The clamp `t ↦ max(0, min(1, t))` applied to both roots when constrained. -/
noncomputable def lsiClamp (constrain_to_segment : Bool) (t : ℝ) : ℝ :=
  if constrain_to_segment then max 0 (min 1 t) else t

/-- The result list of the `discriminant > 0` branch: both roots, clamped when
constrained, filtered by `lsiKeep`, turned into points. -/
noncomputable def lsiResults (p1 p2 c : Point3D) (r : ℝ)
    (constrain_to_segment : Bool) : List Point3D :=
  ([lsiClamp constrain_to_segment (lsiT1 p1 p2 c r),
    lsiClamp constrain_to_segment (lsiT2 p1 p2 c r)].filter
      (lsiKeep p1 p2 c r constrain_to_segment)).map (pointOnLine p1 p2)

/-- The `discriminant > 0` branch of `line_sphere_intersect`: two roots, clamped
into `[0,1]` when `constrain_to_segment`, filtered by `lsiKeep`. -/
noncomputable def lsi_two_roots (p1 p2 c : Point3D) (r : ℝ)
    (constrain_to_segment : Bool) : Option (List Point3D) :=
  if lsiResults p1 p2 c r constrain_to_segment = [] then none
  else some (lsiResults p1 p2 c r constrain_to_segment)

/-- `LineToolsRT.line_sphere_intersect` from `line_tools.py`. -/
noncomputable def line_sphere_intersect (p1 p2 c : Point3D) (r : ℝ)
    (constrain_to_segment : Bool) : Option (List Point3D) :=
  if discriminant p1 p2 c r < 0 then none
  else if discriminant p1 p2 c r = 0 then
    let t := -(lineB p1 p2 c) / (2 * lineA p1 p2)
    if constrain_to_segment = true ∧ (t < 0 ∨ 1 < t) then none
    else some [pointOnLine p1 p2 t]
  else lsi_two_roots p1 p2 c r constrain_to_segment

/-- The forward compass hop: the intersection of the sphere of radius `r`
around `c` with the segment from `c` to `t`, on the side of `t`. -/
noncomputable def hopPoint (c t : Point3D) (r : ℝ) : Point3D :=
  pointOnLine c t (r / Point3D.distance c t)

-- ### Basic geometric lemmas

theorem distance_nonneg (p q : Point3D) : 0 ≤ Point3D.distance p q :=
  Real.sqrt_nonneg _

theorem sq_distance (p q : Point3D) : (Point3D.distance p q) ^ 2 = lineA p q := by
  unfold Point3D.distance lineA
  rw [Real.sq_sqrt (by positivity)]
  ring

theorem distance_eq_sqrt_lineA (p q : Point3D) :
    Point3D.distance p q = Real.sqrt (lineA p q) := by
  unfold Point3D.distance lineA
  congr 1
  ring

theorem lineA_nonneg (p q : Point3D) : 0 ≤ lineA p q := by unfold lineA; positivity

theorem distance_self (p : Point3D) : Point3D.distance p p = 0 := by
  unfold Point3D.distance
  simp

theorem dist_pointOnLine_left (p1 p2 : Point3D) (t : ℝ) :
    Point3D.distance (pointOnLine p1 p2 t) p1 = |t| * Point3D.distance p1 p2 := by
  rw [distance_eq_sqrt_lineA p1 p2]
  simp only [Point3D.distance, pointOnLine]
  rw [show (p1.x + t * (p2.x - p1.x) - p1.x) ^ 2 + (p1.y + t * (p2.y - p1.y) - p1.y) ^ 2 +
        (p1.z + t * (p2.z - p1.z) - p1.z) ^ 2 = t ^ 2 * lineA p1 p2 by unfold lineA; ring]
  rw [Real.sqrt_mul (sq_nonneg t), Real.sqrt_sq_eq_abs]

theorem dist_pointOnLine_right (p1 p2 : Point3D) (t : ℝ) :
    Point3D.distance (pointOnLine p1 p2 t) p2 = |1 - t| * Point3D.distance p1 p2 := by
  rw [distance_eq_sqrt_lineA p1 p2]
  simp only [Point3D.distance, pointOnLine]
  rw [show (p1.x + t * (p2.x - p1.x) - p2.x) ^ 2 + (p1.y + t * (p2.y - p1.y) - p2.y) ^ 2 +
        (p1.z + t * (p2.z - p1.z) - p2.z) ^ 2 = (1 - t) ^ 2 * lineA p1 p2 by
      unfold lineA; ring]
  rw [Real.sqrt_mul (sq_nonneg (1 - t)), Real.sqrt_sq_eq_abs]

/-- Distance along the x-axis (shared y and z): `|a - a'|`. -/
theorem dist_axis (a a' y z : ℝ) :
    Point3D.distance ⟨a, y, z⟩ ⟨a', y, z⟩ = |a - a'| := by
  unfold Point3D.distance
  simp [Real.sqrt_sq_eq_abs]

/-- Distance between two points offset by `d` in each coordinate: `|d| * √3`. -/
theorem dist_diag (x y z x' y' z' d : ℝ) (h1 : x' = x + d) (h2 : y' = y + d)
    (h3 : z' = z + d) :
    Point3D.distance ⟨x, y, z⟩ ⟨x', y', z'⟩ = |d| * Real.sqrt 3 := by
  unfold Point3D.distance
  subst h1 h2 h3
  rw [show (x - (x + d)) ^ 2 + (y - (y + d)) ^ 2 + (z - (z + d)) ^ 2 = d ^ 2 * 3 by ring]
  rw [Real.sqrt_mul (sq_nonneg d), Real.sqrt_sq_eq_abs]

theorem sqrt3_pos : 0 < Real.sqrt 3 := Real.sqrt_pos.mpr (by norm_num)

theorem sqrt3_ne : Real.sqrt 3 ≠ 0 := ne_of_gt sqrt3_pos

theorem pointOnLine_zero (p1 p2 : Point3D) : pointOnLine p1 p2 0 = p1 := by
  obtain ⟨x, y, z⟩ := p1
  simp [pointOnLine]

/-- Concrete hop along the x-axis: the hop point is `r` further along. -/
theorem hopPoint_axis (a a' y z r : ℝ) (h : a < a') :
    hopPoint ⟨a, y, z⟩ ⟨a', y, z⟩ r = ⟨a + r, y, z⟩ := by
  unfold hopPoint
  rw [dist_axis, show |a - a'| = a' - a by rw [abs_of_neg (by linarith)]; ring]
  unfold pointOnLine
  simp only [Point3D.mk.injEq]
  have hne : a' - a ≠ 0 := by intro h0; linarith [sub_eq_zero.mp h0]
  refine ⟨by field_simp, by ring, by ring⟩

/-- Concrete hop along the main diagonal: a compass radius of `√3 * w` moves
the anchor by `w` in each coordinate. -/
theorem hopPoint_diag (x y z x' y' z' d w : ℝ) (h1 : x' = x + d) (h2 : y' = y + d)
    (h3 : z' = z + d) (hd : 0 < d) :
    hopPoint ⟨x, y, z⟩ ⟨x', y', z'⟩ (Real.sqrt 3 * w) = ⟨x + w, y + w, z + w⟩ := by
  unfold hopPoint
  rw [dist_diag x y z x' y' z' d h1 h2 h3, abs_of_pos hd]
  subst h1 h2 h3
  unfold pointOnLine
  simp only [Point3D.mk.injEq]
  have h3ne := sqrt3_ne
  have hdne : d ≠ 0 := ne_of_gt hd
  refine ⟨?_, ?_, ?_⟩ <;> field_simp <;> ring

/-- After a hop of radius `r` toward `T`, the distance to `T` has shrunk by `r`. -/
theorem dist_hopPoint (c T : Point3D) (r : ℝ) (hr : 0 < r)
    (hle : r ≤ Point3D.distance c T) :
    Point3D.distance (hopPoint c T r) T = Point3D.distance c T - r := by
  have hd : 0 < Point3D.distance c T := lt_of_lt_of_le hr hle
  unfold hopPoint
  rw [dist_pointOnLine_right,
    abs_of_nonneg (by rw [sub_nonneg]; exact (div_le_one hd).mpr hle)]
  field_simp

/-- Central geometric fact behind the compass walk: when the line runs from
the sphere center `c` to a target `T` at distance at least the radius `r > 0`,
the constrained intersection returns exactly the forward hop point and the
center itself (clamped back root). -/
theorem lsi_self_center (c T : Point3D) (r : ℝ) (hr : 0 < r)
    (hle : r ≤ Point3D.distance c T) :
    line_sphere_intersect c T c r true = some [hopPoint c T r, c] := by
  have hd : 0 < Point3D.distance c T := lt_of_lt_of_le hr hle
  have hdne : Point3D.distance c T ≠ 0 := ne_of_gt hd
  have hb : lineB c T c = 0 := by unfold lineB; ring
  have hA : lineA c T = (Point3D.distance c T) ^ 2 := (sq_distance c T).symm
  have hApos : 0 < lineA c T := by rw [hA]; positivity
  have hc : lineC c c r = -r ^ 2 := by unfold lineC; ring
  have hdisc : discriminant c T c r = (2 * Point3D.distance c T * r) ^ 2 := by
    unfold discriminant
    rw [hb, hc, hA]; ring
  have hdiscpos : 0 < discriminant c T c r := by
    rw [hdisc]; positivity
  have hsq : Real.sqrt (discriminant c T c r) = 2 * Point3D.distance c T * r := by
    rw [hdisc, Real.sqrt_sq (by positivity)]
  have ht1 : (-(lineB c T c) + Real.sqrt (discriminant c T c r)) / (2 * lineA c T)
      = r / Point3D.distance c T := by
    rw [hb, hsq, hA]; field_simp; ring
  have ht2 : (-(lineB c T c) - Real.sqrt (discriminant c T c r)) / (2 * lineA c T)
      = -(r / Point3D.distance c T) := by
    rw [hb, hsq, hA]; field_simp; ring
  have htpos : 0 < r / Point3D.distance c T := by positivity
  have htle : r / Point3D.distance c T ≤ 1 := (div_le_one hd).mpr hle
  have hk1 : lsiKeep c T c r true (r / Point3D.distance c T) = true := by
    unfold lsiKeep
    rw [if_neg, if_neg]
    · intro ⟨_, habs⟩
      rw [dist_pointOnLine_left, abs_of_pos htpos] at habs
      rw [div_mul_cancel₀ r hdne] at habs
      exact absurd habs (lt_irrefl r)
    · intro ⟨_, habs⟩
      exact habs ⟨le_of_lt htpos, htle⟩
  have hk0 : lsiKeep c T c r true 0 = true := by
    unfold lsiKeep
    rw [if_neg, if_neg]
    · intro ⟨_, habs⟩
      rw [dist_pointOnLine_left, abs_zero, zero_mul] at habs
      exact absurd (lt_trans hr habs) (lt_irrefl 0)
    · intro ⟨_, habs⟩
      exact habs ⟨le_refl 0, zero_le_one⟩
  have hres : lsiResults c T c r true = [hopPoint c T r, c] := by
    unfold lsiResults lsiClamp lsiT1 lsiT2
    rw [ht1, ht2]
    rw [if_pos rfl, if_pos rfl]
    rw [min_eq_right htle, max_eq_right (le_of_lt htpos)]
    rw [min_eq_right (le_trans (le_of_lt (neg_neg_of_pos htpos)) zero_le_one),
      max_eq_left (le_of_lt (neg_neg_of_pos htpos))]
    rw [List.filter_cons_of_pos hk1, List.filter_cons_of_pos hk0, List.filter_nil]
    rw [List.map_cons, List.map_cons, List.map_nil, pointOnLine_zero]
    rfl
  unfold line_sphere_intersect
  rw [if_neg (not_lt.mpr (le_of_lt hdiscpos)), if_neg (ne_of_gt hdiscpos)]
  unfold lsi_two_roots
  rw [hres]
  rw [if_neg (by simp)]

-- ### The per-subject compass engine `RunningD` (running_d.py)

/-- `RunningD` from `running_d.py`: the per-subject, per-segment state of the
real-time fractal estimator.  Field names follow the Python dataclass. -/
structure RunningD where
  subject_id : String
  position : Point3D
  start_timestamp : ℝ
  min_multiplier : ℝ
  max_multiplier : ℝ
  min_sphere_center : List (Option Point3D)
  max_sphere_center : List (Option Point3D)
  min_path_length : List ℝ
  max_path_length : List ℝ
  real_path_length : ℝ
  number_of_steps : ℕ
  min_step_size : ℝ
  max_step_size : ℝ
  mean_step_size : ℝ
  velocity_mode : Bool
  end_timestamp : ℝ
  step_time : ℝ
  step_velocity : ℝ
  total_step_velocity : ℝ
  mean_step_velocity : ℝ
  max_step_velocity : ℝ
  min_step_velocity : ℝ
  D : ℝ

/-- Construction of a `RunningD` (dataclass defaults plus `__post_init__`,
which seeds slot 0 of both sphere-center arrays with the initial position and
sets `end_timestamp = start_timestamp`). -/
def RunningD.start (sid : String) (pos : Point3D) (ts : ℝ)
    (min_mul max_mul : ℝ) : RunningD where
  subject_id := sid
  position := pos
  start_timestamp := ts
  min_multiplier := min_mul
  max_multiplier := max_mul
  min_sphere_center := [some pos, none, none, none]
  max_sphere_center := [some pos, none, none, none]
  min_path_length := [0, 0, 0, 0]
  max_path_length := [0, 0, 0, 0]
  real_path_length := 0
  number_of_steps := 0
  min_step_size := 0
  max_step_size := 0
  mean_step_size := 0
  velocity_mode := false
  end_timestamp := ts
  step_time := 0
  step_velocity := 0
  total_step_velocity := 0
  mean_step_velocity := 0
  max_step_velocity := 0
  min_step_velocity := 0
  D := 0

/-- One evaluation of the body of the `while i < 4` loop of
`RunningD.calculate_path_length`, with explicit fuel.  The loop state is the
index `i`, the `running_total` accumulator, and the two mutated lists.
`fuel = 0` returns the current state; every theorem below supplies enough fuel
for the embedded loop to reach the source loop's own exit. -/
noncomputable def calcLoop (scale : ℝ) (new_point : Point3D) (constrain_to_plane : Bool) :
    ℕ → ℕ → ℝ → List (Option Point3D) → List ℝ → List (Option Point3D) × List ℝ
  | 0, _, _, sphere_center_list, path_length_list => (sphere_center_list, path_length_list)
  | fuel + 1, i, running_total, sphere_center_list, path_length_list =>
    if 4 ≤ i then (sphere_center_list, path_length_list)
    else
      match sphere_center_list.getD i none with
      | none => (sphere_center_list, path_length_list)
      | some c0 =>
        if scale ≤ 0 then
          calcLoop scale new_point constrain_to_plane fuel (i + 1) running_total
            sphere_center_list path_length_list
        else
          -- if constraining to plane, compare against a z-flattened copy
          let sphere_center : Point3D :=
            if constrain_to_plane then ⟨c0.x, c0.y, 0⟩ else c0
          if Point3D.distance sphere_center new_point < scale then
            calcLoop scale new_point constrain_to_plane fuel (i + 1) running_total
              sphere_center_list path_length_list
          else
            match line_sphere_intersect sphere_center new_point sphere_center scale true with
            | none =>
              calcLoop scale new_point constrain_to_plane fuel (i + 1) running_total
                sphere_center_list path_length_list
            | some pts =>
              -- d1 is +∞ when there is a single intersection point, so the
              -- single-point case always picks pts[0]
              let p0 := pts.getD 0 sphere_center
              let chosen : Point3D :=
                if 2 ≤ pts.length then
                  if Point3D.distance p0 new_point <
                      Point3D.distance (pts.getD 1 sphere_center) new_point then p0
                  else pts.getD 1 sphere_center
                else p0
              let centers' := sphere_center_list.set i (some chosen)
              if Point3D.distance chosen new_point ≤ scale then
                calcLoop scale new_point constrain_to_plane fuel (i + 1) 0 centers'
                  (path_length_list.set i
                    (path_length_list.getD i 0 + (running_total + scale)))
              else
                calcLoop scale new_point constrain_to_plane fuel i
                  (running_total + scale) centers' path_length_list

/-- `RunningD.calculate_path_length` from `running_d.py` (state-passing form:
returns the updated sphere-center and path-length lists). -/
noncomputable def calculate_path_length (fuel : ℕ)
    (sphere_center_list : List (Option Point3D)) (scale : ℝ)
    (path_length_list : List ℝ) (new_point : Point3D)
    (constrain_to_plane : Bool) : List (Option Point3D) × List ℝ :=
  calcLoop scale new_point constrain_to_plane fuel 0 0 sphere_center_list path_length_list

/-- The list of valid per-anchor dimension estimates collected by
`RunningD.fractal`.  The Python `math.isnan`/`math.isinf` filter is omitted:
over `ℝ`, `log10` of a positive real is always a (finite) real, so the filter
never fires; likewise the `try/except` around `log10` is dead because both
arguments are guarded to be strictly positive. -/
noncomputable def fdEstimates (min_path_length max_path_length : List ℝ)
    (min_scale max_scale : ℝ) : List ℝ :=
  (List.range 4).filterMap (fun i =>
    if 0 < min_path_length.getD i 0 ∧ 0 < max_path_length.getD i 0 ∧
        0 < min_scale ∧ 0 < max_scale then
      if Real.logb 10 min_scale - Real.logb 10 max_scale ≠ 0 then
        some (1 - (Real.logb 10 (min_path_length.getD i 0) -
            Real.logb 10 (max_path_length.getD i 0)) /
          (Real.logb 10 min_scale - Real.logb 10 max_scale))
      else none
    else none)

/-- `RunningD.fractal` from `running_d.py`: runs the compass walk at both
scales and recomputes `D` as the mean of the valid per-anchor estimates
(0.0 when there are none). -/
noncomputable def RunningD.fractal (s : RunningD) (fuel : ℕ)
    (constrain_to_plane : Bool) (use_velocity : Bool) : RunningD :=
  let min_scale := if use_velocity then s.min_step_velocity else s.min_step_size
  let max_scale := if use_velocity then s.max_step_velocity else s.max_step_size
  let new_point : Point3D :=
    if constrain_to_plane then ⟨s.position.x, s.position.y, 0⟩ else s.position
  let rmin := calculate_path_length fuel s.min_sphere_center min_scale
    s.min_path_length new_point constrain_to_plane
  let rmax := calculate_path_length fuel s.max_sphere_center max_scale
    s.max_path_length new_point constrain_to_plane
  let fds := fdEstimates rmin.2 rmax.2 min_scale max_scale
  { s with
    min_sphere_center := rmin.1
    min_path_length := rmin.2
    max_sphere_center := rmax.1
    max_path_length := rmax.2
    D := if fds = [] then 0 else fds.sum / (fds.length : ℝ) }

/-- `RunningD.add_point` from `running_d.py`: continue an existing path. -/
noncomputable def RunningD.add_point (s : RunningD) (fuel : ℕ) (point : Point3D)
    (timestamp : ℝ) (constrain_to_plane : Bool) : RunningD :=
  let n := s.number_of_steps + 1
  let dist_to_last_point :=
    if constrain_to_plane then
      Point3D.distance ⟨s.position.x, s.position.y, 0⟩ ⟨point.x, point.y, 0⟩
    else Point3D.distance s.position point
  let rpl := s.real_path_length + dist_to_last_point
  let mean0 := rpl / (n : ℝ)
  let st := timestamp - s.end_timestamp
  let mean := if s.velocity_mode then mean0 / st else mean0
  -- fill the first unset sphere-center slot (same index in both arrays)
  let idx := (List.range 4).find? (fun i => (s.min_sphere_center.getD i none).isNone)
  let minC := match idx with
    | some i => s.min_sphere_center.set i (some point)
    | none => s.min_sphere_center
  let maxC := match idx with
    | some i => s.max_sphere_center.set i (some point)
    | none => s.max_sphere_center
  RunningD.fractal
    { s with
      number_of_steps := n
      real_path_length := rpl
      mean_step_size := mean
      step_time := st
      end_timestamp := timestamp
      min_step_size := mean * s.min_multiplier
      max_step_size := mean * s.max_multiplier
      position := point
      min_sphere_center := minC
      max_sphere_center := maxC }
    fuel constrain_to_plane s.velocity_mode

-- ### The dispatcher `RTFPA` (rtfpa.py)

/-- `RTFPA` from `rtfpa.py`: dispatcher state.  The Python dict
`tracked_objects_running_d` is modelled as a lookup function. -/
structure RTFPA where
  min_multiplier : ℝ
  max_multiplier : ℝ
  velocity_mode : Bool
  tracked_objects_running_d : String → Option RunningD
  seconds_till_new_path : ℝ
  constrain_to_plane : Bool

/-- `RTFPA.__init__` (defaults `min_mul = 0.5`, `max_mul = 10.0`). -/
def RTFPA.init (min_mul max_mul : ℝ) : RTFPA where
  min_multiplier := min_mul
  max_multiplier := max_mul
  velocity_mode := false
  tracked_objects_running_d := fun _ => none
  seconds_till_new_path := 60
  constrain_to_plane := false

/-- `RTFPA.start_new_path`: stores a fresh engine (with the dispatcher's
current `velocity_mode` copied onto it) and also returns it (the Python method
mutates the dict; `new_reading` then returns the dict entry). -/
def RTFPA.start_new_path (m : RTFPA) (subject_id : String) (new_point : Point3D)
    (timestamp : ℝ) : RTFPA × RunningD :=
  let rd := { RunningD.start subject_id new_point timestamp m.min_multiplier
      m.max_multiplier with velocity_mode := m.velocity_mode }
  ({ m with tracked_objects_running_d := fun sid =>
      if sid = subject_id then some rd else m.tracked_objects_running_d sid }, rd)

/-- `RTFPA.new_reading` from `rtfpa.py`.  Returns the updated dispatcher and
the engine the Python method returns (the dict entry for `subject_id`). -/
noncomputable def RTFPA.new_reading (m : RTFPA) (fuel : ℕ) (subject_id : String)
    (x y z : ℝ) (timestamp : ℝ) : RTFPA × RunningD :=
  let new_point : Point3D := ⟨x, y, z⟩
  match m.tracked_objects_running_d subject_id with
  | some tracked_running_d =>
    if (if m.constrain_to_plane then
          Point3D.xy_distance new_point tracked_running_d.position
        else Point3D.distance new_point tracked_running_d.position) = 0 then
      (m, tracked_running_d)
    else if m.seconds_till_new_path < |timestamp - tracked_running_d.end_timestamp| then
      m.start_new_path subject_id new_point timestamp
    else
      let rd := tracked_running_d.add_point fuel new_point timestamp m.constrain_to_plane
      ({ m with tracked_objects_running_d := fun sid =>
          if sid = subject_id then some rd else m.tracked_objects_running_d sid }, rd)
  | none => m.start_new_path subject_id new_point timestamp

/-- `RTFPA.set_timeout`. -/
def RTFPA.set_timeout (m : RTFPA) (timeout : ℝ) : RTFPA :=
  { m with seconds_till_new_path := timeout }

/-- `RTFPA.set_plane_constraint`. -/
def RTFPA.set_plane_constraint (m : RTFPA) (constrain : Bool) : RTFPA :=
  { m with constrain_to_plane := constrain }

/-- `RTFPA.set_velocity_mode`. -/
def RTFPA.set_velocity_mode (m : RTFPA) (vm : Bool) : RTFPA :=
  { m with velocity_mode := vm }

-- ### Step lemmas for the compass-walk loop

theorem calcLoop_exit (s : ℝ) (T : Point3D) (ctp : Bool) (f i : ℕ) (run : ℝ)
    (C : List (Option Point3D)) (L : List ℝ) (hi : 4 ≤ i) :
    calcLoop s T ctp (f + 1) i run C L = (C, L) := by
  unfold calcLoop
  rw [if_pos hi]

theorem calcLoop_none (s : ℝ) (T : Point3D) (ctp : Bool) (f i : ℕ) (run : ℝ)
    (C : List (Option Point3D)) (L : List ℝ) (hi : i < 4)
    (hC : C.getD i none = none) :
    calcLoop s T ctp (f + 1) i run C L = (C, L) := by
  unfold calcLoop
  rw [if_neg (not_le.mpr hi)]
  simp only [hC]

theorem calcLoop_scale_le (s : ℝ) (T : Point3D) (ctp : Bool) (f i : ℕ) (run : ℝ)
    (C : List (Option Point3D)) (L : List ℝ) (c : Point3D) (hi : i < 4)
    (hC : C.getD i none = some c) (hs : s ≤ 0) :
    calcLoop s T ctp (f + 1) i run C L = calcLoop s T ctp f (i + 1) run C L := by
  conv_lhs => unfold calcLoop
  rw [if_neg (not_le.mpr hi)]
  simp only [hC]
  rw [if_pos hs]

theorem calcLoop_near (s : ℝ) (T : Point3D) (f i : ℕ) (run : ℝ)
    (C : List (Option Point3D)) (L : List ℝ) (c : Point3D) (hi : i < 4)
    (hC : C.getD i none = some c) (hs : 0 < s) (hd : Point3D.distance c T < s) :
    calcLoop s T false (f + 1) i run C L = calcLoop s T false f (i + 1) run C L := by
  conv_lhs => unfold calcLoop
  rw [if_neg (not_le.mpr hi)]
  simp only [hC, Bool.false_eq_true, if_false]
  rw [if_neg (not_le.mpr hs), if_pos hd]

theorem calcLoop_hop_commit (s : ℝ) (T : Point3D) (f i : ℕ) (run : ℝ)
    (C : List (Option Point3D)) (L : List ℝ) (c : Point3D) (hi : i < 4)
    (hC : C.getD i none = some c) (hs : 0 < s) (hd1 : s ≤ Point3D.distance c T)
    (hd2 : Point3D.distance c T ≤ 2 * s) :
    calcLoop s T false (f + 1) i run C L =
      calcLoop s T false f (i + 1) 0 (C.set i (some (hopPoint c T s)))
        (L.set i (L.getD i 0 + (run + s))) := by
  conv_lhs => unfold calcLoop
  rw [if_neg (not_le.mpr hi)]
  simp only [hC, Bool.false_eq_true, if_false]
  rw [if_neg (not_le.mpr hs), if_neg (not_lt.mpr hd1), lsi_self_center c T s hs hd1]
  simp only []
  rw [show ([hopPoint c T s, c].getD 0 c) = hopPoint c T s from rfl,
    show ([hopPoint c T s, c].getD 1 c) = c from rfl]
  rw [if_pos (show (2:ℕ) ≤ [hopPoint c T s, c].length by simp)]
  rw [dist_hopPoint c T s hs hd1]
  rw [if_pos (show Point3D.distance c T - s < Point3D.distance c T by linarith)]
  rw [dist_hopPoint c T s hs hd1]
  rw [if_pos (show Point3D.distance c T - s ≤ s by linarith)]

theorem calcLoop_hop_stay (s : ℝ) (T : Point3D) (f i : ℕ) (run : ℝ)
    (C : List (Option Point3D)) (L : List ℝ) (c : Point3D) (hi : i < 4)
    (hC : C.getD i none = some c) (hs : 0 < s)
    (hd : 2 * s < Point3D.distance c T) :
    calcLoop s T false (f + 1) i run C L =
      calcLoop s T false f i (run + s) (C.set i (some (hopPoint c T s))) L := by
  have hd1 : s ≤ Point3D.distance c T := by linarith
  conv_lhs => unfold calcLoop
  rw [if_neg (not_le.mpr hi)]
  simp only [hC, Bool.false_eq_true, if_false]
  rw [if_neg (not_le.mpr hs), if_neg (not_lt.mpr hd1), lsi_self_center c T s hs hd1]
  simp only []
  rw [show ([hopPoint c T s, c].getD 0 c) = hopPoint c T s from rfl,
    show ([hopPoint c T s, c].getD 1 c) = c from rfl]
  rw [if_pos (show (2:ℕ) ≤ [hopPoint c T s, c].length by simp)]
  rw [dist_hopPoint c T s hs hd1]
  rw [if_pos (show Point3D.distance c T - s < Point3D.distance c T by linarith)]
  rw [dist_hopPoint c T s hs hd1]
  rw [if_neg (show ¬(Point3D.distance c T - s ≤ s) by linarith)]

-- ### Evaluation lemmas packaging one `add_point` call and one `new_reading` call

/-- Evaluation of one non-velocity, unconstrained `add_point` call, with all
derived quantities supplied as hypotheses. -/
theorem add_point_eval (s : RunningD) (f : ℕ) (p : Point3D) (ts : ℝ)
    (dv rpl mean mins maxs st : ℝ) (fminC fmaxC rminC rmaxC : List (Option Point3D))
    (rminL rmaxL : List ℝ) (dOut : ℝ)
    (hvm : s.velocity_mode = false)
    (hd : Point3D.distance s.position p = dv)
    (hrpl : s.real_path_length + dv = rpl)
    (hmean : rpl / ((s.number_of_steps + 1 : ℕ) : ℝ) = mean)
    (hmins : mean * s.min_multiplier = mins)
    (hmaxs : mean * s.max_multiplier = maxs)
    (hst : ts - s.end_timestamp = st)
    (hfminC : (match (List.range 4).find? (fun i => (s.min_sphere_center.getD i none).isNone) with
        | some i => s.min_sphere_center.set i (some p)
        | none => s.min_sphere_center) = fminC)
    (hfmaxC : (match (List.range 4).find? (fun i => (s.min_sphere_center.getD i none).isNone) with
        | some i => s.max_sphere_center.set i (some p)
        | none => s.max_sphere_center) = fmaxC)
    (hmin : calculate_path_length f fminC mins s.min_path_length p false = (rminC, rminL))
    (hmax : calculate_path_length f fmaxC maxs s.max_path_length p false = (rmaxC, rmaxL))
    (hD : (if fdEstimates rminL rmaxL mins maxs = [] then (0:ℝ) else
        (fdEstimates rminL rmaxL mins maxs).sum /
          ((fdEstimates rminL rmaxL mins maxs).length : ℝ)) = dOut) :
    s.add_point f p ts false =
      ⟨s.subject_id, p, s.start_timestamp, s.min_multiplier, s.max_multiplier,
        rminC, rmaxC, rminL, rmaxL, rpl, s.number_of_steps + 1, mins, maxs, mean,
        s.velocity_mode, ts, st, s.step_velocity, s.total_step_velocity,
        s.mean_step_velocity, s.max_step_velocity, s.min_step_velocity, dOut⟩ := by
  simp only [RunningD.add_point, hvm, Bool.false_eq_true, if_false]
  rw [hd, hrpl, hst, hfminC, hfmaxC]
  simp only [RunningD.fractal, hvm, Bool.false_eq_true, if_false]
  rw [hmean, hmins, hmaxs]
  rw [hmin, hmax]
  rw [hD]

/-- `new_reading` on an unseen subject routes to `start_new_path`. -/
theorem new_reading_new (m : RTFPA) (f : ℕ) (sid : String) (x y z ts : ℝ)
    (htr : m.tracked_objects_running_d sid = none) :
    m.new_reading f sid x y z ts = m.start_new_path sid ⟨x, y, z⟩ ts := by
  unfold RTFPA.new_reading
  rw [htr]

/-- `new_reading` on a tracked subject with a fresh position inside the
timeout continues the stored engine via `add_point`. -/
theorem new_reading_continue (m : RTFPA) (f : ℕ) (sid : String) (x y z ts : ℝ)
    (prev : RunningD)
    (htr : m.tracked_objects_running_d sid = some prev)
    (hctp : m.constrain_to_plane = false)
    (hdup : Point3D.distance ⟨x, y, z⟩ prev.position ≠ 0)
    (htime : ¬ (m.seconds_till_new_path < |ts - prev.end_timestamp|))
    (rd : RunningD) (hrd : prev.add_point f ⟨x, y, z⟩ ts false = rd) :
    m.new_reading f sid x y z ts =
      ({ m with tracked_objects_running_d := fun s =>
          if s = sid then some rd else m.tracked_objects_running_d s }, rd) := by
  unfold RTFPA.new_reading
  rw [htr]
  simp only [hctp, Bool.false_eq_true, if_false]
  rw [if_neg hdup, if_neg htime, hrd]

/-- Variant of `hopPoint_diag` keyed on the endpoint coordinates. -/
theorem hopPoint_diag' (x y z x' y' z' w : ℝ) (h1 : y' - y = x' - x)
    (h2 : z' - z = x' - x) (hx : x < x') :
    hopPoint ⟨x, y, z⟩ ⟨x', y', z'⟩ (Real.sqrt 3 * w) = ⟨x + w, y + w, z + w⟩ := by
  have h1' : y' = y + (x' - x) := by linarith
  have h2' : z' = z + (x' - x) := by linarith
  have hx' : x' = x + (x' - x) := by ring
  rw [hopPoint_diag x y z x' y' z' (x' - x) w hx' h1' h2' (by linarith)]

/-- If every max-scale accumulator is zero, no anchor index qualifies. -/
theorem fdEstimates_max_zero (L1 : List ℝ) (a b : ℝ) :
    fdEstimates L1 [0, 0, 0, 0] a b = [] := by
  unfold fdEstimates
  rw [show List.range 4 = [0, 1, 2, 3] from rfl]
  simp [List.getD]

-- ### Closed-form evaluations of the fractal-dimension mean

theorem logb_ratio_eq (a b : ℝ) (ha : a ≠ 0) (hb : b ≠ 0) :
    Real.logb 10 a - Real.logb 10 b = Real.logb 10 (a / b) :=
  (Real.logb_div ha hb).symm

theorem logb_tenth : Real.logb 10 ((10:ℝ)⁻¹) = -1 := by
  rw [Real.logb_inv, Real.logb_self_eq_one (by norm_num)]

theorem fdB5 :
    (if fdEstimates [45, 35, 25, 15] [50, 0, 0, 0] 5 50 = [] then (0:ℝ) else
      (fdEstimates [45, 35, 25, 15] [50, 0, 0, 0] 5 50).sum /
        ((fdEstimates [45, 35, 25, 15] [50, 0, 0, 0] 5 50).length : ℝ))
    = 1 + Real.logb 10 (9/10) := by
  have hlsd : Real.logb 10 5 - Real.logb 10 50 = -1 := by
    rw [logb_ratio_eq 5 50 (by norm_num) (by norm_num),
      show (5/50 : ℝ) = (10:ℝ)⁻¹ by norm_num, logb_tenth]
  have hlld : Real.logb 10 45 - Real.logb 10 50 = Real.logb 10 (9/10) := by
    rw [logb_ratio_eq 45 50 (by norm_num) (by norm_num)]
    norm_num
  unfold fdEstimates
  rw [show List.range 4 = [0, 1, 2, 3] from rfl]
  simp only [List.filterMap_cons, List.filterMap_nil, List.getD_cons_zero,
    List.getD_cons_succ]
  rw [hlsd, hlld]
  norm_num
  ring

theorem fdB6 :
    (if fdEstimates [55, 45, 35, 25] [50, 50, 0, 0] 5 50 = [] then (0:ℝ) else
      (fdEstimates [55, 45, 35, 25] [50, 50, 0, 0] 5 50).sum /
        ((fdEstimates [55, 45, 35, 25] [50, 50, 0, 0] 5 50).length : ℝ))
    = 1 + (Real.logb 10 (11/10) + Real.logb 10 (9/10)) / 2 := by
  have hlsd : Real.logb 10 5 - Real.logb 10 50 = -1 := by
    rw [logb_ratio_eq 5 50 (by norm_num) (by norm_num),
      show (5/50 : ℝ) = (10:ℝ)⁻¹ by norm_num, logb_tenth]
  have hlld0 : Real.logb 10 55 - Real.logb 10 50 = Real.logb 10 (11/10) := by
    rw [logb_ratio_eq 55 50 (by norm_num) (by norm_num)]
    norm_num
  have hlld1 : Real.logb 10 45 - Real.logb 10 50 = Real.logb 10 (9/10) := by
    rw [logb_ratio_eq 45 50 (by norm_num) (by norm_num)]
    norm_num
  unfold fdEstimates
  rw [show List.range 4 = [0, 1, 2, 3] from rfl]
  simp only [List.filterMap_cons, List.filterMap_nil, List.getD_cons_zero,
    List.getD_cons_succ]
  rw [hlsd, hlld0, hlld1]
  norm_num
  rw [if_neg (by simp)]
  ring

theorem fdC5 :
    (if fdEstimates [Real.sqrt 3 * (9/2), Real.sqrt 3 * (7/2), Real.sqrt 3 * (5/2),
        Real.sqrt 3 * (3/2)] [Real.sqrt 3 * 5, 0, 0, 0]
        (Real.sqrt 3 * (1/2)) (Real.sqrt 3 * 5) = [] then (0:ℝ) else
      (fdEstimates [Real.sqrt 3 * (9/2), Real.sqrt 3 * (7/2), Real.sqrt 3 * (5/2),
        Real.sqrt 3 * (3/2)] [Real.sqrt 3 * 5, 0, 0, 0]
        (Real.sqrt 3 * (1/2)) (Real.sqrt 3 * 5)).sum /
        ((fdEstimates [Real.sqrt 3 * (9/2), Real.sqrt 3 * (7/2), Real.sqrt 3 * (5/2),
          Real.sqrt 3 * (3/2)] [Real.sqrt 3 * 5, 0, 0, 0]
          (Real.sqrt 3 * (1/2)) (Real.sqrt 3 * 5)).length : ℝ))
    = 1 + Real.logb 10 (9/10) := by
  have h3 := sqrt3_pos
  have hlsd : Real.logb 10 (Real.sqrt 3 * (1/2)) - Real.logb 10 (Real.sqrt 3 * 5)
      = -1 := by
    rw [logb_ratio_eq _ _ (by positivity) (by positivity),
      show (Real.sqrt 3 * (1/2)) / (Real.sqrt 3 * 5) = (10:ℝ)⁻¹ by
        rw [mul_div_mul_left _ _ (ne_of_gt h3)]; norm_num,
      logb_tenth]
  have hlld : Real.logb 10 (Real.sqrt 3 * (9/2)) - Real.logb 10 (Real.sqrt 3 * 5)
      = Real.logb 10 (9/10) := by
    rw [logb_ratio_eq _ _ (by positivity) (by positivity),
      show (Real.sqrt 3 * (9/2)) / (Real.sqrt 3 * 5) = (9/10 : ℝ) by
        rw [mul_div_mul_left _ _ (ne_of_gt h3)]; norm_num]
  unfold fdEstimates
  rw [show List.range 4 = [0, 1, 2, 3] from rfl]
  simp only [List.filterMap_cons, List.filterMap_nil, List.getD_cons_zero,
    List.getD_cons_succ]
  rw [hlsd, hlld]
  have hcond : 0 < Real.sqrt 3 * (9/2) ∧ 0 < Real.sqrt 3 * 5 ∧
      0 < Real.sqrt 3 * (1/2) ∧ 0 < Real.sqrt 3 * 5 :=
    ⟨by positivity, by positivity, by positivity, by positivity⟩
  have hn1 : ¬(0 < Real.sqrt 3 * (7/2) ∧ 0 < (0:ℝ) ∧
      0 < Real.sqrt 3 * (1/2) ∧ 0 < Real.sqrt 3 * 5) :=
    fun h => absurd h.2.1 (lt_irrefl 0)
  have hn2 : ¬(0 < Real.sqrt 3 * (5/2) ∧ 0 < (0:ℝ) ∧
      0 < Real.sqrt 3 * (1/2) ∧ 0 < Real.sqrt 3 * 5) :=
    fun h => absurd h.2.1 (lt_irrefl 0)
  have hn3 : ¬(0 < Real.sqrt 3 * (3/2) ∧ 0 < (0:ℝ) ∧
      0 < Real.sqrt 3 * (1/2) ∧ 0 < Real.sqrt 3 * 5) :=
    fun h => absurd h.2.1 (lt_irrefl 0)
  rw [if_pos hcond, if_pos (by norm_num : (-1:ℝ) ≠ 0), if_neg hn1, if_neg hn2,
    if_neg hn3]
  norm_num
  ring

-- Fuel-flexible forms of the step lemmas (avoid rewriting numeral fuels)

theorem calcLoop_exit' (s : ℝ) (T : Point3D) (ctp : Bool) (f g i : ℕ) (run : ℝ)
    (C : List (Option Point3D)) (L : List ℝ) (hf : f = g + 1) (hi : 4 ≤ i) :
    calcLoop s T ctp f i run C L = (C, L) := by
  subst hf; exact calcLoop_exit s T ctp g i run C L hi

theorem calcLoop_none' (s : ℝ) (T : Point3D) (ctp : Bool) (f g i : ℕ) (run : ℝ)
    (C : List (Option Point3D)) (L : List ℝ) (hf : f = g + 1) (hi : i < 4)
    (hC : C.getD i none = none) :
    calcLoop s T ctp f i run C L = (C, L) := by
  subst hf; exact calcLoop_none s T ctp g i run C L hi hC

theorem calcLoop_near' (s : ℝ) (T : Point3D) (f g i : ℕ) (run : ℝ)
    (C : List (Option Point3D)) (L : List ℝ) (c : Point3D) (hf : f = g + 1)
    (hi : i < 4) (hC : C.getD i none = some c) (hs : 0 < s)
    (hd : Point3D.distance c T < s) :
    calcLoop s T false f i run C L = calcLoop s T false g (i + 1) run C L := by
  subst hf; exact calcLoop_near s T g i run C L c hi hC hs hd

theorem calcLoop_hop_commit' (s : ℝ) (T : Point3D) (f g i : ℕ) (run : ℝ)
    (C : List (Option Point3D)) (L : List ℝ) (c : Point3D) (hf : f = g + 1)
    (hi : i < 4) (hC : C.getD i none = some c) (hs : 0 < s)
    (hd1 : s ≤ Point3D.distance c T) (hd2 : Point3D.distance c T ≤ 2 * s) :
    calcLoop s T false f i run C L =
      calcLoop s T false g (i + 1) 0 (C.set i (some (hopPoint c T s)))
        (L.set i (L.getD i 0 + (run + s))) := by
  subst hf; exact calcLoop_hop_commit s T g i run C L c hi hC hs hd1 hd2

theorem calcLoop_hop_stay' (s : ℝ) (T : Point3D) (f g i : ℕ) (run : ℝ)
    (C : List (Option Point3D)) (L : List ℝ) (c : Point3D) (hf : f = g + 1)
    (hi : i < 4) (hC : C.getD i none = some c) (hs : 0 < s)
    (hd : 2 * s < Point3D.distance c T) :
    calcLoop s T false f i run C L =
      calcLoop s T false g i (run + s) (C.set i (some (hopPoint c T s))) L := by
  subst hf; exact calcLoop_hop_stay s T g i run C L c hi hC hs hd
-- ### Concrete simulation runs (generated states, walks, and steps)

/-- Dispatcher (multipliers 0.5, 10) tracking exactly one engine. -/
noncomputable def rtA (e : RunningD) : RTFPA :=
  ⟨0.5, 10, false, fun sid => if sid = "subject1" then some e else none, 60, false⟩

/-- Dispatcher (multipliers 0.5, 5) tracking exactly one engine. -/
noncomputable def rtB (e : RunningD) : RTFPA :=
  ⟨0.5, 5, false, fun sid => if sid = "subject1" then some e else none, 60, false⟩

theorem rtA_update (e e' : RunningD) :
    ({ rtA e with tracked_objects_running_d := fun s =>
        if s = "subject1" then some e' else (rtA e).tracked_objects_running_d s }) = rtA e' := by
  simp only [rtA]
  congr 1
  funext s
  by_cases h : s = "subject1" <;> simp [h]

theorem rtB_update (e e' : RunningD) :
    ({ rtB e with tracked_objects_running_d := fun s =>
        if s = "subject1" then some e' else (rtB e).tracked_objects_running_d s }) = rtB e' := by
  simp only [rtB]
  congr 1
  funext s
  by_cases h : s = "subject1" <;> simp [h]

noncomputable def eA0 : RunningD :=
  ⟨"subject1", ⟨0, 0, 0⟩, 0, 0.5, 10,
    [some ⟨0, 0, 0⟩, none, none, none], [some ⟨0, 0, 0⟩, none, none, none],
    [0, 0, 0, 0], [0, 0, 0, 0], 0, 0, 0, 0, 0, false, 0, 0, 0, 0, 0, 0, 0, 0⟩

theorem walkAmin1 :
    calculate_path_length 12 [some ⟨0, 0, 0⟩, some ⟨10, 0, 0⟩, none, none] 
      (5) [0, 0, 0, 0] ⟨10, 0, 0⟩ false
    = ([some ⟨5, 0, 0⟩, some ⟨10, 0, 0⟩, none, none], [5, 0, 0, 0]) := by
  unfold calculate_path_length
  rw [
    calcLoop_hop_commit' (5) ⟨10, 0, 0⟩ 12 11 0 0 [some ⟨0, 0, 0⟩, some ⟨10, 0, 0⟩, none, none]
      [0, 0, 0, 0] ⟨0, 0, 0⟩ (by norm_num) (by norm_num) rfl (by norm_num)
      (by rw [dist_axis]; norm_num)
      (by rw [dist_axis]; norm_num)]
  rw [hopPoint_axis 0 10 0 0 5 (by norm_num)]
  norm_num [List.set]
  rw [
    calcLoop_near' (5) ⟨10, 0, 0⟩ 11 10 1 0 [some ⟨5, 0, 0⟩, some ⟨10, 0, 0⟩, none, none]
      [5, 0, 0, 0] ⟨10, 0, 0⟩ (by norm_num) (by norm_num) rfl (by norm_num)
      (by rw [dist_axis]; norm_num)]
  norm_num
  rw [
    calcLoop_none' (5) ⟨10, 0, 0⟩ false 10 9 2 0 [some ⟨5, 0, 0⟩, some ⟨10, 0, 0⟩, none, none]
      [5, 0, 0, 0] (by norm_num) (by norm_num) rfl]

theorem walkAmax1 :
    calculate_path_length 12 [some ⟨0, 0, 0⟩, some ⟨10, 0, 0⟩, none, none] 
      (100) [0, 0, 0, 0] ⟨10, 0, 0⟩ false
    = ([some ⟨0, 0, 0⟩, some ⟨10, 0, 0⟩, none, none], [0, 0, 0, 0]) := by
  unfold calculate_path_length
  rw [
    calcLoop_near' (100) ⟨10, 0, 0⟩ 12 11 0 0 [some ⟨0, 0, 0⟩, some ⟨10, 0, 0⟩, none, none]
      [0, 0, 0, 0] ⟨0, 0, 0⟩ (by norm_num) (by norm_num) rfl (by norm_num)
      (by rw [dist_axis]; norm_num)]
  norm_num
  rw [
    calcLoop_near' (100) ⟨10, 0, 0⟩ 11 10 1 0 [some ⟨0, 0, 0⟩, some ⟨10, 0, 0⟩, none, none]
      [0, 0, 0, 0] ⟨10, 0, 0⟩ (by norm_num) (by norm_num) rfl (by norm_num)
      (by rw [dist_axis]; norm_num)]
  norm_num
  rw [
    calcLoop_none' (100) ⟨10, 0, 0⟩ false 10 9 2 0 [some ⟨0, 0, 0⟩, some ⟨10, 0, 0⟩, none, none]
      [0, 0, 0, 0] (by norm_num) (by norm_num) rfl]

noncomputable def eA1 : RunningD :=
  ⟨"subject1", ⟨10, 0, 0⟩, 0, 0.5, 10,
    [some ⟨5, 0, 0⟩, some ⟨10, 0, 0⟩, none, none],
    [some ⟨0, 0, 0⟩, some ⟨10, 0, 0⟩, none, none],
    [5, 0, 0, 0],
    [0, 0, 0, 0],
    10, 1, 5, 100, 10,
    false, 1, 1, 0, 0, 0, 0, 0, 0⟩

theorem stepA1e : RunningD.add_point eA0 12 ⟨10, 0, 0⟩ 1 false = eA1 := by
  refine (add_point_eval eA0 12 ⟨10, 0, 0⟩ 1 (10) (10) (10)
    (5) (100) 1
    [some ⟨0, 0, 0⟩, some ⟨10, 0, 0⟩, none, none]
    [some ⟨0, 0, 0⟩, some ⟨10, 0, 0⟩, none, none]
    [some ⟨5, 0, 0⟩, some ⟨10, 0, 0⟩, none, none]
    [some ⟨0, 0, 0⟩, some ⟨10, 0, 0⟩, none, none]
    [5, 0, 0, 0] [0, 0, 0, 0] (0)
    rfl
    (by simp only [eA0]; rw [dist_axis]; norm_num)
    (by simp only [eA0] <;> ring)
    (by simp only [eA0]; push_cast; field_simp <;> ring)
    (by simp only [eA0] <;> norm_num)
    (by simp only [eA0] <;> norm_num)
    (by simp only [eA0] <;> norm_num)
    (by simp only [eA0] <;> rfl)
    (by simp only [eA0] <;> rfl)
    walkAmin1 walkAmax1
    (by rw [fdEstimates_max_zero]; simp)).trans ?_
  rfl

theorem walkAmin2 :
    calculate_path_length 12 [some ⟨5, 0, 0⟩, some ⟨10, 0, 0⟩, some ⟨20, 0, 0⟩, none] 
      (5) [5, 0, 0, 0] ⟨20, 0, 0⟩ false
    = ([some ⟨15, 0, 0⟩, some ⟨15, 0, 0⟩, some ⟨20, 0, 0⟩, none], [15, 5, 0, 0]) := by
  unfold calculate_path_length
  rw [
    calcLoop_hop_stay' (5) ⟨20, 0, 0⟩ 12 11 0 0 [some ⟨5, 0, 0⟩, some ⟨10, 0, 0⟩, some ⟨20, 0, 0⟩, none]
      [5, 0, 0, 0] ⟨5, 0, 0⟩ (by norm_num) (by norm_num) rfl (by norm_num)
      (by rw [dist_axis]; norm_num)]
  rw [hopPoint_axis 5 20 0 0 5 (by norm_num)]
  norm_num [List.set]
  rw [
    calcLoop_hop_commit' (5) ⟨20, 0, 0⟩ 11 10 0 (5) [some ⟨10, 0, 0⟩, some ⟨10, 0, 0⟩, some ⟨20, 0, 0⟩, none]
      [5, 0, 0, 0] ⟨10, 0, 0⟩ (by norm_num) (by norm_num) rfl (by norm_num)
      (by rw [dist_axis]; norm_num)
      (by rw [dist_axis]; norm_num)]
  rw [hopPoint_axis 10 20 0 0 5 (by norm_num)]
  norm_num [List.set]
  rw [
    calcLoop_hop_commit' (5) ⟨20, 0, 0⟩ 10 9 1 0 [some ⟨15, 0, 0⟩, some ⟨10, 0, 0⟩, some ⟨20, 0, 0⟩, none]
      [15, 0, 0, 0] ⟨10, 0, 0⟩ (by norm_num) (by norm_num) rfl (by norm_num)
      (by rw [dist_axis]; norm_num)
      (by rw [dist_axis]; norm_num)]
  rw [hopPoint_axis 10 20 0 0 5 (by norm_num)]
  norm_num [List.set]
  rw [
    calcLoop_near' (5) ⟨20, 0, 0⟩ 9 8 2 0 [some ⟨15, 0, 0⟩, some ⟨15, 0, 0⟩, some ⟨20, 0, 0⟩, none]
      [15, 5, 0, 0] ⟨20, 0, 0⟩ (by norm_num) (by norm_num) rfl (by norm_num)
      (by rw [dist_axis]; norm_num)]
  norm_num
  rw [
    calcLoop_none' (5) ⟨20, 0, 0⟩ false 8 7 3 0 [some ⟨15, 0, 0⟩, some ⟨15, 0, 0⟩, some ⟨20, 0, 0⟩, none]
      [15, 5, 0, 0] (by norm_num) (by norm_num) rfl]

theorem walkAmax2 :
    calculate_path_length 12 [some ⟨0, 0, 0⟩, some ⟨10, 0, 0⟩, some ⟨20, 0, 0⟩, none] 
      (100) [0, 0, 0, 0] ⟨20, 0, 0⟩ false
    = ([some ⟨0, 0, 0⟩, some ⟨10, 0, 0⟩, some ⟨20, 0, 0⟩, none], [0, 0, 0, 0]) := by
  unfold calculate_path_length
  rw [
    calcLoop_near' (100) ⟨20, 0, 0⟩ 12 11 0 0 [some ⟨0, 0, 0⟩, some ⟨10, 0, 0⟩, some ⟨20, 0, 0⟩, none]
      [0, 0, 0, 0] ⟨0, 0, 0⟩ (by norm_num) (by norm_num) rfl (by norm_num)
      (by rw [dist_axis]; norm_num)]
  norm_num
  rw [
    calcLoop_near' (100) ⟨20, 0, 0⟩ 11 10 1 0 [some ⟨0, 0, 0⟩, some ⟨10, 0, 0⟩, some ⟨20, 0, 0⟩, none]
      [0, 0, 0, 0] ⟨10, 0, 0⟩ (by norm_num) (by norm_num) rfl (by norm_num)
      (by rw [dist_axis]; norm_num)]
  norm_num
  rw [
    calcLoop_near' (100) ⟨20, 0, 0⟩ 10 9 2 0 [some ⟨0, 0, 0⟩, some ⟨10, 0, 0⟩, some ⟨20, 0, 0⟩, none]
      [0, 0, 0, 0] ⟨20, 0, 0⟩ (by norm_num) (by norm_num) rfl (by norm_num)
      (by rw [dist_axis]; norm_num)]
  norm_num
  rw [
    calcLoop_none' (100) ⟨20, 0, 0⟩ false 9 8 3 0 [some ⟨0, 0, 0⟩, some ⟨10, 0, 0⟩, some ⟨20, 0, 0⟩, none]
      [0, 0, 0, 0] (by norm_num) (by norm_num) rfl]

noncomputable def eA2 : RunningD :=
  ⟨"subject1", ⟨20, 0, 0⟩, 0, 0.5, 10,
    [some ⟨15, 0, 0⟩, some ⟨15, 0, 0⟩, some ⟨20, 0, 0⟩, none],
    [some ⟨0, 0, 0⟩, some ⟨10, 0, 0⟩, some ⟨20, 0, 0⟩, none],
    [15, 5, 0, 0],
    [0, 0, 0, 0],
    20, 2, 5, 100, 10,
    false, 2, 1, 0, 0, 0, 0, 0, 0⟩

theorem stepA2e : RunningD.add_point eA1 12 ⟨20, 0, 0⟩ 2 false = eA2 := by
  refine (add_point_eval eA1 12 ⟨20, 0, 0⟩ 2 (10) (20) (10)
    (5) (100) 1
    [some ⟨5, 0, 0⟩, some ⟨10, 0, 0⟩, some ⟨20, 0, 0⟩, none]
    [some ⟨0, 0, 0⟩, some ⟨10, 0, 0⟩, some ⟨20, 0, 0⟩, none]
    [some ⟨15, 0, 0⟩, some ⟨15, 0, 0⟩, some ⟨20, 0, 0⟩, none]
    [some ⟨0, 0, 0⟩, some ⟨10, 0, 0⟩, some ⟨20, 0, 0⟩, none]
    [15, 5, 0, 0] [0, 0, 0, 0] (0)
    rfl
    (by simp only [eA1]; rw [dist_axis]; norm_num)
    (by simp only [eA1] <;> ring)
    (by simp only [eA1]; push_cast; field_simp <;> ring)
    (by simp only [eA1] <;> norm_num)
    (by simp only [eA1] <;> norm_num)
    (by simp only [eA1] <;> norm_num)
    (by simp only [eA1] <;> rfl)
    (by simp only [eA1] <;> rfl)
    walkAmin2 walkAmax2
    (by rw [fdEstimates_max_zero]; simp)).trans ?_
  rfl

theorem walkAmin3 :
    calculate_path_length 12 [some ⟨15, 0, 0⟩, some ⟨15, 0, 0⟩, some ⟨20, 0, 0⟩, some ⟨30, 0, 0⟩] 
      (5) [15, 5, 0, 0] ⟨30, 0, 0⟩ false
    = ([some ⟨25, 0, 0⟩, some ⟨25, 0, 0⟩, some ⟨25, 0, 0⟩, some ⟨30, 0, 0⟩], [25, 15, 5, 0]) := by
  unfold calculate_path_length
  rw [
    calcLoop_hop_stay' (5) ⟨30, 0, 0⟩ 12 11 0 0 [some ⟨15, 0, 0⟩, some ⟨15, 0, 0⟩, some ⟨20, 0, 0⟩, some ⟨30, 0, 0⟩]
      [15, 5, 0, 0] ⟨15, 0, 0⟩ (by norm_num) (by norm_num) rfl (by norm_num)
      (by rw [dist_axis]; norm_num)]
  rw [hopPoint_axis 15 30 0 0 5 (by norm_num)]
  norm_num [List.set]
  rw [
    calcLoop_hop_commit' (5) ⟨30, 0, 0⟩ 11 10 0 (5) [some ⟨20, 0, 0⟩, some ⟨15, 0, 0⟩, some ⟨20, 0, 0⟩, some ⟨30, 0, 0⟩]
      [15, 5, 0, 0] ⟨20, 0, 0⟩ (by norm_num) (by norm_num) rfl (by norm_num)
      (by rw [dist_axis]; norm_num)
      (by rw [dist_axis]; norm_num)]
  rw [hopPoint_axis 20 30 0 0 5 (by norm_num)]
  norm_num [List.set]
  rw [
    calcLoop_hop_stay' (5) ⟨30, 0, 0⟩ 10 9 1 0 [some ⟨25, 0, 0⟩, some ⟨15, 0, 0⟩, some ⟨20, 0, 0⟩, some ⟨30, 0, 0⟩]
      [25, 5, 0, 0] ⟨15, 0, 0⟩ (by norm_num) (by norm_num) rfl (by norm_num)
      (by rw [dist_axis]; norm_num)]
  rw [hopPoint_axis 15 30 0 0 5 (by norm_num)]
  norm_num [List.set]
  rw [
    calcLoop_hop_commit' (5) ⟨30, 0, 0⟩ 9 8 1 (5) [some ⟨25, 0, 0⟩, some ⟨20, 0, 0⟩, some ⟨20, 0, 0⟩, some ⟨30, 0, 0⟩]
      [25, 5, 0, 0] ⟨20, 0, 0⟩ (by norm_num) (by norm_num) rfl (by norm_num)
      (by rw [dist_axis]; norm_num)
      (by rw [dist_axis]; norm_num)]
  rw [hopPoint_axis 20 30 0 0 5 (by norm_num)]
  norm_num [List.set]
  rw [
    calcLoop_hop_commit' (5) ⟨30, 0, 0⟩ 8 7 2 0 [some ⟨25, 0, 0⟩, some ⟨25, 0, 0⟩, some ⟨20, 0, 0⟩, some ⟨30, 0, 0⟩]
      [25, 15, 0, 0] ⟨20, 0, 0⟩ (by norm_num) (by norm_num) rfl (by norm_num)
      (by rw [dist_axis]; norm_num)
      (by rw [dist_axis]; norm_num)]
  rw [hopPoint_axis 20 30 0 0 5 (by norm_num)]
  norm_num [List.set]
  rw [
    calcLoop_near' (5) ⟨30, 0, 0⟩ 7 6 3 0 [some ⟨25, 0, 0⟩, some ⟨25, 0, 0⟩, some ⟨25, 0, 0⟩, some ⟨30, 0, 0⟩]
      [25, 15, 5, 0] ⟨30, 0, 0⟩ (by norm_num) (by norm_num) rfl (by norm_num)
      (by rw [dist_axis]; norm_num)]
  norm_num
  rw [
    calcLoop_exit' (5) ⟨30, 0, 0⟩ false 6 5 4 0 [some ⟨25, 0, 0⟩, some ⟨25, 0, 0⟩, some ⟨25, 0, 0⟩, some ⟨30, 0, 0⟩]
      [25, 15, 5, 0] (by norm_num) (by norm_num)]

theorem walkAmax3 :
    calculate_path_length 12 [some ⟨0, 0, 0⟩, some ⟨10, 0, 0⟩, some ⟨20, 0, 0⟩, some ⟨30, 0, 0⟩] 
      (100) [0, 0, 0, 0] ⟨30, 0, 0⟩ false
    = ([some ⟨0, 0, 0⟩, some ⟨10, 0, 0⟩, some ⟨20, 0, 0⟩, some ⟨30, 0, 0⟩], [0, 0, 0, 0]) := by
  unfold calculate_path_length
  rw [
    calcLoop_near' (100) ⟨30, 0, 0⟩ 12 11 0 0 [some ⟨0, 0, 0⟩, some ⟨10, 0, 0⟩, some ⟨20, 0, 0⟩, some ⟨30, 0, 0⟩]
      [0, 0, 0, 0] ⟨0, 0, 0⟩ (by norm_num) (by norm_num) rfl (by norm_num)
      (by rw [dist_axis]; norm_num)]
  norm_num
  rw [
    calcLoop_near' (100) ⟨30, 0, 0⟩ 11 10 1 0 [some ⟨0, 0, 0⟩, some ⟨10, 0, 0⟩, some ⟨20, 0, 0⟩, some ⟨30, 0, 0⟩]
      [0, 0, 0, 0] ⟨10, 0, 0⟩ (by norm_num) (by norm_num) rfl (by norm_num)
      (by rw [dist_axis]; norm_num)]
  norm_num
  rw [
    calcLoop_near' (100) ⟨30, 0, 0⟩ 10 9 2 0 [some ⟨0, 0, 0⟩, some ⟨10, 0, 0⟩, some ⟨20, 0, 0⟩, some ⟨30, 0, 0⟩]
      [0, 0, 0, 0] ⟨20, 0, 0⟩ (by norm_num) (by norm_num) rfl (by norm_num)
      (by rw [dist_axis]; norm_num)]
  norm_num
  rw [
    calcLoop_near' (100) ⟨30, 0, 0⟩ 9 8 3 0 [some ⟨0, 0, 0⟩, some ⟨10, 0, 0⟩, some ⟨20, 0, 0⟩, some ⟨30, 0, 0⟩]
      [0, 0, 0, 0] ⟨30, 0, 0⟩ (by norm_num) (by norm_num) rfl (by norm_num)
      (by rw [dist_axis]; norm_num)]
  norm_num
  rw [
    calcLoop_exit' (100) ⟨30, 0, 0⟩ false 8 7 4 0 [some ⟨0, 0, 0⟩, some ⟨10, 0, 0⟩, some ⟨20, 0, 0⟩, some ⟨30, 0, 0⟩]
      [0, 0, 0, 0] (by norm_num) (by norm_num)]

noncomputable def eA3 : RunningD :=
  ⟨"subject1", ⟨30, 0, 0⟩, 0, 0.5, 10,
    [some ⟨25, 0, 0⟩, some ⟨25, 0, 0⟩, some ⟨25, 0, 0⟩, some ⟨30, 0, 0⟩],
    [some ⟨0, 0, 0⟩, some ⟨10, 0, 0⟩, some ⟨20, 0, 0⟩, some ⟨30, 0, 0⟩],
    [25, 15, 5, 0],
    [0, 0, 0, 0],
    30, 3, 5, 100, 10,
    false, 3, 1, 0, 0, 0, 0, 0, 0⟩

theorem stepA3e : RunningD.add_point eA2 12 ⟨30, 0, 0⟩ 3 false = eA3 := by
  refine (add_point_eval eA2 12 ⟨30, 0, 0⟩ 3 (10) (30) (10)
    (5) (100) 1
    [some ⟨15, 0, 0⟩, some ⟨15, 0, 0⟩, some ⟨20, 0, 0⟩, some ⟨30, 0, 0⟩]
    [some ⟨0, 0, 0⟩, some ⟨10, 0, 0⟩, some ⟨20, 0, 0⟩, some ⟨30, 0, 0⟩]
    [some ⟨25, 0, 0⟩, some ⟨25, 0, 0⟩, some ⟨25, 0, 0⟩, some ⟨30, 0, 0⟩]
    [some ⟨0, 0, 0⟩, some ⟨10, 0, 0⟩, some ⟨20, 0, 0⟩, some ⟨30, 0, 0⟩]
    [25, 15, 5, 0] [0, 0, 0, 0] (0)
    rfl
    (by simp only [eA2]; rw [dist_axis]; norm_num)
    (by simp only [eA2] <;> ring)
    (by simp only [eA2]; push_cast; field_simp <;> ring)
    (by simp only [eA2] <;> norm_num)
    (by simp only [eA2] <;> norm_num)
    (by simp only [eA2] <;> norm_num)
    (by simp only [eA2] <;> rfl)
    (by simp only [eA2] <;> rfl)
    walkAmin3 walkAmax3
    (by rw [fdEstimates_max_zero]; simp)).trans ?_
  rfl

theorem walkAmin4 :
    calculate_path_length 12 [some ⟨25, 0, 0⟩, some ⟨25, 0, 0⟩, some ⟨25, 0, 0⟩, some ⟨30, 0, 0⟩] 
      (5) [25, 15, 5, 0] ⟨40, 0, 0⟩ false
    = ([some ⟨35, 0, 0⟩, some ⟨35, 0, 0⟩, some ⟨35, 0, 0⟩, some ⟨35, 0, 0⟩], [35, 25, 15, 5]) := by
  unfold calculate_path_length
  rw [
    calcLoop_hop_stay' (5) ⟨40, 0, 0⟩ 12 11 0 0 [some ⟨25, 0, 0⟩, some ⟨25, 0, 0⟩, some ⟨25, 0, 0⟩, some ⟨30, 0, 0⟩]
      [25, 15, 5, 0] ⟨25, 0, 0⟩ (by norm_num) (by norm_num) rfl (by norm_num)
      (by rw [dist_axis]; norm_num)]
  rw [hopPoint_axis 25 40 0 0 5 (by norm_num)]
  norm_num [List.set]
  rw [
    calcLoop_hop_commit' (5) ⟨40, 0, 0⟩ 11 10 0 (5) [some ⟨30, 0, 0⟩, some ⟨25, 0, 0⟩, some ⟨25, 0, 0⟩, some ⟨30, 0, 0⟩]
      [25, 15, 5, 0] ⟨30, 0, 0⟩ (by norm_num) (by norm_num) rfl (by norm_num)
      (by rw [dist_axis]; norm_num)
      (by rw [dist_axis]; norm_num)]
  rw [hopPoint_axis 30 40 0 0 5 (by norm_num)]
  norm_num [List.set]
  rw [
    calcLoop_hop_stay' (5) ⟨40, 0, 0⟩ 10 9 1 0 [some ⟨35, 0, 0⟩, some ⟨25, 0, 0⟩, some ⟨25, 0, 0⟩, some ⟨30, 0, 0⟩]
      [35, 15, 5, 0] ⟨25, 0, 0⟩ (by norm_num) (by norm_num) rfl (by norm_num)
      (by rw [dist_axis]; norm_num)]
  rw [hopPoint_axis 25 40 0 0 5 (by norm_num)]
  norm_num [List.set]
  rw [
    calcLoop_hop_commit' (5) ⟨40, 0, 0⟩ 9 8 1 (5) [some ⟨35, 0, 0⟩, some ⟨30, 0, 0⟩, some ⟨25, 0, 0⟩, some ⟨30, 0, 0⟩]
      [35, 15, 5, 0] ⟨30, 0, 0⟩ (by norm_num) (by norm_num) rfl (by norm_num)
      (by rw [dist_axis]; norm_num)
      (by rw [dist_axis]; norm_num)]
  rw [hopPoint_axis 30 40 0 0 5 (by norm_num)]
  norm_num [List.set]
  rw [
    calcLoop_hop_stay' (5) ⟨40, 0, 0⟩ 8 7 2 0 [some ⟨35, 0, 0⟩, some ⟨35, 0, 0⟩, some ⟨25, 0, 0⟩, some ⟨30, 0, 0⟩]
      [35, 25, 5, 0] ⟨25, 0, 0⟩ (by norm_num) (by norm_num) rfl (by norm_num)
      (by rw [dist_axis]; norm_num)]
  rw [hopPoint_axis 25 40 0 0 5 (by norm_num)]
  norm_num [List.set]
  rw [
    calcLoop_hop_commit' (5) ⟨40, 0, 0⟩ 7 6 2 (5) [some ⟨35, 0, 0⟩, some ⟨35, 0, 0⟩, some ⟨30, 0, 0⟩, some ⟨30, 0, 0⟩]
      [35, 25, 5, 0] ⟨30, 0, 0⟩ (by norm_num) (by norm_num) rfl (by norm_num)
      (by rw [dist_axis]; norm_num)
      (by rw [dist_axis]; norm_num)]
  rw [hopPoint_axis 30 40 0 0 5 (by norm_num)]
  norm_num [List.set]
  rw [
    calcLoop_hop_commit' (5) ⟨40, 0, 0⟩ 6 5 3 0 [some ⟨35, 0, 0⟩, some ⟨35, 0, 0⟩, some ⟨35, 0, 0⟩, some ⟨30, 0, 0⟩]
      [35, 25, 15, 0] ⟨30, 0, 0⟩ (by norm_num) (by norm_num) rfl (by norm_num)
      (by rw [dist_axis]; norm_num)
      (by rw [dist_axis]; norm_num)]
  rw [hopPoint_axis 30 40 0 0 5 (by norm_num)]
  norm_num [List.set]
  rw [
    calcLoop_exit' (5) ⟨40, 0, 0⟩ false 5 4 4 0 [some ⟨35, 0, 0⟩, some ⟨35, 0, 0⟩, some ⟨35, 0, 0⟩, some ⟨35, 0, 0⟩]
      [35, 25, 15, 5] (by norm_num) (by norm_num)]

theorem walkAmax4 :
    calculate_path_length 12 [some ⟨0, 0, 0⟩, some ⟨10, 0, 0⟩, some ⟨20, 0, 0⟩, some ⟨30, 0, 0⟩] 
      (100) [0, 0, 0, 0] ⟨40, 0, 0⟩ false
    = ([some ⟨0, 0, 0⟩, some ⟨10, 0, 0⟩, some ⟨20, 0, 0⟩, some ⟨30, 0, 0⟩], [0, 0, 0, 0]) := by
  unfold calculate_path_length
  rw [
    calcLoop_near' (100) ⟨40, 0, 0⟩ 12 11 0 0 [some ⟨0, 0, 0⟩, some ⟨10, 0, 0⟩, some ⟨20, 0, 0⟩, some ⟨30, 0, 0⟩]
      [0, 0, 0, 0] ⟨0, 0, 0⟩ (by norm_num) (by norm_num) rfl (by norm_num)
      (by rw [dist_axis]; norm_num)]
  norm_num
  rw [
    calcLoop_near' (100) ⟨40, 0, 0⟩ 11 10 1 0 [some ⟨0, 0, 0⟩, some ⟨10, 0, 0⟩, some ⟨20, 0, 0⟩, some ⟨30, 0, 0⟩]
      [0, 0, 0, 0] ⟨10, 0, 0⟩ (by norm_num) (by norm_num) rfl (by norm_num)
      (by rw [dist_axis]; norm_num)]
  norm_num
  rw [
    calcLoop_near' (100) ⟨40, 0, 0⟩ 10 9 2 0 [some ⟨0, 0, 0⟩, some ⟨10, 0, 0⟩, some ⟨20, 0, 0⟩, some ⟨30, 0, 0⟩]
      [0, 0, 0, 0] ⟨20, 0, 0⟩ (by norm_num) (by norm_num) rfl (by norm_num)
      (by rw [dist_axis]; norm_num)]
  norm_num
  rw [
    calcLoop_near' (100) ⟨40, 0, 0⟩ 9 8 3 0 [some ⟨0, 0, 0⟩, some ⟨10, 0, 0⟩, some ⟨20, 0, 0⟩, some ⟨30, 0, 0⟩]
      [0, 0, 0, 0] ⟨30, 0, 0⟩ (by norm_num) (by norm_num) rfl (by norm_num)
      (by rw [dist_axis]; norm_num)]
  norm_num
  rw [
    calcLoop_exit' (100) ⟨40, 0, 0⟩ false 8 7 4 0 [some ⟨0, 0, 0⟩, some ⟨10, 0, 0⟩, some ⟨20, 0, 0⟩, some ⟨30, 0, 0⟩]
      [0, 0, 0, 0] (by norm_num) (by norm_num)]

noncomputable def eA4 : RunningD :=
  ⟨"subject1", ⟨40, 0, 0⟩, 0, 0.5, 10,
    [some ⟨35, 0, 0⟩, some ⟨35, 0, 0⟩, some ⟨35, 0, 0⟩, some ⟨35, 0, 0⟩],
    [some ⟨0, 0, 0⟩, some ⟨10, 0, 0⟩, some ⟨20, 0, 0⟩, some ⟨30, 0, 0⟩],
    [35, 25, 15, 5],
    [0, 0, 0, 0],
    40, 4, 5, 100, 10,
    false, 4, 1, 0, 0, 0, 0, 0, 0⟩

theorem stepA4e : RunningD.add_point eA3 12 ⟨40, 0, 0⟩ 4 false = eA4 := by
  refine (add_point_eval eA3 12 ⟨40, 0, 0⟩ 4 (10) (40) (10)
    (5) (100) 1
    [some ⟨25, 0, 0⟩, some ⟨25, 0, 0⟩, some ⟨25, 0, 0⟩, some ⟨30, 0, 0⟩]
    [some ⟨0, 0, 0⟩, some ⟨10, 0, 0⟩, some ⟨20, 0, 0⟩, some ⟨30, 0, 0⟩]
    [some ⟨35, 0, 0⟩, some ⟨35, 0, 0⟩, some ⟨35, 0, 0⟩, some ⟨35, 0, 0⟩]
    [some ⟨0, 0, 0⟩, some ⟨10, 0, 0⟩, some ⟨20, 0, 0⟩, some ⟨30, 0, 0⟩]
    [35, 25, 15, 5] [0, 0, 0, 0] (0)
    rfl
    (by simp only [eA3]; rw [dist_axis]; norm_num)
    (by simp only [eA3] <;> ring)
    (by simp only [eA3]; push_cast; field_simp <;> ring)
    (by simp only [eA3] <;> norm_num)
    (by simp only [eA3] <;> norm_num)
    (by simp only [eA3] <;> norm_num)
    (by simp only [eA3] <;> rfl)
    (by simp only [eA3] <;> rfl)
    walkAmin4 walkAmax4
    (by rw [fdEstimates_max_zero]; simp)).trans ?_
  rfl

theorem walkAmin5 :
    calculate_path_length 12 [some ⟨35, 0, 0⟩, some ⟨35, 0, 0⟩, some ⟨35, 0, 0⟩, some ⟨35, 0, 0⟩] 
      (5) [35, 25, 15, 5] ⟨50, 0, 0⟩ false
    = ([some ⟨45, 0, 0⟩, some ⟨45, 0, 0⟩, some ⟨45, 0, 0⟩, some ⟨45, 0, 0⟩], [45, 35, 25, 15]) := by
  unfold calculate_path_length
  rw [
    calcLoop_hop_stay' (5) ⟨50, 0, 0⟩ 12 11 0 0 [some ⟨35, 0, 0⟩, some ⟨35, 0, 0⟩, some ⟨35, 0, 0⟩, some ⟨35, 0, 0⟩]
      [35, 25, 15, 5] ⟨35, 0, 0⟩ (by norm_num) (by norm_num) rfl (by norm_num)
      (by rw [dist_axis]; norm_num)]
  rw [hopPoint_axis 35 50 0 0 5 (by norm_num)]
  norm_num [List.set]
  rw [
    calcLoop_hop_commit' (5) ⟨50, 0, 0⟩ 11 10 0 (5) [some ⟨40, 0, 0⟩, some ⟨35, 0, 0⟩, some ⟨35, 0, 0⟩, some ⟨35, 0, 0⟩]
      [35, 25, 15, 5] ⟨40, 0, 0⟩ (by norm_num) (by norm_num) rfl (by norm_num)
      (by rw [dist_axis]; norm_num)
      (by rw [dist_axis]; norm_num)]
  rw [hopPoint_axis 40 50 0 0 5 (by norm_num)]
  norm_num [List.set]
  rw [
    calcLoop_hop_stay' (5) ⟨50, 0, 0⟩ 10 9 1 0 [some ⟨45, 0, 0⟩, some ⟨35, 0, 0⟩, some ⟨35, 0, 0⟩, some ⟨35, 0, 0⟩]
      [45, 25, 15, 5] ⟨35, 0, 0⟩ (by norm_num) (by norm_num) rfl (by norm_num)
      (by rw [dist_axis]; norm_num)]
  rw [hopPoint_axis 35 50 0 0 5 (by norm_num)]
  norm_num [List.set]
  rw [
    calcLoop_hop_commit' (5) ⟨50, 0, 0⟩ 9 8 1 (5) [some ⟨45, 0, 0⟩, some ⟨40, 0, 0⟩, some ⟨35, 0, 0⟩, some ⟨35, 0, 0⟩]
      [45, 25, 15, 5] ⟨40, 0, 0⟩ (by norm_num) (by norm_num) rfl (by norm_num)
      (by rw [dist_axis]; norm_num)
      (by rw [dist_axis]; norm_num)]
  rw [hopPoint_axis 40 50 0 0 5 (by norm_num)]
  norm_num [List.set]
  rw [
    calcLoop_hop_stay' (5) ⟨50, 0, 0⟩ 8 7 2 0 [some ⟨45, 0, 0⟩, some ⟨45, 0, 0⟩, some ⟨35, 0, 0⟩, some ⟨35, 0, 0⟩]
      [45, 35, 15, 5] ⟨35, 0, 0⟩ (by norm_num) (by norm_num) rfl (by norm_num)
      (by rw [dist_axis]; norm_num)]
  rw [hopPoint_axis 35 50 0 0 5 (by norm_num)]
  norm_num [List.set]
  rw [
    calcLoop_hop_commit' (5) ⟨50, 0, 0⟩ 7 6 2 (5) [some ⟨45, 0, 0⟩, some ⟨45, 0, 0⟩, some ⟨40, 0, 0⟩, some ⟨35, 0, 0⟩]
      [45, 35, 15, 5] ⟨40, 0, 0⟩ (by norm_num) (by norm_num) rfl (by norm_num)
      (by rw [dist_axis]; norm_num)
      (by rw [dist_axis]; norm_num)]
  rw [hopPoint_axis 40 50 0 0 5 (by norm_num)]
  norm_num [List.set]
  rw [
    calcLoop_hop_stay' (5) ⟨50, 0, 0⟩ 6 5 3 0 [some ⟨45, 0, 0⟩, some ⟨45, 0, 0⟩, some ⟨45, 0, 0⟩, some ⟨35, 0, 0⟩]
      [45, 35, 25, 5] ⟨35, 0, 0⟩ (by norm_num) (by norm_num) rfl (by norm_num)
      (by rw [dist_axis]; norm_num)]
  rw [hopPoint_axis 35 50 0 0 5 (by norm_num)]
  norm_num [List.set]
  rw [
    calcLoop_hop_commit' (5) ⟨50, 0, 0⟩ 5 4 3 (5) [some ⟨45, 0, 0⟩, some ⟨45, 0, 0⟩, some ⟨45, 0, 0⟩, some ⟨40, 0, 0⟩]
      [45, 35, 25, 5] ⟨40, 0, 0⟩ (by norm_num) (by norm_num) rfl (by norm_num)
      (by rw [dist_axis]; norm_num)
      (by rw [dist_axis]; norm_num)]
  rw [hopPoint_axis 40 50 0 0 5 (by norm_num)]
  norm_num [List.set]
  rw [
    calcLoop_exit' (5) ⟨50, 0, 0⟩ false 4 3 4 0 [some ⟨45, 0, 0⟩, some ⟨45, 0, 0⟩, some ⟨45, 0, 0⟩, some ⟨45, 0, 0⟩]
      [45, 35, 25, 15] (by norm_num) (by norm_num)]

theorem walkAmax5 :
    calculate_path_length 12 [some ⟨0, 0, 0⟩, some ⟨10, 0, 0⟩, some ⟨20, 0, 0⟩, some ⟨30, 0, 0⟩] 
      (100) [0, 0, 0, 0] ⟨50, 0, 0⟩ false
    = ([some ⟨0, 0, 0⟩, some ⟨10, 0, 0⟩, some ⟨20, 0, 0⟩, some ⟨30, 0, 0⟩], [0, 0, 0, 0]) := by
  unfold calculate_path_length
  rw [
    calcLoop_near' (100) ⟨50, 0, 0⟩ 12 11 0 0 [some ⟨0, 0, 0⟩, some ⟨10, 0, 0⟩, some ⟨20, 0, 0⟩, some ⟨30, 0, 0⟩]
      [0, 0, 0, 0] ⟨0, 0, 0⟩ (by norm_num) (by norm_num) rfl (by norm_num)
      (by rw [dist_axis]; norm_num)]
  norm_num
  rw [
    calcLoop_near' (100) ⟨50, 0, 0⟩ 11 10 1 0 [some ⟨0, 0, 0⟩, some ⟨10, 0, 0⟩, some ⟨20, 0, 0⟩, some ⟨30, 0, 0⟩]
      [0, 0, 0, 0] ⟨10, 0, 0⟩ (by norm_num) (by norm_num) rfl (by norm_num)
      (by rw [dist_axis]; norm_num)]
  norm_num
  rw [
    calcLoop_near' (100) ⟨50, 0, 0⟩ 10 9 2 0 [some ⟨0, 0, 0⟩, some ⟨10, 0, 0⟩, some ⟨20, 0, 0⟩, some ⟨30, 0, 0⟩]
      [0, 0, 0, 0] ⟨20, 0, 0⟩ (by norm_num) (by norm_num) rfl (by norm_num)
      (by rw [dist_axis]; norm_num)]
  norm_num
  rw [
    calcLoop_near' (100) ⟨50, 0, 0⟩ 9 8 3 0 [some ⟨0, 0, 0⟩, some ⟨10, 0, 0⟩, some ⟨20, 0, 0⟩, some ⟨30, 0, 0⟩]
      [0, 0, 0, 0] ⟨30, 0, 0⟩ (by norm_num) (by norm_num) rfl (by norm_num)
      (by rw [dist_axis]; norm_num)]
  norm_num
  rw [
    calcLoop_exit' (100) ⟨50, 0, 0⟩ false 8 7 4 0 [some ⟨0, 0, 0⟩, some ⟨10, 0, 0⟩, some ⟨20, 0, 0⟩, some ⟨30, 0, 0⟩]
      [0, 0, 0, 0] (by norm_num) (by norm_num)]

noncomputable def eA5 : RunningD :=
  ⟨"subject1", ⟨50, 0, 0⟩, 0, 0.5, 10,
    [some ⟨45, 0, 0⟩, some ⟨45, 0, 0⟩, some ⟨45, 0, 0⟩, some ⟨45, 0, 0⟩],
    [some ⟨0, 0, 0⟩, some ⟨10, 0, 0⟩, some ⟨20, 0, 0⟩, some ⟨30, 0, 0⟩],
    [45, 35, 25, 15],
    [0, 0, 0, 0],
    50, 5, 5, 100, 10,
    false, 5, 1, 0, 0, 0, 0, 0, 0⟩

theorem stepA5e : RunningD.add_point eA4 12 ⟨50, 0, 0⟩ 5 false = eA5 := by
  refine (add_point_eval eA4 12 ⟨50, 0, 0⟩ 5 (10) (50) (10)
    (5) (100) 1
    [some ⟨35, 0, 0⟩, some ⟨35, 0, 0⟩, some ⟨35, 0, 0⟩, some ⟨35, 0, 0⟩]
    [some ⟨0, 0, 0⟩, some ⟨10, 0, 0⟩, some ⟨20, 0, 0⟩, some ⟨30, 0, 0⟩]
    [some ⟨45, 0, 0⟩, some ⟨45, 0, 0⟩, some ⟨45, 0, 0⟩, some ⟨45, 0, 0⟩]
    [some ⟨0, 0, 0⟩, some ⟨10, 0, 0⟩, some ⟨20, 0, 0⟩, some ⟨30, 0, 0⟩]
    [45, 35, 25, 15] [0, 0, 0, 0] (0)
    rfl
    (by simp only [eA4]; rw [dist_axis]; norm_num)
    (by simp only [eA4] <;> ring)
    (by simp only [eA4]; push_cast; field_simp <;> ring)
    (by simp only [eA4] <;> norm_num)
    (by simp only [eA4] <;> norm_num)
    (by simp only [eA4] <;> norm_num)
    (by simp only [eA4] <;> rfl)
    (by simp only [eA4] <;> rfl)
    walkAmin5 walkAmax5
    (by rw [fdEstimates_max_zero]; simp)).trans ?_
  rfl

theorem walkAmin6 :
    calculate_path_length 12 [some ⟨45, 0, 0⟩, some ⟨45, 0, 0⟩, some ⟨45, 0, 0⟩, some ⟨45, 0, 0⟩] 
      (5) [45, 35, 25, 15] ⟨60, 0, 0⟩ false
    = ([some ⟨55, 0, 0⟩, some ⟨55, 0, 0⟩, some ⟨55, 0, 0⟩, some ⟨55, 0, 0⟩], [55, 45, 35, 25]) := by
  unfold calculate_path_length
  rw [
    calcLoop_hop_stay' (5) ⟨60, 0, 0⟩ 12 11 0 0 [some ⟨45, 0, 0⟩, some ⟨45, 0, 0⟩, some ⟨45, 0, 0⟩, some ⟨45, 0, 0⟩]
      [45, 35, 25, 15] ⟨45, 0, 0⟩ (by norm_num) (by norm_num) rfl (by norm_num)
      (by rw [dist_axis]; norm_num)]
  rw [hopPoint_axis 45 60 0 0 5 (by norm_num)]
  norm_num [List.set]
  rw [
    calcLoop_hop_commit' (5) ⟨60, 0, 0⟩ 11 10 0 (5) [some ⟨50, 0, 0⟩, some ⟨45, 0, 0⟩, some ⟨45, 0, 0⟩, some ⟨45, 0, 0⟩]
      [45, 35, 25, 15] ⟨50, 0, 0⟩ (by norm_num) (by norm_num) rfl (by norm_num)
      (by rw [dist_axis]; norm_num)
      (by rw [dist_axis]; norm_num)]
  rw [hopPoint_axis 50 60 0 0 5 (by norm_num)]
  norm_num [List.set]
  rw [
    calcLoop_hop_stay' (5) ⟨60, 0, 0⟩ 10 9 1 0 [some ⟨55, 0, 0⟩, some ⟨45, 0, 0⟩, some ⟨45, 0, 0⟩, some ⟨45, 0, 0⟩]
      [55, 35, 25, 15] ⟨45, 0, 0⟩ (by norm_num) (by norm_num) rfl (by norm_num)
      (by rw [dist_axis]; norm_num)]
  rw [hopPoint_axis 45 60 0 0 5 (by norm_num)]
  norm_num [List.set]
  rw [
    calcLoop_hop_commit' (5) ⟨60, 0, 0⟩ 9 8 1 (5) [some ⟨55, 0, 0⟩, some ⟨50, 0, 0⟩, some ⟨45, 0, 0⟩, some ⟨45, 0, 0⟩]
      [55, 35, 25, 15] ⟨50, 0, 0⟩ (by norm_num) (by norm_num) rfl (by norm_num)
      (by rw [dist_axis]; norm_num)
      (by rw [dist_axis]; norm_num)]
  rw [hopPoint_axis 50 60 0 0 5 (by norm_num)]
  norm_num [List.set]
  rw [
    calcLoop_hop_stay' (5) ⟨60, 0, 0⟩ 8 7 2 0 [some ⟨55, 0, 0⟩, some ⟨55, 0, 0⟩, some ⟨45, 0, 0⟩, some ⟨45, 0, 0⟩]
      [55, 45, 25, 15] ⟨45, 0, 0⟩ (by norm_num) (by norm_num) rfl (by norm_num)
      (by rw [dist_axis]; norm_num)]
  rw [hopPoint_axis 45 60 0 0 5 (by norm_num)]
  norm_num [List.set]
  rw [
    calcLoop_hop_commit' (5) ⟨60, 0, 0⟩ 7 6 2 (5) [some ⟨55, 0, 0⟩, some ⟨55, 0, 0⟩, some ⟨50, 0, 0⟩, some ⟨45, 0, 0⟩]
      [55, 45, 25, 15] ⟨50, 0, 0⟩ (by norm_num) (by norm_num) rfl (by norm_num)
      (by rw [dist_axis]; norm_num)
      (by rw [dist_axis]; norm_num)]
  rw [hopPoint_axis 50 60 0 0 5 (by norm_num)]
  norm_num [List.set]
  rw [
    calcLoop_hop_stay' (5) ⟨60, 0, 0⟩ 6 5 3 0 [some ⟨55, 0, 0⟩, some ⟨55, 0, 0⟩, some ⟨55, 0, 0⟩, some ⟨45, 0, 0⟩]
      [55, 45, 35, 15] ⟨45, 0, 0⟩ (by norm_num) (by norm_num) rfl (by norm_num)
      (by rw [dist_axis]; norm_num)]
  rw [hopPoint_axis 45 60 0 0 5 (by norm_num)]
  norm_num [List.set]
  rw [
    calcLoop_hop_commit' (5) ⟨60, 0, 0⟩ 5 4 3 (5) [some ⟨55, 0, 0⟩, some ⟨55, 0, 0⟩, some ⟨55, 0, 0⟩, some ⟨50, 0, 0⟩]
      [55, 45, 35, 15] ⟨50, 0, 0⟩ (by norm_num) (by norm_num) rfl (by norm_num)
      (by rw [dist_axis]; norm_num)
      (by rw [dist_axis]; norm_num)]
  rw [hopPoint_axis 50 60 0 0 5 (by norm_num)]
  norm_num [List.set]
  rw [
    calcLoop_exit' (5) ⟨60, 0, 0⟩ false 4 3 4 0 [some ⟨55, 0, 0⟩, some ⟨55, 0, 0⟩, some ⟨55, 0, 0⟩, some ⟨55, 0, 0⟩]
      [55, 45, 35, 25] (by norm_num) (by norm_num)]

theorem walkAmax6 :
    calculate_path_length 12 [some ⟨0, 0, 0⟩, some ⟨10, 0, 0⟩, some ⟨20, 0, 0⟩, some ⟨30, 0, 0⟩] 
      (100) [0, 0, 0, 0] ⟨60, 0, 0⟩ false
    = ([some ⟨0, 0, 0⟩, some ⟨10, 0, 0⟩, some ⟨20, 0, 0⟩, some ⟨30, 0, 0⟩], [0, 0, 0, 0]) := by
  unfold calculate_path_length
  rw [
    calcLoop_near' (100) ⟨60, 0, 0⟩ 12 11 0 0 [some ⟨0, 0, 0⟩, some ⟨10, 0, 0⟩, some ⟨20, 0, 0⟩, some ⟨30, 0, 0⟩]
      [0, 0, 0, 0] ⟨0, 0, 0⟩ (by norm_num) (by norm_num) rfl (by norm_num)
      (by rw [dist_axis]; norm_num)]
  norm_num
  rw [
    calcLoop_near' (100) ⟨60, 0, 0⟩ 11 10 1 0 [some ⟨0, 0, 0⟩, some ⟨10, 0, 0⟩, some ⟨20, 0, 0⟩, some ⟨30, 0, 0⟩]
      [0, 0, 0, 0] ⟨10, 0, 0⟩ (by norm_num) (by norm_num) rfl (by norm_num)
      (by rw [dist_axis]; norm_num)]
  norm_num
  rw [
    calcLoop_near' (100) ⟨60, 0, 0⟩ 10 9 2 0 [some ⟨0, 0, 0⟩, some ⟨10, 0, 0⟩, some ⟨20, 0, 0⟩, some ⟨30, 0, 0⟩]
      [0, 0, 0, 0] ⟨20, 0, 0⟩ (by norm_num) (by norm_num) rfl (by norm_num)
      (by rw [dist_axis]; norm_num)]
  norm_num
  rw [
    calcLoop_near' (100) ⟨60, 0, 0⟩ 9 8 3 0 [some ⟨0, 0, 0⟩, some ⟨10, 0, 0⟩, some ⟨20, 0, 0⟩, some ⟨30, 0, 0⟩]
      [0, 0, 0, 0] ⟨30, 0, 0⟩ (by norm_num) (by norm_num) rfl (by norm_num)
      (by rw [dist_axis]; norm_num)]
  norm_num
  rw [
    calcLoop_exit' (100) ⟨60, 0, 0⟩ false 8 7 4 0 [some ⟨0, 0, 0⟩, some ⟨10, 0, 0⟩, some ⟨20, 0, 0⟩, some ⟨30, 0, 0⟩]
      [0, 0, 0, 0] (by norm_num) (by norm_num)]

noncomputable def eA6 : RunningD :=
  ⟨"subject1", ⟨60, 0, 0⟩, 0, 0.5, 10,
    [some ⟨55, 0, 0⟩, some ⟨55, 0, 0⟩, some ⟨55, 0, 0⟩, some ⟨55, 0, 0⟩],
    [some ⟨0, 0, 0⟩, some ⟨10, 0, 0⟩, some ⟨20, 0, 0⟩, some ⟨30, 0, 0⟩],
    [55, 45, 35, 25],
    [0, 0, 0, 0],
    60, 6, 5, 100, 10,
    false, 6, 1, 0, 0, 0, 0, 0, 0⟩

theorem stepA6e : RunningD.add_point eA5 12 ⟨60, 0, 0⟩ 6 false = eA6 := by
  refine (add_point_eval eA5 12 ⟨60, 0, 0⟩ 6 (10) (60) (10)
    (5) (100) 1
    [some ⟨45, 0, 0⟩, some ⟨45, 0, 0⟩, some ⟨45, 0, 0⟩, some ⟨45, 0, 0⟩]
    [some ⟨0, 0, 0⟩, some ⟨10, 0, 0⟩, some ⟨20, 0, 0⟩, some ⟨30, 0, 0⟩]
    [some ⟨55, 0, 0⟩, some ⟨55, 0, 0⟩, some ⟨55, 0, 0⟩, some ⟨55, 0, 0⟩]
    [some ⟨0, 0, 0⟩, some ⟨10, 0, 0⟩, some ⟨20, 0, 0⟩, some ⟨30, 0, 0⟩]
    [55, 45, 35, 25] [0, 0, 0, 0] (0)
    rfl
    (by simp only [eA5]; rw [dist_axis]; norm_num)
    (by simp only [eA5] <;> ring)
    (by simp only [eA5]; push_cast; field_simp <;> ring)
    (by simp only [eA5] <;> norm_num)
    (by simp only [eA5] <;> norm_num)
    (by simp only [eA5] <;> norm_num)
    (by simp only [eA5] <;> rfl)
    (by simp only [eA5] <;> rfl)
    walkAmin6 walkAmax6
    (by rw [fdEstimates_max_zero]; simp)).trans ?_
  rfl

noncomputable def eB0 : RunningD :=
  ⟨"subject1", ⟨0, 0, 0⟩, 0, 0.5, 5,
    [some ⟨0, 0, 0⟩, none, none, none], [some ⟨0, 0, 0⟩, none, none, none],
    [0, 0, 0, 0], [0, 0, 0, 0], 0, 0, 0, 0, 0, false, 0, 0, 0, 0, 0, 0, 0, 0⟩

theorem walkBmax1 :
    calculate_path_length 12 [some ⟨0, 0, 0⟩, some ⟨10, 0, 0⟩, none, none] 
      (50) [0, 0, 0, 0] ⟨10, 0, 0⟩ false
    = ([some ⟨0, 0, 0⟩, some ⟨10, 0, 0⟩, none, none], [0, 0, 0, 0]) := by
  unfold calculate_path_length
  rw [
    calcLoop_near' (50) ⟨10, 0, 0⟩ 12 11 0 0 [some ⟨0, 0, 0⟩, some ⟨10, 0, 0⟩, none, none]
      [0, 0, 0, 0] ⟨0, 0, 0⟩ (by norm_num) (by norm_num) rfl (by norm_num)
      (by rw [dist_axis]; norm_num)]
  norm_num
  rw [
    calcLoop_near' (50) ⟨10, 0, 0⟩ 11 10 1 0 [some ⟨0, 0, 0⟩, some ⟨10, 0, 0⟩, none, none]
      [0, 0, 0, 0] ⟨10, 0, 0⟩ (by norm_num) (by norm_num) rfl (by norm_num)
      (by rw [dist_axis]; norm_num)]
  norm_num
  rw [
    calcLoop_none' (50) ⟨10, 0, 0⟩ false 10 9 2 0 [some ⟨0, 0, 0⟩, some ⟨10, 0, 0⟩, none, none]
      [0, 0, 0, 0] (by norm_num) (by norm_num) rfl]

noncomputable def eB1 : RunningD :=
  ⟨"subject1", ⟨10, 0, 0⟩, 0, 0.5, 5,
    [some ⟨5, 0, 0⟩, some ⟨10, 0, 0⟩, none, none],
    [some ⟨0, 0, 0⟩, some ⟨10, 0, 0⟩, none, none],
    [5, 0, 0, 0],
    [0, 0, 0, 0],
    10, 1, 5, 50, 10,
    false, 1, 1, 0, 0, 0, 0, 0, 0⟩

theorem stepB1e : RunningD.add_point eB0 12 ⟨10, 0, 0⟩ 1 false = eB1 := by
  refine (add_point_eval eB0 12 ⟨10, 0, 0⟩ 1 (10) (10) (10)
    (5) (50) 1
    [some ⟨0, 0, 0⟩, some ⟨10, 0, 0⟩, none, none]
    [some ⟨0, 0, 0⟩, some ⟨10, 0, 0⟩, none, none]
    [some ⟨5, 0, 0⟩, some ⟨10, 0, 0⟩, none, none]
    [some ⟨0, 0, 0⟩, some ⟨10, 0, 0⟩, none, none]
    [5, 0, 0, 0] [0, 0, 0, 0] (0)
    rfl
    (by simp only [eB0]; rw [dist_axis]; norm_num)
    (by simp only [eB0] <;> ring)
    (by simp only [eB0]; push_cast; field_simp <;> ring)
    (by simp only [eB0] <;> norm_num)
    (by simp only [eB0] <;> norm_num)
    (by simp only [eB0] <;> norm_num)
    (by simp only [eB0] <;> rfl)
    (by simp only [eB0] <;> rfl)
    walkAmin1 walkBmax1
    (by rw [fdEstimates_max_zero]; simp)).trans ?_
  rfl

theorem walkBmax2 :
    calculate_path_length 12 [some ⟨0, 0, 0⟩, some ⟨10, 0, 0⟩, some ⟨20, 0, 0⟩, none] 
      (50) [0, 0, 0, 0] ⟨20, 0, 0⟩ false
    = ([some ⟨0, 0, 0⟩, some ⟨10, 0, 0⟩, some ⟨20, 0, 0⟩, none], [0, 0, 0, 0]) := by
  unfold calculate_path_length
  rw [
    calcLoop_near' (50) ⟨20, 0, 0⟩ 12 11 0 0 [some ⟨0, 0, 0⟩, some ⟨10, 0, 0⟩, some ⟨20, 0, 0⟩, none]
      [0, 0, 0, 0] ⟨0, 0, 0⟩ (by norm_num) (by norm_num) rfl (by norm_num)
      (by rw [dist_axis]; norm_num)]
  norm_num
  rw [
    calcLoop_near' (50) ⟨20, 0, 0⟩ 11 10 1 0 [some ⟨0, 0, 0⟩, some ⟨10, 0, 0⟩, some ⟨20, 0, 0⟩, none]
      [0, 0, 0, 0] ⟨10, 0, 0⟩ (by norm_num) (by norm_num) rfl (by norm_num)
      (by rw [dist_axis]; norm_num)]
  norm_num
  rw [
    calcLoop_near' (50) ⟨20, 0, 0⟩ 10 9 2 0 [some ⟨0, 0, 0⟩, some ⟨10, 0, 0⟩, some ⟨20, 0, 0⟩, none]
      [0, 0, 0, 0] ⟨20, 0, 0⟩ (by norm_num) (by norm_num) rfl (by norm_num)
      (by rw [dist_axis]; norm_num)]
  norm_num
  rw [
    calcLoop_none' (50) ⟨20, 0, 0⟩ false 9 8 3 0 [some ⟨0, 0, 0⟩, some ⟨10, 0, 0⟩, some ⟨20, 0, 0⟩, none]
      [0, 0, 0, 0] (by norm_num) (by norm_num) rfl]

noncomputable def eB2 : RunningD :=
  ⟨"subject1", ⟨20, 0, 0⟩, 0, 0.5, 5,
    [some ⟨15, 0, 0⟩, some ⟨15, 0, 0⟩, some ⟨20, 0, 0⟩, none],
    [some ⟨0, 0, 0⟩, some ⟨10, 0, 0⟩, some ⟨20, 0, 0⟩, none],
    [15, 5, 0, 0],
    [0, 0, 0, 0],
    20, 2, 5, 50, 10,
    false, 2, 1, 0, 0, 0, 0, 0, 0⟩

theorem stepB2e : RunningD.add_point eB1 12 ⟨20, 0, 0⟩ 2 false = eB2 := by
  refine (add_point_eval eB1 12 ⟨20, 0, 0⟩ 2 (10) (20) (10)
    (5) (50) 1
    [some ⟨5, 0, 0⟩, some ⟨10, 0, 0⟩, some ⟨20, 0, 0⟩, none]
    [some ⟨0, 0, 0⟩, some ⟨10, 0, 0⟩, some ⟨20, 0, 0⟩, none]
    [some ⟨15, 0, 0⟩, some ⟨15, 0, 0⟩, some ⟨20, 0, 0⟩, none]
    [some ⟨0, 0, 0⟩, some ⟨10, 0, 0⟩, some ⟨20, 0, 0⟩, none]
    [15, 5, 0, 0] [0, 0, 0, 0] (0)
    rfl
    (by simp only [eB1]; rw [dist_axis]; norm_num)
    (by simp only [eB1] <;> ring)
    (by simp only [eB1]; push_cast; field_simp <;> ring)
    (by simp only [eB1] <;> norm_num)
    (by simp only [eB1] <;> norm_num)
    (by simp only [eB1] <;> norm_num)
    (by simp only [eB1] <;> rfl)
    (by simp only [eB1] <;> rfl)
    walkAmin2 walkBmax2
    (by rw [fdEstimates_max_zero]; simp)).trans ?_
  rfl

theorem walkBmax3 :
    calculate_path_length 12 [some ⟨0, 0, 0⟩, some ⟨10, 0, 0⟩, some ⟨20, 0, 0⟩, some ⟨30, 0, 0⟩] 
      (50) [0, 0, 0, 0] ⟨30, 0, 0⟩ false
    = ([some ⟨0, 0, 0⟩, some ⟨10, 0, 0⟩, some ⟨20, 0, 0⟩, some ⟨30, 0, 0⟩], [0, 0, 0, 0]) := by
  unfold calculate_path_length
  rw [
    calcLoop_near' (50) ⟨30, 0, 0⟩ 12 11 0 0 [some ⟨0, 0, 0⟩, some ⟨10, 0, 0⟩, some ⟨20, 0, 0⟩, some ⟨30, 0, 0⟩]
      [0, 0, 0, 0] ⟨0, 0, 0⟩ (by norm_num) (by norm_num) rfl (by norm_num)
      (by rw [dist_axis]; norm_num)]
  norm_num
  rw [
    calcLoop_near' (50) ⟨30, 0, 0⟩ 11 10 1 0 [some ⟨0, 0, 0⟩, some ⟨10, 0, 0⟩, some ⟨20, 0, 0⟩, some ⟨30, 0, 0⟩]
      [0, 0, 0, 0] ⟨10, 0, 0⟩ (by norm_num) (by norm_num) rfl (by norm_num)
      (by rw [dist_axis]; norm_num)]
  norm_num
  rw [
    calcLoop_near' (50) ⟨30, 0, 0⟩ 10 9 2 0 [some ⟨0, 0, 0⟩, some ⟨10, 0, 0⟩, some ⟨20, 0, 0⟩, some ⟨30, 0, 0⟩]
      [0, 0, 0, 0] ⟨20, 0, 0⟩ (by norm_num) (by norm_num) rfl (by norm_num)
      (by rw [dist_axis]; norm_num)]
  norm_num
  rw [
    calcLoop_near' (50) ⟨30, 0, 0⟩ 9 8 3 0 [some ⟨0, 0, 0⟩, some ⟨10, 0, 0⟩, some ⟨20, 0, 0⟩, some ⟨30, 0, 0⟩]
      [0, 0, 0, 0] ⟨30, 0, 0⟩ (by norm_num) (by norm_num) rfl (by norm_num)
      (by rw [dist_axis]; norm_num)]
  norm_num
  rw [
    calcLoop_exit' (50) ⟨30, 0, 0⟩ false 8 7 4 0 [some ⟨0, 0, 0⟩, some ⟨10, 0, 0⟩, some ⟨20, 0, 0⟩, some ⟨30, 0, 0⟩]
      [0, 0, 0, 0] (by norm_num) (by norm_num)]

noncomputable def eB3 : RunningD :=
  ⟨"subject1", ⟨30, 0, 0⟩, 0, 0.5, 5,
    [some ⟨25, 0, 0⟩, some ⟨25, 0, 0⟩, some ⟨25, 0, 0⟩, some ⟨30, 0, 0⟩],
    [some ⟨0, 0, 0⟩, some ⟨10, 0, 0⟩, some ⟨20, 0, 0⟩, some ⟨30, 0, 0⟩],
    [25, 15, 5, 0],
    [0, 0, 0, 0],
    30, 3, 5, 50, 10,
    false, 3, 1, 0, 0, 0, 0, 0, 0⟩

theorem stepB3e : RunningD.add_point eB2 12 ⟨30, 0, 0⟩ 3 false = eB3 := by
  refine (add_point_eval eB2 12 ⟨30, 0, 0⟩ 3 (10) (30) (10)
    (5) (50) 1
    [some ⟨15, 0, 0⟩, some ⟨15, 0, 0⟩, some ⟨20, 0, 0⟩, some ⟨30, 0, 0⟩]
    [some ⟨0, 0, 0⟩, some ⟨10, 0, 0⟩, some ⟨20, 0, 0⟩, some ⟨30, 0, 0⟩]
    [some ⟨25, 0, 0⟩, some ⟨25, 0, 0⟩, some ⟨25, 0, 0⟩, some ⟨30, 0, 0⟩]
    [some ⟨0, 0, 0⟩, some ⟨10, 0, 0⟩, some ⟨20, 0, 0⟩, some ⟨30, 0, 0⟩]
    [25, 15, 5, 0] [0, 0, 0, 0] (0)
    rfl
    (by simp only [eB2]; rw [dist_axis]; norm_num)
    (by simp only [eB2] <;> ring)
    (by simp only [eB2]; push_cast; field_simp <;> ring)
    (by simp only [eB2] <;> norm_num)
    (by simp only [eB2] <;> norm_num)
    (by simp only [eB2] <;> norm_num)
    (by simp only [eB2] <;> rfl)
    (by simp only [eB2] <;> rfl)
    walkAmin3 walkBmax3
    (by rw [fdEstimates_max_zero]; simp)).trans ?_
  rfl

theorem walkBmax4 :
    calculate_path_length 12 [some ⟨0, 0, 0⟩, some ⟨10, 0, 0⟩, some ⟨20, 0, 0⟩, some ⟨30, 0, 0⟩] 
      (50) [0, 0, 0, 0] ⟨40, 0, 0⟩ false
    = ([some ⟨0, 0, 0⟩, some ⟨10, 0, 0⟩, some ⟨20, 0, 0⟩, some ⟨30, 0, 0⟩], [0, 0, 0, 0]) := by
  unfold calculate_path_length
  rw [
    calcLoop_near' (50) ⟨40, 0, 0⟩ 12 11 0 0 [some ⟨0, 0, 0⟩, some ⟨10, 0, 0⟩, some ⟨20, 0, 0⟩, some ⟨30, 0, 0⟩]
      [0, 0, 0, 0] ⟨0, 0, 0⟩ (by norm_num) (by norm_num) rfl (by norm_num)
      (by rw [dist_axis]; norm_num)]
  norm_num
  rw [
    calcLoop_near' (50) ⟨40, 0, 0⟩ 11 10 1 0 [some ⟨0, 0, 0⟩, some ⟨10, 0, 0⟩, some ⟨20, 0, 0⟩, some ⟨30, 0, 0⟩]
      [0, 0, 0, 0] ⟨10, 0, 0⟩ (by norm_num) (by norm_num) rfl (by norm_num)
      (by rw [dist_axis]; norm_num)]
  norm_num
  rw [
    calcLoop_near' (50) ⟨40, 0, 0⟩ 10 9 2 0 [some ⟨0, 0, 0⟩, some ⟨10, 0, 0⟩, some ⟨20, 0, 0⟩, some ⟨30, 0, 0⟩]
      [0, 0, 0, 0] ⟨20, 0, 0⟩ (by norm_num) (by norm_num) rfl (by norm_num)
      (by rw [dist_axis]; norm_num)]
  norm_num
  rw [
    calcLoop_near' (50) ⟨40, 0, 0⟩ 9 8 3 0 [some ⟨0, 0, 0⟩, some ⟨10, 0, 0⟩, some ⟨20, 0, 0⟩, some ⟨30, 0, 0⟩]
      [0, 0, 0, 0] ⟨30, 0, 0⟩ (by norm_num) (by norm_num) rfl (by norm_num)
      (by rw [dist_axis]; norm_num)]
  norm_num
  rw [
    calcLoop_exit' (50) ⟨40, 0, 0⟩ false 8 7 4 0 [some ⟨0, 0, 0⟩, some ⟨10, 0, 0⟩, some ⟨20, 0, 0⟩, some ⟨30, 0, 0⟩]
      [0, 0, 0, 0] (by norm_num) (by norm_num)]

noncomputable def eB4 : RunningD :=
  ⟨"subject1", ⟨40, 0, 0⟩, 0, 0.5, 5,
    [some ⟨35, 0, 0⟩, some ⟨35, 0, 0⟩, some ⟨35, 0, 0⟩, some ⟨35, 0, 0⟩],
    [some ⟨0, 0, 0⟩, some ⟨10, 0, 0⟩, some ⟨20, 0, 0⟩, some ⟨30, 0, 0⟩],
    [35, 25, 15, 5],
    [0, 0, 0, 0],
    40, 4, 5, 50, 10,
    false, 4, 1, 0, 0, 0, 0, 0, 0⟩

theorem stepB4e : RunningD.add_point eB3 12 ⟨40, 0, 0⟩ 4 false = eB4 := by
  refine (add_point_eval eB3 12 ⟨40, 0, 0⟩ 4 (10) (40) (10)
    (5) (50) 1
    [some ⟨25, 0, 0⟩, some ⟨25, 0, 0⟩, some ⟨25, 0, 0⟩, some ⟨30, 0, 0⟩]
    [some ⟨0, 0, 0⟩, some ⟨10, 0, 0⟩, some ⟨20, 0, 0⟩, some ⟨30, 0, 0⟩]
    [some ⟨35, 0, 0⟩, some ⟨35, 0, 0⟩, some ⟨35, 0, 0⟩, some ⟨35, 0, 0⟩]
    [some ⟨0, 0, 0⟩, some ⟨10, 0, 0⟩, some ⟨20, 0, 0⟩, some ⟨30, 0, 0⟩]
    [35, 25, 15, 5] [0, 0, 0, 0] (0)
    rfl
    (by simp only [eB3]; rw [dist_axis]; norm_num)
    (by simp only [eB3] <;> ring)
    (by simp only [eB3]; push_cast; field_simp <;> ring)
    (by simp only [eB3] <;> norm_num)
    (by simp only [eB3] <;> norm_num)
    (by simp only [eB3] <;> norm_num)
    (by simp only [eB3] <;> rfl)
    (by simp only [eB3] <;> rfl)
    walkAmin4 walkBmax4
    (by rw [fdEstimates_max_zero]; simp)).trans ?_
  rfl

theorem walkBmax5 :
    calculate_path_length 12 [some ⟨0, 0, 0⟩, some ⟨10, 0, 0⟩, some ⟨20, 0, 0⟩, some ⟨30, 0, 0⟩] 
      (50) [0, 0, 0, 0] ⟨50, 0, 0⟩ false
    = ([some ⟨50, 0, 0⟩, some ⟨10, 0, 0⟩, some ⟨20, 0, 0⟩, some ⟨30, 0, 0⟩], [50, 0, 0, 0]) := by
  unfold calculate_path_length
  rw [
    calcLoop_hop_commit' (50) ⟨50, 0, 0⟩ 12 11 0 0 [some ⟨0, 0, 0⟩, some ⟨10, 0, 0⟩, some ⟨20, 0, 0⟩, some ⟨30, 0, 0⟩]
      [0, 0, 0, 0] ⟨0, 0, 0⟩ (by norm_num) (by norm_num) rfl (by norm_num)
      (by rw [dist_axis]; norm_num)
      (by rw [dist_axis]; norm_num)]
  rw [hopPoint_axis 0 50 0 0 50 (by norm_num)]
  norm_num [List.set]
  rw [
    calcLoop_near' (50) ⟨50, 0, 0⟩ 11 10 1 0 [some ⟨50, 0, 0⟩, some ⟨10, 0, 0⟩, some ⟨20, 0, 0⟩, some ⟨30, 0, 0⟩]
      [50, 0, 0, 0] ⟨10, 0, 0⟩ (by norm_num) (by norm_num) rfl (by norm_num)
      (by rw [dist_axis]; norm_num)]
  norm_num
  rw [
    calcLoop_near' (50) ⟨50, 0, 0⟩ 10 9 2 0 [some ⟨50, 0, 0⟩, some ⟨10, 0, 0⟩, some ⟨20, 0, 0⟩, some ⟨30, 0, 0⟩]
      [50, 0, 0, 0] ⟨20, 0, 0⟩ (by norm_num) (by norm_num) rfl (by norm_num)
      (by rw [dist_axis]; norm_num)]
  norm_num
  rw [
    calcLoop_near' (50) ⟨50, 0, 0⟩ 9 8 3 0 [some ⟨50, 0, 0⟩, some ⟨10, 0, 0⟩, some ⟨20, 0, 0⟩, some ⟨30, 0, 0⟩]
      [50, 0, 0, 0] ⟨30, 0, 0⟩ (by norm_num) (by norm_num) rfl (by norm_num)
      (by rw [dist_axis]; norm_num)]
  norm_num
  rw [
    calcLoop_exit' (50) ⟨50, 0, 0⟩ false 8 7 4 0 [some ⟨50, 0, 0⟩, some ⟨10, 0, 0⟩, some ⟨20, 0, 0⟩, some ⟨30, 0, 0⟩]
      [50, 0, 0, 0] (by norm_num) (by norm_num)]

noncomputable def eB5 : RunningD :=
  ⟨"subject1", ⟨50, 0, 0⟩, 0, 0.5, 5,
    [some ⟨45, 0, 0⟩, some ⟨45, 0, 0⟩, some ⟨45, 0, 0⟩, some ⟨45, 0, 0⟩],
    [some ⟨50, 0, 0⟩, some ⟨10, 0, 0⟩, some ⟨20, 0, 0⟩, some ⟨30, 0, 0⟩],
    [45, 35, 25, 15],
    [50, 0, 0, 0],
    50, 5, 5, 50, 10,
    false, 5, 1, 0, 0, 0, 0, 0, 1 + Real.logb 10 (9/10)⟩

theorem stepB5e : RunningD.add_point eB4 12 ⟨50, 0, 0⟩ 5 false = eB5 := by
  refine (add_point_eval eB4 12 ⟨50, 0, 0⟩ 5 (10) (50) (10)
    (5) (50) 1
    [some ⟨35, 0, 0⟩, some ⟨35, 0, 0⟩, some ⟨35, 0, 0⟩, some ⟨35, 0, 0⟩]
    [some ⟨0, 0, 0⟩, some ⟨10, 0, 0⟩, some ⟨20, 0, 0⟩, some ⟨30, 0, 0⟩]
    [some ⟨45, 0, 0⟩, some ⟨45, 0, 0⟩, some ⟨45, 0, 0⟩, some ⟨45, 0, 0⟩]
    [some ⟨50, 0, 0⟩, some ⟨10, 0, 0⟩, some ⟨20, 0, 0⟩, some ⟨30, 0, 0⟩]
    [45, 35, 25, 15] [50, 0, 0, 0] (1 + Real.logb 10 (9/10))
    rfl
    (by simp only [eB4]; rw [dist_axis]; norm_num)
    (by simp only [eB4] <;> ring)
    (by simp only [eB4]; push_cast; field_simp <;> ring)
    (by simp only [eB4] <;> norm_num)
    (by simp only [eB4] <;> norm_num)
    (by simp only [eB4] <;> norm_num)
    (by simp only [eB4] <;> rfl)
    (by simp only [eB4] <;> rfl)
    walkAmin5 walkBmax5
    fdB5).trans ?_
  rfl

theorem walkBmax6 :
    calculate_path_length 12 [some ⟨50, 0, 0⟩, some ⟨10, 0, 0⟩, some ⟨20, 0, 0⟩, some ⟨30, 0, 0⟩] 
      (50) [50, 0, 0, 0] ⟨60, 0, 0⟩ false
    = ([some ⟨50, 0, 0⟩, some ⟨60, 0, 0⟩, some ⟨20, 0, 0⟩, some ⟨30, 0, 0⟩], [50, 50, 0, 0]) := by
  unfold calculate_path_length
  rw [
    calcLoop_near' (50) ⟨60, 0, 0⟩ 12 11 0 0 [some ⟨50, 0, 0⟩, some ⟨10, 0, 0⟩, some ⟨20, 0, 0⟩, some ⟨30, 0, 0⟩]
      [50, 0, 0, 0] ⟨50, 0, 0⟩ (by norm_num) (by norm_num) rfl (by norm_num)
      (by rw [dist_axis]; norm_num)]
  norm_num
  rw [
    calcLoop_hop_commit' (50) ⟨60, 0, 0⟩ 11 10 1 0 [some ⟨50, 0, 0⟩, some ⟨10, 0, 0⟩, some ⟨20, 0, 0⟩, some ⟨30, 0, 0⟩]
      [50, 0, 0, 0] ⟨10, 0, 0⟩ (by norm_num) (by norm_num) rfl (by norm_num)
      (by rw [dist_axis]; norm_num)
      (by rw [dist_axis]; norm_num)]
  rw [hopPoint_axis 10 60 0 0 50 (by norm_num)]
  norm_num [List.set]
  rw [
    calcLoop_near' (50) ⟨60, 0, 0⟩ 10 9 2 0 [some ⟨50, 0, 0⟩, some ⟨60, 0, 0⟩, some ⟨20, 0, 0⟩, some ⟨30, 0, 0⟩]
      [50, 50, 0, 0] ⟨20, 0, 0⟩ (by norm_num) (by norm_num) rfl (by norm_num)
      (by rw [dist_axis]; norm_num)]
  norm_num
  rw [
    calcLoop_near' (50) ⟨60, 0, 0⟩ 9 8 3 0 [some ⟨50, 0, 0⟩, some ⟨60, 0, 0⟩, some ⟨20, 0, 0⟩, some ⟨30, 0, 0⟩]
      [50, 50, 0, 0] ⟨30, 0, 0⟩ (by norm_num) (by norm_num) rfl (by norm_num)
      (by rw [dist_axis]; norm_num)]
  norm_num
  rw [
    calcLoop_exit' (50) ⟨60, 0, 0⟩ false 8 7 4 0 [some ⟨50, 0, 0⟩, some ⟨60, 0, 0⟩, some ⟨20, 0, 0⟩, some ⟨30, 0, 0⟩]
      [50, 50, 0, 0] (by norm_num) (by norm_num)]

noncomputable def eB6 : RunningD :=
  ⟨"subject1", ⟨60, 0, 0⟩, 0, 0.5, 5,
    [some ⟨55, 0, 0⟩, some ⟨55, 0, 0⟩, some ⟨55, 0, 0⟩, some ⟨55, 0, 0⟩],
    [some ⟨50, 0, 0⟩, some ⟨60, 0, 0⟩, some ⟨20, 0, 0⟩, some ⟨30, 0, 0⟩],
    [55, 45, 35, 25],
    [50, 50, 0, 0],
    60, 6, 5, 50, 10,
    false, 6, 1, 0, 0, 0, 0, 0, 1 + (Real.logb 10 (11/10) + Real.logb 10 (9/10)) / 2⟩

theorem stepB6e : RunningD.add_point eB5 12 ⟨60, 0, 0⟩ 6 false = eB6 := by
  refine (add_point_eval eB5 12 ⟨60, 0, 0⟩ 6 (10) (60) (10)
    (5) (50) 1
    [some ⟨45, 0, 0⟩, some ⟨45, 0, 0⟩, some ⟨45, 0, 0⟩, some ⟨45, 0, 0⟩]
    [some ⟨50, 0, 0⟩, some ⟨10, 0, 0⟩, some ⟨20, 0, 0⟩, some ⟨30, 0, 0⟩]
    [some ⟨55, 0, 0⟩, some ⟨55, 0, 0⟩, some ⟨55, 0, 0⟩, some ⟨55, 0, 0⟩]
    [some ⟨50, 0, 0⟩, some ⟨60, 0, 0⟩, some ⟨20, 0, 0⟩, some ⟨30, 0, 0⟩]
    [55, 45, 35, 25] [50, 50, 0, 0] (1 + (Real.logb 10 (11/10) + Real.logb 10 (9/10)) / 2)
    rfl
    (by simp only [eB5]; rw [dist_axis]; norm_num)
    (by simp only [eB5] <;> ring)
    (by simp only [eB5]; push_cast; field_simp <;> ring)
    (by simp only [eB5] <;> norm_num)
    (by simp only [eB5] <;> norm_num)
    (by simp only [eB5] <;> norm_num)
    (by simp only [eB5] <;> rfl)
    (by simp only [eB5] <;> rfl)
    walkAmin6 walkBmax6
    fdB6).trans ?_
  rfl

noncomputable def eC0 : RunningD :=
  ⟨"subject1", ⟨1, 2, 3⟩, 0, 0.5, 5,
    [some ⟨1, 2, 3⟩, none, none, none], [some ⟨1, 2, 3⟩, none, none, none],
    [0, 0, 0, 0], [0, 0, 0, 0], 0, 0, 0, 0, 0, false, 0, 0, 0, 0, 0, 0, 0, 0⟩

theorem walkCmin1 :
    calculate_path_length 12 [some ⟨1, 2, 3⟩, some ⟨2, 3, 4⟩, none, none] 
      (Real.sqrt 3 * (1/2)) [0, 0, 0, 0] ⟨2, 3, 4⟩ false
    = ([some ⟨3/2, 5/2, 7/2⟩, some ⟨2, 3, 4⟩, none, none], [Real.sqrt 3 * (1/2), 0, 0, 0]) := by
  unfold calculate_path_length
  rw [
    calcLoop_hop_commit' (Real.sqrt 3 * (1/2)) ⟨2, 3, 4⟩ 12 11 0 0 [some ⟨1, 2, 3⟩, some ⟨2, 3, 4⟩, none, none]
      [0, 0, 0, 0] ⟨1, 2, 3⟩ (by norm_num) (by norm_num) rfl (by positivity)
      (by rw [dist_diag 1 2 3 2 3 4 1 (by norm_num) (by norm_num) (by norm_num)]
          have h3 := sqrt3_pos
          rw [show |(1:ℝ)| = 1 from by norm_num]; nlinarith)
      (by rw [dist_diag 1 2 3 2 3 4 1 (by norm_num) (by norm_num) (by norm_num)]
          have h3 := sqrt3_pos
          rw [show |(1:ℝ)| = 1 from by norm_num]; nlinarith)]
  rw [hopPoint_diag' 1 2 3 2 3 4 (1/2) (by norm_num) (by norm_num) (by norm_num)]
  rw [show (([0, 0, 0, 0] : List ℝ).getD 0 0 + (0 + Real.sqrt 3 * (1/2))) = Real.sqrt 3 * (1/2) from by
    simp only [List.getD_cons_zero, List.getD_cons_succ]; ring]
  norm_num [List.set]
  rw [
    calcLoop_near' (Real.sqrt 3 * (1/2)) ⟨2, 3, 4⟩ 11 10 1 0 [some ⟨3/2, 5/2, 7/2⟩, some ⟨2, 3, 4⟩, none, none]
      [Real.sqrt 3 * (1/2), 0, 0, 0] ⟨2, 3, 4⟩ (by norm_num) (by norm_num) rfl (by positivity)
      (by rw [dist_diag 2 3 4 2 3 4 0 (by norm_num) (by norm_num) (by norm_num)]
          have h3 := sqrt3_pos
          rw [show |(0:ℝ)| = 0 from by norm_num]; nlinarith)]
  norm_num
  rw [
    calcLoop_none' (Real.sqrt 3 * (1/2)) ⟨2, 3, 4⟩ false 10 9 2 0 [some ⟨3/2, 5/2, 7/2⟩, some ⟨2, 3, 4⟩, none, none]
      [Real.sqrt 3 * (1/2), 0, 0, 0] (by norm_num) (by norm_num) rfl]

theorem walkCmax1 :
    calculate_path_length 12 [some ⟨1, 2, 3⟩, some ⟨2, 3, 4⟩, none, none] 
      (Real.sqrt 3 * 5) [0, 0, 0, 0] ⟨2, 3, 4⟩ false
    = ([some ⟨1, 2, 3⟩, some ⟨2, 3, 4⟩, none, none], [0, 0, 0, 0]) := by
  unfold calculate_path_length
  rw [
    calcLoop_near' (Real.sqrt 3 * 5) ⟨2, 3, 4⟩ 12 11 0 0 [some ⟨1, 2, 3⟩, some ⟨2, 3, 4⟩, none, none]
      [0, 0, 0, 0] ⟨1, 2, 3⟩ (by norm_num) (by norm_num) rfl (by positivity)
      (by rw [dist_diag 1 2 3 2 3 4 1 (by norm_num) (by norm_num) (by norm_num)]
          have h3 := sqrt3_pos
          rw [show |(1:ℝ)| = 1 from by norm_num]; nlinarith)]
  norm_num
  rw [
    calcLoop_near' (Real.sqrt 3 * 5) ⟨2, 3, 4⟩ 11 10 1 0 [some ⟨1, 2, 3⟩, some ⟨2, 3, 4⟩, none, none]
      [0, 0, 0, 0] ⟨2, 3, 4⟩ (by norm_num) (by norm_num) rfl (by positivity)
      (by rw [dist_diag 2 3 4 2 3 4 0 (by norm_num) (by norm_num) (by norm_num)]
          have h3 := sqrt3_pos
          rw [show |(0:ℝ)| = 0 from by norm_num]; nlinarith)]
  norm_num
  rw [
    calcLoop_none' (Real.sqrt 3 * 5) ⟨2, 3, 4⟩ false 10 9 2 0 [some ⟨1, 2, 3⟩, some ⟨2, 3, 4⟩, none, none]
      [0, 0, 0, 0] (by norm_num) (by norm_num) rfl]

noncomputable def eC1 : RunningD :=
  ⟨"subject1", ⟨2, 3, 4⟩, 0, 0.5, 5,
    [some ⟨3/2, 5/2, 7/2⟩, some ⟨2, 3, 4⟩, none, none],
    [some ⟨1, 2, 3⟩, some ⟨2, 3, 4⟩, none, none],
    [Real.sqrt 3 * (1/2), 0, 0, 0],
    [0, 0, 0, 0],
    Real.sqrt 3, 1, Real.sqrt 3 * (1/2), Real.sqrt 3 * 5, Real.sqrt 3,
    false, 1, 1, 0, 0, 0, 0, 0, 0⟩

theorem stepC1e : RunningD.add_point eC0 12 ⟨2, 3, 4⟩ 1 false = eC1 := by
  refine (add_point_eval eC0 12 ⟨2, 3, 4⟩ 1 (Real.sqrt 3) (Real.sqrt 3) (Real.sqrt 3)
    (Real.sqrt 3 * (1/2)) (Real.sqrt 3 * 5) 1
    [some ⟨1, 2, 3⟩, some ⟨2, 3, 4⟩, none, none]
    [some ⟨1, 2, 3⟩, some ⟨2, 3, 4⟩, none, none]
    [some ⟨3/2, 5/2, 7/2⟩, some ⟨2, 3, 4⟩, none, none]
    [some ⟨1, 2, 3⟩, some ⟨2, 3, 4⟩, none, none]
    [Real.sqrt 3 * (1/2), 0, 0, 0] [0, 0, 0, 0] (0)
    rfl
    (by simp only [eC0]
        rw [dist_diag 1 2 3 2 3 4 1 (by norm_num) (by norm_num) (by norm_num)]
        norm_num)
    (by simp only [eC0] <;> ring)
    (by simp only [eC0]; push_cast; field_simp <;> ring)
    (by simp only [eC0] <;> norm_num)
    (by simp only [eC0] <;> norm_num)
    (by simp only [eC0] <;> norm_num)
    (by simp only [eC0] <;> rfl)
    (by simp only [eC0] <;> rfl)
    walkCmin1 walkCmax1
    (by rw [fdEstimates_max_zero]; simp)).trans ?_
  rfl

theorem walkCmin2 :
    calculate_path_length 12 [some ⟨3/2, 5/2, 7/2⟩, some ⟨2, 3, 4⟩, some ⟨3, 4, 5⟩, none] 
      (Real.sqrt 3 * (1/2)) [Real.sqrt 3 * (1/2), 0, 0, 0] ⟨3, 4, 5⟩ false
    = ([some ⟨5/2, 7/2, 9/2⟩, some ⟨5/2, 7/2, 9/2⟩, some ⟨3, 4, 5⟩, none], [Real.sqrt 3 * (3/2), Real.sqrt 3 * (1/2), 0, 0]) := by
  unfold calculate_path_length
  rw [
    calcLoop_hop_stay' (Real.sqrt 3 * (1/2)) ⟨3, 4, 5⟩ 12 11 0 0 [some ⟨3/2, 5/2, 7/2⟩, some ⟨2, 3, 4⟩, some ⟨3, 4, 5⟩, none]
      [Real.sqrt 3 * (1/2), 0, 0, 0] ⟨3/2, 5/2, 7/2⟩ (by norm_num) (by norm_num) rfl (by positivity)
      (by rw [dist_diag (3/2) (5/2) (7/2) 3 4 5 (3/2) (by norm_num) (by norm_num) (by norm_num)]
          have h3 := sqrt3_pos
          rw [show |(3/2:ℝ)| = 3/2 from by norm_num]; nlinarith)]
  rw [hopPoint_diag' (3/2) (5/2) (7/2) 3 4 5 (1/2) (by norm_num) (by norm_num) (by norm_num)]
  norm_num [List.set]
  rw [
    calcLoop_hop_commit' (Real.sqrt 3 * (1/2)) ⟨3, 4, 5⟩ 11 10 0 (Real.sqrt 3 * (1/2)) [some ⟨2, 3, 4⟩, some ⟨2, 3, 4⟩, some ⟨3, 4, 5⟩, none]
      [Real.sqrt 3 * (1/2), 0, 0, 0] ⟨2, 3, 4⟩ (by norm_num) (by norm_num) rfl (by positivity)
      (by rw [dist_diag 2 3 4 3 4 5 1 (by norm_num) (by norm_num) (by norm_num)]
          have h3 := sqrt3_pos
          rw [show |(1:ℝ)| = 1 from by norm_num]; nlinarith)
      (by rw [dist_diag 2 3 4 3 4 5 1 (by norm_num) (by norm_num) (by norm_num)]
          have h3 := sqrt3_pos
          rw [show |(1:ℝ)| = 1 from by norm_num]; nlinarith)]
  rw [hopPoint_diag' 2 3 4 3 4 5 (1/2) (by norm_num) (by norm_num) (by norm_num)]
  rw [show (([Real.sqrt 3 * (1/2), 0, 0, 0] : List ℝ).getD 0 0 + ((Real.sqrt 3 * (1/2)) + Real.sqrt 3 * (1/2))) = Real.sqrt 3 * (3/2) from by
    simp only [List.getD_cons_zero, List.getD_cons_succ]; ring]
  norm_num [List.set]
  rw [
    calcLoop_hop_commit' (Real.sqrt 3 * (1/2)) ⟨3, 4, 5⟩ 10 9 1 0 [some ⟨5/2, 7/2, 9/2⟩, some ⟨2, 3, 4⟩, some ⟨3, 4, 5⟩, none]
      [Real.sqrt 3 * (3/2), 0, 0, 0] ⟨2, 3, 4⟩ (by norm_num) (by norm_num) rfl (by positivity)
      (by rw [dist_diag 2 3 4 3 4 5 1 (by norm_num) (by norm_num) (by norm_num)]
          have h3 := sqrt3_pos
          rw [show |(1:ℝ)| = 1 from by norm_num]; nlinarith)
      (by rw [dist_diag 2 3 4 3 4 5 1 (by norm_num) (by norm_num) (by norm_num)]
          have h3 := sqrt3_pos
          rw [show |(1:ℝ)| = 1 from by norm_num]; nlinarith)]
  rw [hopPoint_diag' 2 3 4 3 4 5 (1/2) (by norm_num) (by norm_num) (by norm_num)]
  rw [show (([Real.sqrt 3 * (3/2), 0, 0, 0] : List ℝ).getD 1 0 + (0 + Real.sqrt 3 * (1/2))) = Real.sqrt 3 * (1/2) from by
    simp only [List.getD_cons_zero, List.getD_cons_succ]; ring]
  norm_num [List.set]
  rw [
    calcLoop_near' (Real.sqrt 3 * (1/2)) ⟨3, 4, 5⟩ 9 8 2 0 [some ⟨5/2, 7/2, 9/2⟩, some ⟨5/2, 7/2, 9/2⟩, some ⟨3, 4, 5⟩, none]
      [Real.sqrt 3 * (3/2), Real.sqrt 3 * (1/2), 0, 0] ⟨3, 4, 5⟩ (by norm_num) (by norm_num) rfl (by positivity)
      (by rw [dist_diag 3 4 5 3 4 5 0 (by norm_num) (by norm_num) (by norm_num)]
          have h3 := sqrt3_pos
          rw [show |(0:ℝ)| = 0 from by norm_num]; nlinarith)]
  norm_num
  rw [
    calcLoop_none' (Real.sqrt 3 * (1/2)) ⟨3, 4, 5⟩ false 8 7 3 0 [some ⟨5/2, 7/2, 9/2⟩, some ⟨5/2, 7/2, 9/2⟩, some ⟨3, 4, 5⟩, none]
      [Real.sqrt 3 * (3/2), Real.sqrt 3 * (1/2), 0, 0] (by norm_num) (by norm_num) rfl]

theorem walkCmax2 :
    calculate_path_length 12 [some ⟨1, 2, 3⟩, some ⟨2, 3, 4⟩, some ⟨3, 4, 5⟩, none] 
      (Real.sqrt 3 * 5) [0, 0, 0, 0] ⟨3, 4, 5⟩ false
    = ([some ⟨1, 2, 3⟩, some ⟨2, 3, 4⟩, some ⟨3, 4, 5⟩, none], [0, 0, 0, 0]) := by
  unfold calculate_path_length
  rw [
    calcLoop_near' (Real.sqrt 3 * 5) ⟨3, 4, 5⟩ 12 11 0 0 [some ⟨1, 2, 3⟩, some ⟨2, 3, 4⟩, some ⟨3, 4, 5⟩, none]
      [0, 0, 0, 0] ⟨1, 2, 3⟩ (by norm_num) (by norm_num) rfl (by positivity)
      (by rw [dist_diag 1 2 3 3 4 5 2 (by norm_num) (by norm_num) (by norm_num)]
          have h3 := sqrt3_pos
          rw [show |(2:ℝ)| = 2 from by norm_num]; nlinarith)]
  norm_num
  rw [
    calcLoop_near' (Real.sqrt 3 * 5) ⟨3, 4, 5⟩ 11 10 1 0 [some ⟨1, 2, 3⟩, some ⟨2, 3, 4⟩, some ⟨3, 4, 5⟩, none]
      [0, 0, 0, 0] ⟨2, 3, 4⟩ (by norm_num) (by norm_num) rfl (by positivity)
      (by rw [dist_diag 2 3 4 3 4 5 1 (by norm_num) (by norm_num) (by norm_num)]
          have h3 := sqrt3_pos
          rw [show |(1:ℝ)| = 1 from by norm_num]; nlinarith)]
  norm_num
  rw [
    calcLoop_near' (Real.sqrt 3 * 5) ⟨3, 4, 5⟩ 10 9 2 0 [some ⟨1, 2, 3⟩, some ⟨2, 3, 4⟩, some ⟨3, 4, 5⟩, none]
      [0, 0, 0, 0] ⟨3, 4, 5⟩ (by norm_num) (by norm_num) rfl (by positivity)
      (by rw [dist_diag 3 4 5 3 4 5 0 (by norm_num) (by norm_num) (by norm_num)]
          have h3 := sqrt3_pos
          rw [show |(0:ℝ)| = 0 from by norm_num]; nlinarith)]
  norm_num
  rw [
    calcLoop_none' (Real.sqrt 3 * 5) ⟨3, 4, 5⟩ false 9 8 3 0 [some ⟨1, 2, 3⟩, some ⟨2, 3, 4⟩, some ⟨3, 4, 5⟩, none]
      [0, 0, 0, 0] (by norm_num) (by norm_num) rfl]

noncomputable def eC2 : RunningD :=
  ⟨"subject1", ⟨3, 4, 5⟩, 0, 0.5, 5,
    [some ⟨5/2, 7/2, 9/2⟩, some ⟨5/2, 7/2, 9/2⟩, some ⟨3, 4, 5⟩, none],
    [some ⟨1, 2, 3⟩, some ⟨2, 3, 4⟩, some ⟨3, 4, 5⟩, none],
    [Real.sqrt 3 * (3/2), Real.sqrt 3 * (1/2), 0, 0],
    [0, 0, 0, 0],
    Real.sqrt 3 * 2, 2, Real.sqrt 3 * (1/2), Real.sqrt 3 * 5, Real.sqrt 3,
    false, 2, 1, 0, 0, 0, 0, 0, 0⟩

theorem stepC2e : RunningD.add_point eC1 12 ⟨3, 4, 5⟩ 2 false = eC2 := by
  refine (add_point_eval eC1 12 ⟨3, 4, 5⟩ 2 (Real.sqrt 3) (Real.sqrt 3 * 2) (Real.sqrt 3)
    (Real.sqrt 3 * (1/2)) (Real.sqrt 3 * 5) 1
    [some ⟨3/2, 5/2, 7/2⟩, some ⟨2, 3, 4⟩, some ⟨3, 4, 5⟩, none]
    [some ⟨1, 2, 3⟩, some ⟨2, 3, 4⟩, some ⟨3, 4, 5⟩, none]
    [some ⟨5/2, 7/2, 9/2⟩, some ⟨5/2, 7/2, 9/2⟩, some ⟨3, 4, 5⟩, none]
    [some ⟨1, 2, 3⟩, some ⟨2, 3, 4⟩, some ⟨3, 4, 5⟩, none]
    [Real.sqrt 3 * (3/2), Real.sqrt 3 * (1/2), 0, 0] [0, 0, 0, 0] (0)
    rfl
    (by simp only [eC1]
        rw [dist_diag 2 3 4 3 4 5 1 (by norm_num) (by norm_num) (by norm_num)]
        norm_num)
    (by simp only [eC1] <;> ring)
    (by simp only [eC1]; push_cast; field_simp <;> ring)
    (by simp only [eC1] <;> norm_num)
    (by simp only [eC1] <;> norm_num)
    (by simp only [eC1] <;> norm_num)
    (by simp only [eC1] <;> rfl)
    (by simp only [eC1] <;> rfl)
    walkCmin2 walkCmax2
    (by rw [fdEstimates_max_zero]; simp)).trans ?_
  rfl

theorem walkCmin3 :
    calculate_path_length 12 [some ⟨5/2, 7/2, 9/2⟩, some ⟨5/2, 7/2, 9/2⟩, some ⟨3, 4, 5⟩, some ⟨4, 5, 6⟩] 
      (Real.sqrt 3 * (1/2)) [Real.sqrt 3 * (3/2), Real.sqrt 3 * (1/2), 0, 0] ⟨4, 5, 6⟩ false
    = ([some ⟨7/2, 9/2, 11/2⟩, some ⟨7/2, 9/2, 11/2⟩, some ⟨7/2, 9/2, 11/2⟩, some ⟨4, 5, 6⟩], [Real.sqrt 3 * (5/2), Real.sqrt 3 * (3/2), Real.sqrt 3 * (1/2), 0]) := by
  unfold calculate_path_length
  rw [
    calcLoop_hop_stay' (Real.sqrt 3 * (1/2)) ⟨4, 5, 6⟩ 12 11 0 0 [some ⟨5/2, 7/2, 9/2⟩, some ⟨5/2, 7/2, 9/2⟩, some ⟨3, 4, 5⟩, some ⟨4, 5, 6⟩]
      [Real.sqrt 3 * (3/2), Real.sqrt 3 * (1/2), 0, 0] ⟨5/2, 7/2, 9/2⟩ (by norm_num) (by norm_num) rfl (by positivity)
      (by rw [dist_diag (5/2) (7/2) (9/2) 4 5 6 (3/2) (by norm_num) (by norm_num) (by norm_num)]
          have h3 := sqrt3_pos
          rw [show |(3/2:ℝ)| = 3/2 from by norm_num]; nlinarith)]
  rw [hopPoint_diag' (5/2) (7/2) (9/2) 4 5 6 (1/2) (by norm_num) (by norm_num) (by norm_num)]
  norm_num [List.set]
  rw [
    calcLoop_hop_commit' (Real.sqrt 3 * (1/2)) ⟨4, 5, 6⟩ 11 10 0 (Real.sqrt 3 * (1/2)) [some ⟨3, 4, 5⟩, some ⟨5/2, 7/2, 9/2⟩, some ⟨3, 4, 5⟩, some ⟨4, 5, 6⟩]
      [Real.sqrt 3 * (3/2), Real.sqrt 3 * (1/2), 0, 0] ⟨3, 4, 5⟩ (by norm_num) (by norm_num) rfl (by positivity)
      (by rw [dist_diag 3 4 5 4 5 6 1 (by norm_num) (by norm_num) (by norm_num)]
          have h3 := sqrt3_pos
          rw [show |(1:ℝ)| = 1 from by norm_num]; nlinarith)
      (by rw [dist_diag 3 4 5 4 5 6 1 (by norm_num) (by norm_num) (by norm_num)]
          have h3 := sqrt3_pos
          rw [show |(1:ℝ)| = 1 from by norm_num]; nlinarith)]
  rw [hopPoint_diag' 3 4 5 4 5 6 (1/2) (by norm_num) (by norm_num) (by norm_num)]
  rw [show (([Real.sqrt 3 * (3/2), Real.sqrt 3 * (1/2), 0, 0] : List ℝ).getD 0 0 + ((Real.sqrt 3 * (1/2)) + Real.sqrt 3 * (1/2))) = Real.sqrt 3 * (5/2) from by
    simp only [List.getD_cons_zero, List.getD_cons_succ]; ring]
  norm_num [List.set]
  rw [
    calcLoop_hop_stay' (Real.sqrt 3 * (1/2)) ⟨4, 5, 6⟩ 10 9 1 0 [some ⟨7/2, 9/2, 11/2⟩, some ⟨5/2, 7/2, 9/2⟩, some ⟨3, 4, 5⟩, some ⟨4, 5, 6⟩]
      [Real.sqrt 3 * (5/2), Real.sqrt 3 * (1/2), 0, 0] ⟨5/2, 7/2, 9/2⟩ (by norm_num) (by norm_num) rfl (by positivity)
      (by rw [dist_diag (5/2) (7/2) (9/2) 4 5 6 (3/2) (by norm_num) (by norm_num) (by norm_num)]
          have h3 := sqrt3_pos
          rw [show |(3/2:ℝ)| = 3/2 from by norm_num]; nlinarith)]
  rw [hopPoint_diag' (5/2) (7/2) (9/2) 4 5 6 (1/2) (by norm_num) (by norm_num) (by norm_num)]
  norm_num [List.set]
  rw [
    calcLoop_hop_commit' (Real.sqrt 3 * (1/2)) ⟨4, 5, 6⟩ 9 8 1 (Real.sqrt 3 * (1/2)) [some ⟨7/2, 9/2, 11/2⟩, some ⟨3, 4, 5⟩, some ⟨3, 4, 5⟩, some ⟨4, 5, 6⟩]
      [Real.sqrt 3 * (5/2), Real.sqrt 3 * (1/2), 0, 0] ⟨3, 4, 5⟩ (by norm_num) (by norm_num) rfl (by positivity)
      (by rw [dist_diag 3 4 5 4 5 6 1 (by norm_num) (by norm_num) (by norm_num)]
          have h3 := sqrt3_pos
          rw [show |(1:ℝ)| = 1 from by norm_num]; nlinarith)
      (by rw [dist_diag 3 4 5 4 5 6 1 (by norm_num) (by norm_num) (by norm_num)]
          have h3 := sqrt3_pos
          rw [show |(1:ℝ)| = 1 from by norm_num]; nlinarith)]
  rw [hopPoint_diag' 3 4 5 4 5 6 (1/2) (by norm_num) (by norm_num) (by norm_num)]
  rw [show (([Real.sqrt 3 * (5/2), Real.sqrt 3 * (1/2), 0, 0] : List ℝ).getD 1 0 + ((Real.sqrt 3 * (1/2)) + Real.sqrt 3 * (1/2))) = Real.sqrt 3 * (3/2) from by
    simp only [List.getD_cons_zero, List.getD_cons_succ]; ring]
  norm_num [List.set]
  rw [
    calcLoop_hop_commit' (Real.sqrt 3 * (1/2)) ⟨4, 5, 6⟩ 8 7 2 0 [some ⟨7/2, 9/2, 11/2⟩, some ⟨7/2, 9/2, 11/2⟩, some ⟨3, 4, 5⟩, some ⟨4, 5, 6⟩]
      [Real.sqrt 3 * (5/2), Real.sqrt 3 * (3/2), 0, 0] ⟨3, 4, 5⟩ (by norm_num) (by norm_num) rfl (by positivity)
      (by rw [dist_diag 3 4 5 4 5 6 1 (by norm_num) (by norm_num) (by norm_num)]
          have h3 := sqrt3_pos
          rw [show |(1:ℝ)| = 1 from by norm_num]; nlinarith)
      (by rw [dist_diag 3 4 5 4 5 6 1 (by norm_num) (by norm_num) (by norm_num)]
          have h3 := sqrt3_pos
          rw [show |(1:ℝ)| = 1 from by norm_num]; nlinarith)]
  rw [hopPoint_diag' 3 4 5 4 5 6 (1/2) (by norm_num) (by norm_num) (by norm_num)]
  rw [show (([Real.sqrt 3 * (5/2), Real.sqrt 3 * (3/2), 0, 0] : List ℝ).getD 2 0 + (0 + Real.sqrt 3 * (1/2))) = Real.sqrt 3 * (1/2) from by
    simp only [List.getD_cons_zero, List.getD_cons_succ]; ring]
  norm_num [List.set]
  rw [
    calcLoop_near' (Real.sqrt 3 * (1/2)) ⟨4, 5, 6⟩ 7 6 3 0 [some ⟨7/2, 9/2, 11/2⟩, some ⟨7/2, 9/2, 11/2⟩, some ⟨7/2, 9/2, 11/2⟩, some ⟨4, 5, 6⟩]
      [Real.sqrt 3 * (5/2), Real.sqrt 3 * (3/2), Real.sqrt 3 * (1/2), 0] ⟨4, 5, 6⟩ (by norm_num) (by norm_num) rfl (by positivity)
      (by rw [dist_diag 4 5 6 4 5 6 0 (by norm_num) (by norm_num) (by norm_num)]
          have h3 := sqrt3_pos
          rw [show |(0:ℝ)| = 0 from by norm_num]; nlinarith)]
  norm_num
  rw [
    calcLoop_exit' (Real.sqrt 3 * (1/2)) ⟨4, 5, 6⟩ false 6 5 4 0 [some ⟨7/2, 9/2, 11/2⟩, some ⟨7/2, 9/2, 11/2⟩, some ⟨7/2, 9/2, 11/2⟩, some ⟨4, 5, 6⟩]
      [Real.sqrt 3 * (5/2), Real.sqrt 3 * (3/2), Real.sqrt 3 * (1/2), 0] (by norm_num) (by norm_num)]

theorem walkCmax3 :
    calculate_path_length 12 [some ⟨1, 2, 3⟩, some ⟨2, 3, 4⟩, some ⟨3, 4, 5⟩, some ⟨4, 5, 6⟩] 
      (Real.sqrt 3 * 5) [0, 0, 0, 0] ⟨4, 5, 6⟩ false
    = ([some ⟨1, 2, 3⟩, some ⟨2, 3, 4⟩, some ⟨3, 4, 5⟩, some ⟨4, 5, 6⟩], [0, 0, 0, 0]) := by
  unfold calculate_path_length
  rw [
    calcLoop_near' (Real.sqrt 3 * 5) ⟨4, 5, 6⟩ 12 11 0 0 [some ⟨1, 2, 3⟩, some ⟨2, 3, 4⟩, some ⟨3, 4, 5⟩, some ⟨4, 5, 6⟩]
      [0, 0, 0, 0] ⟨1, 2, 3⟩ (by norm_num) (by norm_num) rfl (by positivity)
      (by rw [dist_diag 1 2 3 4 5 6 3 (by norm_num) (by norm_num) (by norm_num)]
          have h3 := sqrt3_pos
          rw [show |(3:ℝ)| = 3 from by norm_num]; nlinarith)]
  norm_num
  rw [
    calcLoop_near' (Real.sqrt 3 * 5) ⟨4, 5, 6⟩ 11 10 1 0 [some ⟨1, 2, 3⟩, some ⟨2, 3, 4⟩, some ⟨3, 4, 5⟩, some ⟨4, 5, 6⟩]
      [0, 0, 0, 0] ⟨2, 3, 4⟩ (by norm_num) (by norm_num) rfl (by positivity)
      (by rw [dist_diag 2 3 4 4 5 6 2 (by norm_num) (by norm_num) (by norm_num)]
          have h3 := sqrt3_pos
          rw [show |(2:ℝ)| = 2 from by norm_num]; nlinarith)]
  norm_num
  rw [
    calcLoop_near' (Real.sqrt 3 * 5) ⟨4, 5, 6⟩ 10 9 2 0 [some ⟨1, 2, 3⟩, some ⟨2, 3, 4⟩, some ⟨3, 4, 5⟩, some ⟨4, 5, 6⟩]
      [0, 0, 0, 0] ⟨3, 4, 5⟩ (by norm_num) (by norm_num) rfl (by positivity)
      (by rw [dist_diag 3 4 5 4 5 6 1 (by norm_num) (by norm_num) (by norm_num)]
          have h3 := sqrt3_pos
          rw [show |(1:ℝ)| = 1 from by norm_num]; nlinarith)]
  norm_num
  rw [
    calcLoop_near' (Real.sqrt 3 * 5) ⟨4, 5, 6⟩ 9 8 3 0 [some ⟨1, 2, 3⟩, some ⟨2, 3, 4⟩, some ⟨3, 4, 5⟩, some ⟨4, 5, 6⟩]
      [0, 0, 0, 0] ⟨4, 5, 6⟩ (by norm_num) (by norm_num) rfl (by positivity)
      (by rw [dist_diag 4 5 6 4 5 6 0 (by norm_num) (by norm_num) (by norm_num)]
          have h3 := sqrt3_pos
          rw [show |(0:ℝ)| = 0 from by norm_num]; nlinarith)]
  norm_num
  rw [
    calcLoop_exit' (Real.sqrt 3 * 5) ⟨4, 5, 6⟩ false 8 7 4 0 [some ⟨1, 2, 3⟩, some ⟨2, 3, 4⟩, some ⟨3, 4, 5⟩, some ⟨4, 5, 6⟩]
      [0, 0, 0, 0] (by norm_num) (by norm_num)]

noncomputable def eC3 : RunningD :=
  ⟨"subject1", ⟨4, 5, 6⟩, 0, 0.5, 5,
    [some ⟨7/2, 9/2, 11/2⟩, some ⟨7/2, 9/2, 11/2⟩, some ⟨7/2, 9/2, 11/2⟩, some ⟨4, 5, 6⟩],
    [some ⟨1, 2, 3⟩, some ⟨2, 3, 4⟩, some ⟨3, 4, 5⟩, some ⟨4, 5, 6⟩],
    [Real.sqrt 3 * (5/2), Real.sqrt 3 * (3/2), Real.sqrt 3 * (1/2), 0],
    [0, 0, 0, 0],
    Real.sqrt 3 * 3, 3, Real.sqrt 3 * (1/2), Real.sqrt 3 * 5, Real.sqrt 3,
    false, 3, 1, 0, 0, 0, 0, 0, 0⟩

theorem stepC3e : RunningD.add_point eC2 12 ⟨4, 5, 6⟩ 3 false = eC3 := by
  refine (add_point_eval eC2 12 ⟨4, 5, 6⟩ 3 (Real.sqrt 3) (Real.sqrt 3 * 3) (Real.sqrt 3)
    (Real.sqrt 3 * (1/2)) (Real.sqrt 3 * 5) 1
    [some ⟨5/2, 7/2, 9/2⟩, some ⟨5/2, 7/2, 9/2⟩, some ⟨3, 4, 5⟩, some ⟨4, 5, 6⟩]
    [some ⟨1, 2, 3⟩, some ⟨2, 3, 4⟩, some ⟨3, 4, 5⟩, some ⟨4, 5, 6⟩]
    [some ⟨7/2, 9/2, 11/2⟩, some ⟨7/2, 9/2, 11/2⟩, some ⟨7/2, 9/2, 11/2⟩, some ⟨4, 5, 6⟩]
    [some ⟨1, 2, 3⟩, some ⟨2, 3, 4⟩, some ⟨3, 4, 5⟩, some ⟨4, 5, 6⟩]
    [Real.sqrt 3 * (5/2), Real.sqrt 3 * (3/2), Real.sqrt 3 * (1/2), 0] [0, 0, 0, 0] (0)
    rfl
    (by simp only [eC2]
        rw [dist_diag 3 4 5 4 5 6 1 (by norm_num) (by norm_num) (by norm_num)]
        norm_num)
    (by simp only [eC2] <;> ring)
    (by simp only [eC2]; push_cast; field_simp <;> ring)
    (by simp only [eC2] <;> norm_num)
    (by simp only [eC2] <;> norm_num)
    (by simp only [eC2] <;> norm_num)
    (by simp only [eC2] <;> rfl)
    (by simp only [eC2] <;> rfl)
    walkCmin3 walkCmax3
    (by rw [fdEstimates_max_zero]; simp)).trans ?_
  rfl

theorem walkCmin4 :
    calculate_path_length 12 [some ⟨7/2, 9/2, 11/2⟩, some ⟨7/2, 9/2, 11/2⟩, some ⟨7/2, 9/2, 11/2⟩, some ⟨4, 5, 6⟩] 
      (Real.sqrt 3 * (1/2)) [Real.sqrt 3 * (5/2), Real.sqrt 3 * (3/2), Real.sqrt 3 * (1/2), 0] ⟨5, 6, 7⟩ false
    = ([some ⟨9/2, 11/2, 13/2⟩, some ⟨9/2, 11/2, 13/2⟩, some ⟨9/2, 11/2, 13/2⟩, some ⟨9/2, 11/2, 13/2⟩], [Real.sqrt 3 * (7/2), Real.sqrt 3 * (5/2), Real.sqrt 3 * (3/2), Real.sqrt 3 * (1/2)]) := by
  unfold calculate_path_length
  rw [
    calcLoop_hop_stay' (Real.sqrt 3 * (1/2)) ⟨5, 6, 7⟩ 12 11 0 0 [some ⟨7/2, 9/2, 11/2⟩, some ⟨7/2, 9/2, 11/2⟩, some ⟨7/2, 9/2, 11/2⟩, some ⟨4, 5, 6⟩]
      [Real.sqrt 3 * (5/2), Real.sqrt 3 * (3/2), Real.sqrt 3 * (1/2), 0] ⟨7/2, 9/2, 11/2⟩ (by norm_num) (by norm_num) rfl (by positivity)
      (by rw [dist_diag (7/2) (9/2) (11/2) 5 6 7 (3/2) (by norm_num) (by norm_num) (by norm_num)]
          have h3 := sqrt3_pos
          rw [show |(3/2:ℝ)| = 3/2 from by norm_num]; nlinarith)]
  rw [hopPoint_diag' (7/2) (9/2) (11/2) 5 6 7 (1/2) (by norm_num) (by norm_num) (by norm_num)]
  norm_num [List.set]
  rw [
    calcLoop_hop_commit' (Real.sqrt 3 * (1/2)) ⟨5, 6, 7⟩ 11 10 0 (Real.sqrt 3 * (1/2)) [some ⟨4, 5, 6⟩, some ⟨7/2, 9/2, 11/2⟩, some ⟨7/2, 9/2, 11/2⟩, some ⟨4, 5, 6⟩]
      [Real.sqrt 3 * (5/2), Real.sqrt 3 * (3/2), Real.sqrt 3 * (1/2), 0] ⟨4, 5, 6⟩ (by norm_num) (by norm_num) rfl (by positivity)
      (by rw [dist_diag 4 5 6 5 6 7 1 (by norm_num) (by norm_num) (by norm_num)]
          have h3 := sqrt3_pos
          rw [show |(1:ℝ)| = 1 from by norm_num]; nlinarith)
      (by rw [dist_diag 4 5 6 5 6 7 1 (by norm_num) (by norm_num) (by norm_num)]
          have h3 := sqrt3_pos
          rw [show |(1:ℝ)| = 1 from by norm_num]; nlinarith)]
  rw [hopPoint_diag' 4 5 6 5 6 7 (1/2) (by norm_num) (by norm_num) (by norm_num)]
  rw [show (([Real.sqrt 3 * (5/2), Real.sqrt 3 * (3/2), Real.sqrt 3 * (1/2), 0] : List ℝ).getD 0 0 + ((Real.sqrt 3 * (1/2)) + Real.sqrt 3 * (1/2))) = Real.sqrt 3 * (7/2) from by
    simp only [List.getD_cons_zero, List.getD_cons_succ]; ring]
  norm_num [List.set]
  rw [
    calcLoop_hop_stay' (Real.sqrt 3 * (1/2)) ⟨5, 6, 7⟩ 10 9 1 0 [some ⟨9/2, 11/2, 13/2⟩, some ⟨7/2, 9/2, 11/2⟩, some ⟨7/2, 9/2, 11/2⟩, some ⟨4, 5, 6⟩]
      [Real.sqrt 3 * (7/2), Real.sqrt 3 * (3/2), Real.sqrt 3 * (1/2), 0] ⟨7/2, 9/2, 11/2⟩ (by norm_num) (by norm_num) rfl (by positivity)
      (by rw [dist_diag (7/2) (9/2) (11/2) 5 6 7 (3/2) (by norm_num) (by norm_num) (by norm_num)]
          have h3 := sqrt3_pos
          rw [show |(3/2:ℝ)| = 3/2 from by norm_num]; nlinarith)]
  rw [hopPoint_diag' (7/2) (9/2) (11/2) 5 6 7 (1/2) (by norm_num) (by norm_num) (by norm_num)]
  norm_num [List.set]
  rw [
    calcLoop_hop_commit' (Real.sqrt 3 * (1/2)) ⟨5, 6, 7⟩ 9 8 1 (Real.sqrt 3 * (1/2)) [some ⟨9/2, 11/2, 13/2⟩, some ⟨4, 5, 6⟩, some ⟨7/2, 9/2, 11/2⟩, some ⟨4, 5, 6⟩]
      [Real.sqrt 3 * (7/2), Real.sqrt 3 * (3/2), Real.sqrt 3 * (1/2), 0] ⟨4, 5, 6⟩ (by norm_num) (by norm_num) rfl (by positivity)
      (by rw [dist_diag 4 5 6 5 6 7 1 (by norm_num) (by norm_num) (by norm_num)]
          have h3 := sqrt3_pos
          rw [show |(1:ℝ)| = 1 from by norm_num]; nlinarith)
      (by rw [dist_diag 4 5 6 5 6 7 1 (by norm_num) (by norm_num) (by norm_num)]
          have h3 := sqrt3_pos
          rw [show |(1:ℝ)| = 1 from by norm_num]; nlinarith)]
  rw [hopPoint_diag' 4 5 6 5 6 7 (1/2) (by norm_num) (by norm_num) (by norm_num)]
  rw [show (([Real.sqrt 3 * (7/2), Real.sqrt 3 * (3/2), Real.sqrt 3 * (1/2), 0] : List ℝ).getD 1 0 + ((Real.sqrt 3 * (1/2)) + Real.sqrt 3 * (1/2))) = Real.sqrt 3 * (5/2) from by
    simp only [List.getD_cons_zero, List.getD_cons_succ]; ring]
  norm_num [List.set]
  rw [
    calcLoop_hop_stay' (Real.sqrt 3 * (1/2)) ⟨5, 6, 7⟩ 8 7 2 0 [some ⟨9/2, 11/2, 13/2⟩, some ⟨9/2, 11/2, 13/2⟩, some ⟨7/2, 9/2, 11/2⟩, some ⟨4, 5, 6⟩]
      [Real.sqrt 3 * (7/2), Real.sqrt 3 * (5/2), Real.sqrt 3 * (1/2), 0] ⟨7/2, 9/2, 11/2⟩ (by norm_num) (by norm_num) rfl (by positivity)
      (by rw [dist_diag (7/2) (9/2) (11/2) 5 6 7 (3/2) (by norm_num) (by norm_num) (by norm_num)]
          have h3 := sqrt3_pos
          rw [show |(3/2:ℝ)| = 3/2 from by norm_num]; nlinarith)]
  rw [hopPoint_diag' (7/2) (9/2) (11/2) 5 6 7 (1/2) (by norm_num) (by norm_num) (by norm_num)]
  norm_num [List.set]
  rw [
    calcLoop_hop_commit' (Real.sqrt 3 * (1/2)) ⟨5, 6, 7⟩ 7 6 2 (Real.sqrt 3 * (1/2)) [some ⟨9/2, 11/2, 13/2⟩, some ⟨9/2, 11/2, 13/2⟩, some ⟨4, 5, 6⟩, some ⟨4, 5, 6⟩]
      [Real.sqrt 3 * (7/2), Real.sqrt 3 * (5/2), Real.sqrt 3 * (1/2), 0] ⟨4, 5, 6⟩ (by norm_num) (by norm_num) rfl (by positivity)
      (by rw [dist_diag 4 5 6 5 6 7 1 (by norm_num) (by norm_num) (by norm_num)]
          have h3 := sqrt3_pos
          rw [show |(1:ℝ)| = 1 from by norm_num]; nlinarith)
      (by rw [dist_diag 4 5 6 5 6 7 1 (by norm_num) (by norm_num) (by norm_num)]
          have h3 := sqrt3_pos
          rw [show |(1:ℝ)| = 1 from by norm_num]; nlinarith)]
  rw [hopPoint_diag' 4 5 6 5 6 7 (1/2) (by norm_num) (by norm_num) (by norm_num)]
  rw [show (([Real.sqrt 3 * (7/2), Real.sqrt 3 * (5/2), Real.sqrt 3 * (1/2), 0] : List ℝ).getD 2 0 + ((Real.sqrt 3 * (1/2)) + Real.sqrt 3 * (1/2))) = Real.sqrt 3 * (3/2) from by
    simp only [List.getD_cons_zero, List.getD_cons_succ]; ring]
  norm_num [List.set]
  rw [
    calcLoop_hop_commit' (Real.sqrt 3 * (1/2)) ⟨5, 6, 7⟩ 6 5 3 0 [some ⟨9/2, 11/2, 13/2⟩, some ⟨9/2, 11/2, 13/2⟩, some ⟨9/2, 11/2, 13/2⟩, some ⟨4, 5, 6⟩]
      [Real.sqrt 3 * (7/2), Real.sqrt 3 * (5/2), Real.sqrt 3 * (3/2), 0] ⟨4, 5, 6⟩ (by norm_num) (by norm_num) rfl (by positivity)
      (by rw [dist_diag 4 5 6 5 6 7 1 (by norm_num) (by norm_num) (by norm_num)]
          have h3 := sqrt3_pos
          rw [show |(1:ℝ)| = 1 from by norm_num]; nlinarith)
      (by rw [dist_diag 4 5 6 5 6 7 1 (by norm_num) (by norm_num) (by norm_num)]
          have h3 := sqrt3_pos
          rw [show |(1:ℝ)| = 1 from by norm_num]; nlinarith)]
  rw [hopPoint_diag' 4 5 6 5 6 7 (1/2) (by norm_num) (by norm_num) (by norm_num)]
  rw [show (([Real.sqrt 3 * (7/2), Real.sqrt 3 * (5/2), Real.sqrt 3 * (3/2), 0] : List ℝ).getD 3 0 + (0 + Real.sqrt 3 * (1/2))) = Real.sqrt 3 * (1/2) from by
    simp only [List.getD_cons_zero, List.getD_cons_succ]; ring]
  norm_num [List.set]
  rw [
    calcLoop_exit' (Real.sqrt 3 * (1/2)) ⟨5, 6, 7⟩ false 5 4 4 0 [some ⟨9/2, 11/2, 13/2⟩, some ⟨9/2, 11/2, 13/2⟩, some ⟨9/2, 11/2, 13/2⟩, some ⟨9/2, 11/2, 13/2⟩]
      [Real.sqrt 3 * (7/2), Real.sqrt 3 * (5/2), Real.sqrt 3 * (3/2), Real.sqrt 3 * (1/2)] (by norm_num) (by norm_num)]

theorem walkCmax4 :
    calculate_path_length 12 [some ⟨1, 2, 3⟩, some ⟨2, 3, 4⟩, some ⟨3, 4, 5⟩, some ⟨4, 5, 6⟩] 
      (Real.sqrt 3 * 5) [0, 0, 0, 0] ⟨5, 6, 7⟩ false
    = ([some ⟨1, 2, 3⟩, some ⟨2, 3, 4⟩, some ⟨3, 4, 5⟩, some ⟨4, 5, 6⟩], [0, 0, 0, 0]) := by
  unfold calculate_path_length
  rw [
    calcLoop_near' (Real.sqrt 3 * 5) ⟨5, 6, 7⟩ 12 11 0 0 [some ⟨1, 2, 3⟩, some ⟨2, 3, 4⟩, some ⟨3, 4, 5⟩, some ⟨4, 5, 6⟩]
      [0, 0, 0, 0] ⟨1, 2, 3⟩ (by norm_num) (by norm_num) rfl (by positivity)
      (by rw [dist_diag 1 2 3 5 6 7 4 (by norm_num) (by norm_num) (by norm_num)]
          have h3 := sqrt3_pos
          rw [show |(4:ℝ)| = 4 from by norm_num]; nlinarith)]
  norm_num
  rw [
    calcLoop_near' (Real.sqrt 3 * 5) ⟨5, 6, 7⟩ 11 10 1 0 [some ⟨1, 2, 3⟩, some ⟨2, 3, 4⟩, some ⟨3, 4, 5⟩, some ⟨4, 5, 6⟩]
      [0, 0, 0, 0] ⟨2, 3, 4⟩ (by norm_num) (by norm_num) rfl (by positivity)
      (by rw [dist_diag 2 3 4 5 6 7 3 (by norm_num) (by norm_num) (by norm_num)]
          have h3 := sqrt3_pos
          rw [show |(3:ℝ)| = 3 from by norm_num]; nlinarith)]
  norm_num
  rw [
    calcLoop_near' (Real.sqrt 3 * 5) ⟨5, 6, 7⟩ 10 9 2 0 [some ⟨1, 2, 3⟩, some ⟨2, 3, 4⟩, some ⟨3, 4, 5⟩, some ⟨4, 5, 6⟩]
      [0, 0, 0, 0] ⟨3, 4, 5⟩ (by norm_num) (by norm_num) rfl (by positivity)
      (by rw [dist_diag 3 4 5 5 6 7 2 (by norm_num) (by norm_num) (by norm_num)]
          have h3 := sqrt3_pos
          rw [show |(2:ℝ)| = 2 from by norm_num]; nlinarith)]
  norm_num
  rw [
    calcLoop_near' (Real.sqrt 3 * 5) ⟨5, 6, 7⟩ 9 8 3 0 [some ⟨1, 2, 3⟩, some ⟨2, 3, 4⟩, some ⟨3, 4, 5⟩, some ⟨4, 5, 6⟩]
      [0, 0, 0, 0] ⟨4, 5, 6⟩ (by norm_num) (by norm_num) rfl (by positivity)
      (by rw [dist_diag 4 5 6 5 6 7 1 (by norm_num) (by norm_num) (by norm_num)]
          have h3 := sqrt3_pos
          rw [show |(1:ℝ)| = 1 from by norm_num]; nlinarith)]
  norm_num
  rw [
    calcLoop_exit' (Real.sqrt 3 * 5) ⟨5, 6, 7⟩ false 8 7 4 0 [some ⟨1, 2, 3⟩, some ⟨2, 3, 4⟩, some ⟨3, 4, 5⟩, some ⟨4, 5, 6⟩]
      [0, 0, 0, 0] (by norm_num) (by norm_num)]

noncomputable def eC4 : RunningD :=
  ⟨"subject1", ⟨5, 6, 7⟩, 0, 0.5, 5,
    [some ⟨9/2, 11/2, 13/2⟩, some ⟨9/2, 11/2, 13/2⟩, some ⟨9/2, 11/2, 13/2⟩, some ⟨9/2, 11/2, 13/2⟩],
    [some ⟨1, 2, 3⟩, some ⟨2, 3, 4⟩, some ⟨3, 4, 5⟩, some ⟨4, 5, 6⟩],
    [Real.sqrt 3 * (7/2), Real.sqrt 3 * (5/2), Real.sqrt 3 * (3/2), Real.sqrt 3 * (1/2)],
    [0, 0, 0, 0],
    Real.sqrt 3 * 4, 4, Real.sqrt 3 * (1/2), Real.sqrt 3 * 5, Real.sqrt 3,
    false, 4, 1, 0, 0, 0, 0, 0, 0⟩

theorem stepC4e : RunningD.add_point eC3 12 ⟨5, 6, 7⟩ 4 false = eC4 := by
  refine (add_point_eval eC3 12 ⟨5, 6, 7⟩ 4 (Real.sqrt 3) (Real.sqrt 3 * 4) (Real.sqrt 3)
    (Real.sqrt 3 * (1/2)) (Real.sqrt 3 * 5) 1
    [some ⟨7/2, 9/2, 11/2⟩, some ⟨7/2, 9/2, 11/2⟩, some ⟨7/2, 9/2, 11/2⟩, some ⟨4, 5, 6⟩]
    [some ⟨1, 2, 3⟩, some ⟨2, 3, 4⟩, some ⟨3, 4, 5⟩, some ⟨4, 5, 6⟩]
    [some ⟨9/2, 11/2, 13/2⟩, some ⟨9/2, 11/2, 13/2⟩, some ⟨9/2, 11/2, 13/2⟩, some ⟨9/2, 11/2, 13/2⟩]
    [some ⟨1, 2, 3⟩, some ⟨2, 3, 4⟩, some ⟨3, 4, 5⟩, some ⟨4, 5, 6⟩]
    [Real.sqrt 3 * (7/2), Real.sqrt 3 * (5/2), Real.sqrt 3 * (3/2), Real.sqrt 3 * (1/2)] [0, 0, 0, 0] (0)
    rfl
    (by simp only [eC3]
        rw [dist_diag 4 5 6 5 6 7 1 (by norm_num) (by norm_num) (by norm_num)]
        norm_num)
    (by simp only [eC3] <;> ring)
    (by simp only [eC3]; push_cast; field_simp <;> ring)
    (by simp only [eC3] <;> norm_num)
    (by simp only [eC3] <;> norm_num)
    (by simp only [eC3] <;> norm_num)
    (by simp only [eC3] <;> rfl)
    (by simp only [eC3] <;> rfl)
    walkCmin4 walkCmax4
    (by rw [fdEstimates_max_zero]; simp)).trans ?_
  rfl

theorem walkCmin5 :
    calculate_path_length 12 [some ⟨9/2, 11/2, 13/2⟩, some ⟨9/2, 11/2, 13/2⟩, some ⟨9/2, 11/2, 13/2⟩, some ⟨9/2, 11/2, 13/2⟩] 
      (Real.sqrt 3 * (1/2)) [Real.sqrt 3 * (7/2), Real.sqrt 3 * (5/2), Real.sqrt 3 * (3/2), Real.sqrt 3 * (1/2)] ⟨6, 7, 8⟩ false
    = ([some ⟨11/2, 13/2, 15/2⟩, some ⟨11/2, 13/2, 15/2⟩, some ⟨11/2, 13/2, 15/2⟩, some ⟨11/2, 13/2, 15/2⟩], [Real.sqrt 3 * (9/2), Real.sqrt 3 * (7/2), Real.sqrt 3 * (5/2), Real.sqrt 3 * (3/2)]) := by
  unfold calculate_path_length
  rw [
    calcLoop_hop_stay' (Real.sqrt 3 * (1/2)) ⟨6, 7, 8⟩ 12 11 0 0 [some ⟨9/2, 11/2, 13/2⟩, some ⟨9/2, 11/2, 13/2⟩, some ⟨9/2, 11/2, 13/2⟩, some ⟨9/2, 11/2, 13/2⟩]
      [Real.sqrt 3 * (7/2), Real.sqrt 3 * (5/2), Real.sqrt 3 * (3/2), Real.sqrt 3 * (1/2)] ⟨9/2, 11/2, 13/2⟩ (by norm_num) (by norm_num) rfl (by positivity)
      (by rw [dist_diag (9/2) (11/2) (13/2) 6 7 8 (3/2) (by norm_num) (by norm_num) (by norm_num)]
          have h3 := sqrt3_pos
          rw [show |(3/2:ℝ)| = 3/2 from by norm_num]; nlinarith)]
  rw [hopPoint_diag' (9/2) (11/2) (13/2) 6 7 8 (1/2) (by norm_num) (by norm_num) (by norm_num)]
  norm_num [List.set]
  rw [
    calcLoop_hop_commit' (Real.sqrt 3 * (1/2)) ⟨6, 7, 8⟩ 11 10 0 (Real.sqrt 3 * (1/2)) [some ⟨5, 6, 7⟩, some ⟨9/2, 11/2, 13/2⟩, some ⟨9/2, 11/2, 13/2⟩, some ⟨9/2, 11/2, 13/2⟩]
      [Real.sqrt 3 * (7/2), Real.sqrt 3 * (5/2), Real.sqrt 3 * (3/2), Real.sqrt 3 * (1/2)] ⟨5, 6, 7⟩ (by norm_num) (by norm_num) rfl (by positivity)
      (by rw [dist_diag 5 6 7 6 7 8 1 (by norm_num) (by norm_num) (by norm_num)]
          have h3 := sqrt3_pos
          rw [show |(1:ℝ)| = 1 from by norm_num]; nlinarith)
      (by rw [dist_diag 5 6 7 6 7 8 1 (by norm_num) (by norm_num) (by norm_num)]
          have h3 := sqrt3_pos
          rw [show |(1:ℝ)| = 1 from by norm_num]; nlinarith)]
  rw [hopPoint_diag' 5 6 7 6 7 8 (1/2) (by norm_num) (by norm_num) (by norm_num)]
  rw [show (([Real.sqrt 3 * (7/2), Real.sqrt 3 * (5/2), Real.sqrt 3 * (3/2), Real.sqrt 3 * (1/2)] : List ℝ).getD 0 0 + ((Real.sqrt 3 * (1/2)) + Real.sqrt 3 * (1/2))) = Real.sqrt 3 * (9/2) from by
    simp only [List.getD_cons_zero, List.getD_cons_succ]; ring]
  norm_num [List.set]
  rw [
    calcLoop_hop_stay' (Real.sqrt 3 * (1/2)) ⟨6, 7, 8⟩ 10 9 1 0 [some ⟨11/2, 13/2, 15/2⟩, some ⟨9/2, 11/2, 13/2⟩, some ⟨9/2, 11/2, 13/2⟩, some ⟨9/2, 11/2, 13/2⟩]
      [Real.sqrt 3 * (9/2), Real.sqrt 3 * (5/2), Real.sqrt 3 * (3/2), Real.sqrt 3 * (1/2)] ⟨9/2, 11/2, 13/2⟩ (by norm_num) (by norm_num) rfl (by positivity)
      (by rw [dist_diag (9/2) (11/2) (13/2) 6 7 8 (3/2) (by norm_num) (by norm_num) (by norm_num)]
          have h3 := sqrt3_pos
          rw [show |(3/2:ℝ)| = 3/2 from by norm_num]; nlinarith)]
  rw [hopPoint_diag' (9/2) (11/2) (13/2) 6 7 8 (1/2) (by norm_num) (by norm_num) (by norm_num)]
  norm_num [List.set]
  rw [
    calcLoop_hop_commit' (Real.sqrt 3 * (1/2)) ⟨6, 7, 8⟩ 9 8 1 (Real.sqrt 3 * (1/2)) [some ⟨11/2, 13/2, 15/2⟩, some ⟨5, 6, 7⟩, some ⟨9/2, 11/2, 13/2⟩, some ⟨9/2, 11/2, 13/2⟩]
      [Real.sqrt 3 * (9/2), Real.sqrt 3 * (5/2), Real.sqrt 3 * (3/2), Real.sqrt 3 * (1/2)] ⟨5, 6, 7⟩ (by norm_num) (by norm_num) rfl (by positivity)
      (by rw [dist_diag 5 6 7 6 7 8 1 (by norm_num) (by norm_num) (by norm_num)]
          have h3 := sqrt3_pos
          rw [show |(1:ℝ)| = 1 from by norm_num]; nlinarith)
      (by rw [dist_diag 5 6 7 6 7 8 1 (by norm_num) (by norm_num) (by norm_num)]
          have h3 := sqrt3_pos
          rw [show |(1:ℝ)| = 1 from by norm_num]; nlinarith)]
  rw [hopPoint_diag' 5 6 7 6 7 8 (1/2) (by norm_num) (by norm_num) (by norm_num)]
  rw [show (([Real.sqrt 3 * (9/2), Real.sqrt 3 * (5/2), Real.sqrt 3 * (3/2), Real.sqrt 3 * (1/2)] : List ℝ).getD 1 0 + ((Real.sqrt 3 * (1/2)) + Real.sqrt 3 * (1/2))) = Real.sqrt 3 * (7/2) from by
    simp only [List.getD_cons_zero, List.getD_cons_succ]; ring]
  norm_num [List.set]
  rw [
    calcLoop_hop_stay' (Real.sqrt 3 * (1/2)) ⟨6, 7, 8⟩ 8 7 2 0 [some ⟨11/2, 13/2, 15/2⟩, some ⟨11/2, 13/2, 15/2⟩, some ⟨9/2, 11/2, 13/2⟩, some ⟨9/2, 11/2, 13/2⟩]
      [Real.sqrt 3 * (9/2), Real.sqrt 3 * (7/2), Real.sqrt 3 * (3/2), Real.sqrt 3 * (1/2)] ⟨9/2, 11/2, 13/2⟩ (by norm_num) (by norm_num) rfl (by positivity)
      (by rw [dist_diag (9/2) (11/2) (13/2) 6 7 8 (3/2) (by norm_num) (by norm_num) (by norm_num)]
          have h3 := sqrt3_pos
          rw [show |(3/2:ℝ)| = 3/2 from by norm_num]; nlinarith)]
  rw [hopPoint_diag' (9/2) (11/2) (13/2) 6 7 8 (1/2) (by norm_num) (by norm_num) (by norm_num)]
  norm_num [List.set]
  rw [
    calcLoop_hop_commit' (Real.sqrt 3 * (1/2)) ⟨6, 7, 8⟩ 7 6 2 (Real.sqrt 3 * (1/2)) [some ⟨11/2, 13/2, 15/2⟩, some ⟨11/2, 13/2, 15/2⟩, some ⟨5, 6, 7⟩, some ⟨9/2, 11/2, 13/2⟩]
      [Real.sqrt 3 * (9/2), Real.sqrt 3 * (7/2), Real.sqrt 3 * (3/2), Real.sqrt 3 * (1/2)] ⟨5, 6, 7⟩ (by norm_num) (by norm_num) rfl (by positivity)
      (by rw [dist_diag 5 6 7 6 7 8 1 (by norm_num) (by norm_num) (by norm_num)]
          have h3 := sqrt3_pos
          rw [show |(1:ℝ)| = 1 from by norm_num]; nlinarith)
      (by rw [dist_diag 5 6 7 6 7 8 1 (by norm_num) (by norm_num) (by norm_num)]
          have h3 := sqrt3_pos
          rw [show |(1:ℝ)| = 1 from by norm_num]; nlinarith)]
  rw [hopPoint_diag' 5 6 7 6 7 8 (1/2) (by norm_num) (by norm_num) (by norm_num)]
  rw [show (([Real.sqrt 3 * (9/2), Real.sqrt 3 * (7/2), Real.sqrt 3 * (3/2), Real.sqrt 3 * (1/2)] : List ℝ).getD 2 0 + ((Real.sqrt 3 * (1/2)) + Real.sqrt 3 * (1/2))) = Real.sqrt 3 * (5/2) from by
    simp only [List.getD_cons_zero, List.getD_cons_succ]; ring]
  norm_num [List.set]
  rw [
    calcLoop_hop_stay' (Real.sqrt 3 * (1/2)) ⟨6, 7, 8⟩ 6 5 3 0 [some ⟨11/2, 13/2, 15/2⟩, some ⟨11/2, 13/2, 15/2⟩, some ⟨11/2, 13/2, 15/2⟩, some ⟨9/2, 11/2, 13/2⟩]
      [Real.sqrt 3 * (9/2), Real.sqrt 3 * (7/2), Real.sqrt 3 * (5/2), Real.sqrt 3 * (1/2)] ⟨9/2, 11/2, 13/2⟩ (by norm_num) (by norm_num) rfl (by positivity)
      (by rw [dist_diag (9/2) (11/2) (13/2) 6 7 8 (3/2) (by norm_num) (by norm_num) (by norm_num)]
          have h3 := sqrt3_pos
          rw [show |(3/2:ℝ)| = 3/2 from by norm_num]; nlinarith)]
  rw [hopPoint_diag' (9/2) (11/2) (13/2) 6 7 8 (1/2) (by norm_num) (by norm_num) (by norm_num)]
  norm_num [List.set]
  rw [
    calcLoop_hop_commit' (Real.sqrt 3 * (1/2)) ⟨6, 7, 8⟩ 5 4 3 (Real.sqrt 3 * (1/2)) [some ⟨11/2, 13/2, 15/2⟩, some ⟨11/2, 13/2, 15/2⟩, some ⟨11/2, 13/2, 15/2⟩, some ⟨5, 6, 7⟩]
      [Real.sqrt 3 * (9/2), Real.sqrt 3 * (7/2), Real.sqrt 3 * (5/2), Real.sqrt 3 * (1/2)] ⟨5, 6, 7⟩ (by norm_num) (by norm_num) rfl (by positivity)
      (by rw [dist_diag 5 6 7 6 7 8 1 (by norm_num) (by norm_num) (by norm_num)]
          have h3 := sqrt3_pos
          rw [show |(1:ℝ)| = 1 from by norm_num]; nlinarith)
      (by rw [dist_diag 5 6 7 6 7 8 1 (by norm_num) (by norm_num) (by norm_num)]
          have h3 := sqrt3_pos
          rw [show |(1:ℝ)| = 1 from by norm_num]; nlinarith)]
  rw [hopPoint_diag' 5 6 7 6 7 8 (1/2) (by norm_num) (by norm_num) (by norm_num)]
  rw [show (([Real.sqrt 3 * (9/2), Real.sqrt 3 * (7/2), Real.sqrt 3 * (5/2), Real.sqrt 3 * (1/2)] : List ℝ).getD 3 0 + ((Real.sqrt 3 * (1/2)) + Real.sqrt 3 * (1/2))) = Real.sqrt 3 * (3/2) from by
    simp only [List.getD_cons_zero, List.getD_cons_succ]; ring]
  norm_num [List.set]
  rw [
    calcLoop_exit' (Real.sqrt 3 * (1/2)) ⟨6, 7, 8⟩ false 4 3 4 0 [some ⟨11/2, 13/2, 15/2⟩, some ⟨11/2, 13/2, 15/2⟩, some ⟨11/2, 13/2, 15/2⟩, some ⟨11/2, 13/2, 15/2⟩]
      [Real.sqrt 3 * (9/2), Real.sqrt 3 * (7/2), Real.sqrt 3 * (5/2), Real.sqrt 3 * (3/2)] (by norm_num) (by norm_num)]

theorem walkCmax5 :
    calculate_path_length 12 [some ⟨1, 2, 3⟩, some ⟨2, 3, 4⟩, some ⟨3, 4, 5⟩, some ⟨4, 5, 6⟩] 
      (Real.sqrt 3 * 5) [0, 0, 0, 0] ⟨6, 7, 8⟩ false
    = ([some ⟨6, 7, 8⟩, some ⟨2, 3, 4⟩, some ⟨3, 4, 5⟩, some ⟨4, 5, 6⟩], [Real.sqrt 3 * 5, 0, 0, 0]) := by
  unfold calculate_path_length
  rw [
    calcLoop_hop_commit' (Real.sqrt 3 * 5) ⟨6, 7, 8⟩ 12 11 0 0 [some ⟨1, 2, 3⟩, some ⟨2, 3, 4⟩, some ⟨3, 4, 5⟩, some ⟨4, 5, 6⟩]
      [0, 0, 0, 0] ⟨1, 2, 3⟩ (by norm_num) (by norm_num) rfl (by positivity)
      (by rw [dist_diag 1 2 3 6 7 8 5 (by norm_num) (by norm_num) (by norm_num)]
          have h3 := sqrt3_pos
          rw [show |(5:ℝ)| = 5 from by norm_num]; nlinarith)
      (by rw [dist_diag 1 2 3 6 7 8 5 (by norm_num) (by norm_num) (by norm_num)]
          have h3 := sqrt3_pos
          rw [show |(5:ℝ)| = 5 from by norm_num]; nlinarith)]
  rw [hopPoint_diag' 1 2 3 6 7 8 5 (by norm_num) (by norm_num) (by norm_num)]
  rw [show (([0, 0, 0, 0] : List ℝ).getD 0 0 + (0 + Real.sqrt 3 * 5)) = Real.sqrt 3 * 5 from by
    simp only [List.getD_cons_zero, List.getD_cons_succ]; ring]
  norm_num [List.set]
  rw [
    calcLoop_near' (Real.sqrt 3 * 5) ⟨6, 7, 8⟩ 11 10 1 0 [some ⟨6, 7, 8⟩, some ⟨2, 3, 4⟩, some ⟨3, 4, 5⟩, some ⟨4, 5, 6⟩]
      [Real.sqrt 3 * 5, 0, 0, 0] ⟨2, 3, 4⟩ (by norm_num) (by norm_num) rfl (by positivity)
      (by rw [dist_diag 2 3 4 6 7 8 4 (by norm_num) (by norm_num) (by norm_num)]
          have h3 := sqrt3_pos
          rw [show |(4:ℝ)| = 4 from by norm_num]; nlinarith)]
  norm_num
  rw [
    calcLoop_near' (Real.sqrt 3 * 5) ⟨6, 7, 8⟩ 10 9 2 0 [some ⟨6, 7, 8⟩, some ⟨2, 3, 4⟩, some ⟨3, 4, 5⟩, some ⟨4, 5, 6⟩]
      [Real.sqrt 3 * 5, 0, 0, 0] ⟨3, 4, 5⟩ (by norm_num) (by norm_num) rfl (by positivity)
      (by rw [dist_diag 3 4 5 6 7 8 3 (by norm_num) (by norm_num) (by norm_num)]
          have h3 := sqrt3_pos
          rw [show |(3:ℝ)| = 3 from by norm_num]; nlinarith)]
  norm_num
  rw [
    calcLoop_near' (Real.sqrt 3 * 5) ⟨6, 7, 8⟩ 9 8 3 0 [some ⟨6, 7, 8⟩, some ⟨2, 3, 4⟩, some ⟨3, 4, 5⟩, some ⟨4, 5, 6⟩]
      [Real.sqrt 3 * 5, 0, 0, 0] ⟨4, 5, 6⟩ (by norm_num) (by norm_num) rfl (by positivity)
      (by rw [dist_diag 4 5 6 6 7 8 2 (by norm_num) (by norm_num) (by norm_num)]
          have h3 := sqrt3_pos
          rw [show |(2:ℝ)| = 2 from by norm_num]; nlinarith)]
  norm_num
  rw [
    calcLoop_exit' (Real.sqrt 3 * 5) ⟨6, 7, 8⟩ false 8 7 4 0 [some ⟨6, 7, 8⟩, some ⟨2, 3, 4⟩, some ⟨3, 4, 5⟩, some ⟨4, 5, 6⟩]
      [Real.sqrt 3 * 5, 0, 0, 0] (by norm_num) (by norm_num)]

noncomputable def eC5 : RunningD :=
  ⟨"subject1", ⟨6, 7, 8⟩, 0, 0.5, 5,
    [some ⟨11/2, 13/2, 15/2⟩, some ⟨11/2, 13/2, 15/2⟩, some ⟨11/2, 13/2, 15/2⟩, some ⟨11/2, 13/2, 15/2⟩],
    [some ⟨6, 7, 8⟩, some ⟨2, 3, 4⟩, some ⟨3, 4, 5⟩, some ⟨4, 5, 6⟩],
    [Real.sqrt 3 * (9/2), Real.sqrt 3 * (7/2), Real.sqrt 3 * (5/2), Real.sqrt 3 * (3/2)],
    [Real.sqrt 3 * 5, 0, 0, 0],
    Real.sqrt 3 * 5, 5, Real.sqrt 3 * (1/2), Real.sqrt 3 * 5, Real.sqrt 3,
    false, 5, 1, 0, 0, 0, 0, 0, 1 + Real.logb 10 (9/10)⟩

theorem stepC5e : RunningD.add_point eC4 12 ⟨6, 7, 8⟩ 5 false = eC5 := by
  refine (add_point_eval eC4 12 ⟨6, 7, 8⟩ 5 (Real.sqrt 3) (Real.sqrt 3 * 5) (Real.sqrt 3)
    (Real.sqrt 3 * (1/2)) (Real.sqrt 3 * 5) 1
    [some ⟨9/2, 11/2, 13/2⟩, some ⟨9/2, 11/2, 13/2⟩, some ⟨9/2, 11/2, 13/2⟩, some ⟨9/2, 11/2, 13/2⟩]
    [some ⟨1, 2, 3⟩, some ⟨2, 3, 4⟩, some ⟨3, 4, 5⟩, some ⟨4, 5, 6⟩]
    [some ⟨11/2, 13/2, 15/2⟩, some ⟨11/2, 13/2, 15/2⟩, some ⟨11/2, 13/2, 15/2⟩, some ⟨11/2, 13/2, 15/2⟩]
    [some ⟨6, 7, 8⟩, some ⟨2, 3, 4⟩, some ⟨3, 4, 5⟩, some ⟨4, 5, 6⟩]
    [Real.sqrt 3 * (9/2), Real.sqrt 3 * (7/2), Real.sqrt 3 * (5/2), Real.sqrt 3 * (3/2)] [Real.sqrt 3 * 5, 0, 0, 0] (1 + Real.logb 10 (9/10))
    rfl
    (by simp only [eC4]
        rw [dist_diag 5 6 7 6 7 8 1 (by norm_num) (by norm_num) (by norm_num)]
        norm_num)
    (by simp only [eC4] <;> ring)
    (by simp only [eC4]; push_cast; field_simp <;> ring)
    (by simp only [eC4] <;> norm_num)
    (by simp only [eC4] <;> norm_num)
    (by simp only [eC4] <;> norm_num)
    (by simp only [eC4] <;> rfl)
    (by simp only [eC4] <;> rfl)
    walkCmin5 walkCmax5
    fdC5).trans ?_
  rfl

theorem dA0 : (RTFPA.init 0.5 10).new_reading 12 "subject1" 0 0 0 0 = (rtA eA0, eA0) := rfl

theorem dA1 : (rtA eA0).new_reading 12 "subject1" 10 0 0 1 = (rtA eA1, eA1) := by
  rw [new_reading_continue (rtA eA0) 12 "subject1" 10 0 0 1 eA0 rfl rfl
    (by simp only [eA0]; rw [dist_axis]; norm_num)
    (by simp only [rtA, eA0] <;> norm_num)
    eA1 stepA1e]
  rw [rtA_update eA0 eA1]

theorem dA2 : (rtA eA1).new_reading 12 "subject1" 20 0 0 2 = (rtA eA2, eA2) := by
  rw [new_reading_continue (rtA eA1) 12 "subject1" 20 0 0 2 eA1 rfl rfl
    (by simp only [eA1]; rw [dist_axis]; norm_num)
    (by simp only [rtA, eA1] <;> norm_num)
    eA2 stepA2e]
  rw [rtA_update eA1 eA2]

theorem dA3 : (rtA eA2).new_reading 12 "subject1" 30 0 0 3 = (rtA eA3, eA3) := by
  rw [new_reading_continue (rtA eA2) 12 "subject1" 30 0 0 3 eA2 rfl rfl
    (by simp only [eA2]; rw [dist_axis]; norm_num)
    (by simp only [rtA, eA2] <;> norm_num)
    eA3 stepA3e]
  rw [rtA_update eA2 eA3]

theorem dA4 : (rtA eA3).new_reading 12 "subject1" 40 0 0 4 = (rtA eA4, eA4) := by
  rw [new_reading_continue (rtA eA3) 12 "subject1" 40 0 0 4 eA3 rfl rfl
    (by simp only [eA3]; rw [dist_axis]; norm_num)
    (by simp only [rtA, eA3] <;> norm_num)
    eA4 stepA4e]
  rw [rtA_update eA3 eA4]

theorem dA5 : (rtA eA4).new_reading 12 "subject1" 50 0 0 5 = (rtA eA5, eA5) := by
  rw [new_reading_continue (rtA eA4) 12 "subject1" 50 0 0 5 eA4 rfl rfl
    (by simp only [eA4]; rw [dist_axis]; norm_num)
    (by simp only [rtA, eA4] <;> norm_num)
    eA5 stepA5e]
  rw [rtA_update eA4 eA5]

theorem dA6 : (rtA eA5).new_reading 12 "subject1" 60 0 0 6 = (rtA eA6, eA6) := by
  rw [new_reading_continue (rtA eA5) 12 "subject1" 60 0 0 6 eA5 rfl rfl
    (by simp only [eA5]; rw [dist_axis]; norm_num)
    (by simp only [rtA, eA5] <;> norm_num)
    eA6 stepA6e]
  rw [rtA_update eA5 eA6]

theorem dB0 : (RTFPA.init 0.5 5).new_reading 12 "subject1" 0 0 0 0 = (rtB eB0, eB0) := rfl

theorem dB1 : (rtB eB0).new_reading 12 "subject1" 10 0 0 1 = (rtB eB1, eB1) := by
  rw [new_reading_continue (rtB eB0) 12 "subject1" 10 0 0 1 eB0 rfl rfl
    (by simp only [eB0]; rw [dist_axis]; norm_num)
    (by simp only [rtB, eB0] <;> norm_num)
    eB1 stepB1e]
  rw [rtB_update eB0 eB1]

theorem dB2 : (rtB eB1).new_reading 12 "subject1" 20 0 0 2 = (rtB eB2, eB2) := by
  rw [new_reading_continue (rtB eB1) 12 "subject1" 20 0 0 2 eB1 rfl rfl
    (by simp only [eB1]; rw [dist_axis]; norm_num)
    (by simp only [rtB, eB1] <;> norm_num)
    eB2 stepB2e]
  rw [rtB_update eB1 eB2]

theorem dB3 : (rtB eB2).new_reading 12 "subject1" 30 0 0 3 = (rtB eB3, eB3) := by
  rw [new_reading_continue (rtB eB2) 12 "subject1" 30 0 0 3 eB2 rfl rfl
    (by simp only [eB2]; rw [dist_axis]; norm_num)
    (by simp only [rtB, eB2] <;> norm_num)
    eB3 stepB3e]
  rw [rtB_update eB2 eB3]

theorem dB4 : (rtB eB3).new_reading 12 "subject1" 40 0 0 4 = (rtB eB4, eB4) := by
  rw [new_reading_continue (rtB eB3) 12 "subject1" 40 0 0 4 eB3 rfl rfl
    (by simp only [eB3]; rw [dist_axis]; norm_num)
    (by simp only [rtB, eB3] <;> norm_num)
    eB4 stepB4e]
  rw [rtB_update eB3 eB4]

theorem dB5 : (rtB eB4).new_reading 12 "subject1" 50 0 0 5 = (rtB eB5, eB5) := by
  rw [new_reading_continue (rtB eB4) 12 "subject1" 50 0 0 5 eB4 rfl rfl
    (by simp only [eB4]; rw [dist_axis]; norm_num)
    (by simp only [rtB, eB4] <;> norm_num)
    eB5 stepB5e]
  rw [rtB_update eB4 eB5]

theorem dB6 : (rtB eB5).new_reading 12 "subject1" 60 0 0 6 = (rtB eB6, eB6) := by
  rw [new_reading_continue (rtB eB5) 12 "subject1" 60 0 0 6 eB5 rfl rfl
    (by simp only [eB5]; rw [dist_axis]; norm_num)
    (by simp only [rtB, eB5] <;> norm_num)
    eB6 stepB6e]
  rw [rtB_update eB5 eB6]

theorem dC0 : (RTFPA.init 0.5 5).new_reading 12 "subject1" 1 2 3 0 = (rtB eC0, eC0) := rfl

theorem dC1 : (rtB eC0).new_reading 12 "subject1" 2 3 4 1 = (rtB eC1, eC1) := by
  rw [new_reading_continue (rtB eC0) 12 "subject1" 2 3 4 1 eC0 rfl rfl
    (by simp only [eC0]
        rw [dist_diag 2 3 4 1 2 3 (-1) (by norm_num) (by norm_num) (by norm_num)]
        positivity)
    (by simp only [rtB, eC0] <;> norm_num)
    eC1 stepC1e]
  rw [rtB_update eC0 eC1]

theorem dC2 : (rtB eC1).new_reading 12 "subject1" 3 4 5 2 = (rtB eC2, eC2) := by
  rw [new_reading_continue (rtB eC1) 12 "subject1" 3 4 5 2 eC1 rfl rfl
    (by simp only [eC1]
        rw [dist_diag 3 4 5 2 3 4 (-1) (by norm_num) (by norm_num) (by norm_num)]
        positivity)
    (by simp only [rtB, eC1] <;> norm_num)
    eC2 stepC2e]
  rw [rtB_update eC1 eC2]

theorem dC3 : (rtB eC2).new_reading 12 "subject1" 4 5 6 3 = (rtB eC3, eC3) := by
  rw [new_reading_continue (rtB eC2) 12 "subject1" 4 5 6 3 eC2 rfl rfl
    (by simp only [eC2]
        rw [dist_diag 4 5 6 3 4 5 (-1) (by norm_num) (by norm_num) (by norm_num)]
        positivity)
    (by simp only [rtB, eC2] <;> norm_num)
    eC3 stepC3e]
  rw [rtB_update eC2 eC3]

theorem dC4 : (rtB eC3).new_reading 12 "subject1" 5 6 7 4 = (rtB eC4, eC4) := by
  rw [new_reading_continue (rtB eC3) 12 "subject1" 5 6 7 4 eC3 rfl rfl
    (by simp only [eC3]
        rw [dist_diag 5 6 7 4 5 6 (-1) (by norm_num) (by norm_num) (by norm_num)]
        positivity)
    (by simp only [rtB, eC3] <;> norm_num)
    eC4 stepC4e]
  rw [rtB_update eC3 eC4]

theorem dC5 : (rtB eC4).new_reading 12 "subject1" 6 7 8 5 = (rtB eC5, eC5) := by
  rw [new_reading_continue (rtB eC4) 12 "subject1" 6 7 8 5 eC4 rfl rfl
    (by simp only [eC4]
        rw [dist_diag 6 7 8 5 6 7 (-1) (by norm_num) (by norm_num) (by norm_num)]
        positivity)
    (by simp only [rtB, eC4] <;> norm_num)
    eC5 stepC5e]
  rw [rtB_update eC4 eC5]


-- ### Bounds on the base-10 logarithms appearing in the final estimates

theorem logb_nine_tenths_bounds :
    -(1/10 : ℝ) < Real.logb 10 (9/10) ∧ Real.logb 10 (9/10) < 0 := by
  constructor
  · rw [Real.lt_logb_iff_rpow_lt (by norm_num) (by norm_num)]
    by_contra hcon
    push_neg at hcon
    have hpow : ((10:ℝ) ^ (-(1/10 : ℝ))) ^ (10:ℕ) = 1/10 := by
      rw [← Real.rpow_natCast ((10:ℝ) ^ (-(1/10 : ℝ))) 10, ← Real.rpow_mul (by norm_num)]
      rw [show (-(1/10 : ℝ)) * ((10:ℕ):ℝ) = -1 by push_cast; ring]
      rw [show ((10:ℝ) ^ (-1 : ℝ)) = ((10:ℝ) ^ (1:ℝ))⁻¹ from Real.rpow_neg (by norm_num) 1]
      norm_num
    have h2 : ((9:ℝ)/10) ^ (10:ℕ) ≤ ((10:ℝ) ^ (-(1/10 : ℝ))) ^ (10:ℕ) :=
      pow_le_pow_left (by norm_num) hcon 10
    rw [hpow] at h2
    norm_num at h2
  · exact Real.logb_neg (by norm_num) (by norm_num) (by norm_num)

theorem logb_ninetynine_hundredths_bounds :
    -(1/5 : ℝ) < Real.logb 10 (99/100) ∧ Real.logb 10 (99/100) < 0 := by
  constructor
  · rw [Real.lt_logb_iff_rpow_lt (by norm_num) (by norm_num)]
    by_contra hcon
    push_neg at hcon
    have hpow : ((10:ℝ) ^ (-(1/5 : ℝ))) ^ (5:ℕ) = 1/10 := by
      rw [← Real.rpow_natCast ((10:ℝ) ^ (-(1/5 : ℝ))) 5, ← Real.rpow_mul (by norm_num)]
      rw [show (-(1/5 : ℝ)) * ((5:ℕ):ℝ) = -1 by push_cast; ring]
      rw [show ((10:ℝ) ^ (-1 : ℝ)) = ((10:ℝ) ^ (1:ℝ))⁻¹ from Real.rpow_neg (by norm_num) 1]
      norm_num
    have h2 : ((99:ℝ)/100) ^ (5:ℕ) ≤ ((10:ℝ) ^ (-(1/5 : ℝ))) ^ (5:ℕ) :=
      pow_le_pow_left (by norm_num) hcon 5
    rw [hpow] at h2
    norm_num at h2
  · exact Real.logb_neg (by norm_num) (by norm_num) (by norm_num)

/-- Bounds for the final day-6 collinear estimate. -/
theorem eB6_D_combined :
    Real.logb 10 (11/10) + Real.logb 10 (9/10) = Real.logb 10 (99/100) := by
  rw [← Real.logb_mul (by norm_num) (by norm_num)]
  norm_num

-- ### Claim C1: the two spec scenarios, fed through the dispatcher

/-- Feed a list of `((x, y, z), timestamp)` readings for one subject through
the dispatcher, returning the final dispatcher state. -/
noncomputable def feedReadings (fuel : ℕ) (sid : String) :
    RTFPA → List ((ℝ × ℝ × ℝ) × ℝ) → RTFPA
  | m, [] => m
  | m, ((x, y, z), ts) :: rest =>
    feedReadings fuel sid (m.new_reading fuel sid x y z ts).1 rest

/-- Feed readings, collecting the engine returned for each reading. -/
noncomputable def feedTrace (fuel : ℕ) (sid : String) :
    RTFPA → List ((ℝ × ℝ × ℝ) × ℝ) → List RunningD
  | _, [] => []
  | m, ((x, y, z), ts) :: rest =>
    (m.new_reading fuel sid x y z ts).2 ::
      feedTrace fuel sid (m.new_reading fuel sid x y z ts).1 rest

/-- The seven collinear readings (steps of 10 along the x-axis, 1 s apart). -/
noncomputable def collinearReadings : List ((ℝ × ℝ × ℝ) × ℝ) :=
  [((0, 0, 0), 0), ((10, 0, 0), 1), ((20, 0, 0), 2), ((30, 0, 0), 3),
    ((40, 0, 0), 4), ((50, 0, 0), 5), ((60, 0, 0), 6)]

/-- The end-to-end diagonal readings `(1,2,3) → … → (6,7,8)` at `t = 0..5`. -/
noncomputable def diagonalReadings : List ((ℝ × ℝ × ℝ) × ℝ) :=
  [((1, 2, 3), 0), ((2, 3, 4), 1), ((3, 4, 5), 2), ((4, 5, 6), 3),
    ((5, 6, 7), 4), ((6, 7, 8), 5)]

theorem collinear_default_run :
    feedReadings 12 "subject1" (RTFPA.init 0.5 10) collinearReadings = rtA eA6 := by
  simp only [collinearReadings, feedReadings, dA0, dA1, dA2, dA3, dA4, dA5, dA6]

theorem collinear_five_run :
    feedReadings 12 "subject1" (RTFPA.init 0.5 5) collinearReadings = rtB eB6 := by
  simp only [collinearReadings, feedReadings, dB0, dB1, dB2, dB3, dB4, dB5, dB6]

theorem diagonal_five_run :
    feedReadings 12 "subject1" (RTFPA.init 0.5 5) diagonalReadings = rtB eC5 := by
  simp only [diagonalReadings, feedReadings, dC0, dC1, dC2, dC3, dC4, dC5]

theorem diagonal_five_trace :
    (feedTrace 12 "subject1" (RTFPA.init 0.5 5) diagonalReadings).map
      (fun e => e.number_of_steps) = [0, 1, 2, 3, 4, 5] := by
  simp only [diagonalReadings, feedTrace, dC0, dC1, dC2, dC3, dC4, dC5]
  simp [eC0, eC1, eC2, eC3, eC4, eC5]

/-- C1 (counterexample): with the default multipliers `(0.5, 10.0)` and
timeout 60, the seven collinear readings (steps of 10 along the x-axis) leave
the final fractal dimension at 0, not inside `(0.9, 1.1)`: the max-scale
compass radius is `10 × mean_step = 100`, which the 60-unit path never
reaches, so every max-scale accumulator stays 0 and no anchor qualifies. -/
theorem C1_claim_counterexample :
    (feedReadings 12 "subject1" (RTFPA.init 0.5 10)
        collinearReadings).tracked_objects_running_d "subject1" = some eA6
    ∧ eA6.D = 0 ∧ ¬(0.9 < eA6.D ∧ eA6.D < 1.1) := by
  refine ⟨?_, rfl, ?_⟩
  · rw [collinear_default_run]
    simp [rtA]
  · rw [show eA6.D = 0 from rfl]
    norm_num

/-- C1 (amended): with multipliers `(0.5, 5.0)` — the configuration of the
repository's test fixture — timeout 60, both scenarios behave as claimed:
one tracked subject, a single continuous segment with `number_of_steps`
growing 0→5 in the diagonal scenario, and a final `0.9 < D < 1.1`. -/
theorem C1_claim_amended :
    ((feedReadings 12 "subject1" (RTFPA.init 0.5 5)
        collinearReadings).tracked_objects_running_d "subject1" = some eB6
      ∧ 0.9 < eB6.D ∧ eB6.D < 1.1)
    ∧ ((feedReadings 12 "subject1" (RTFPA.init 0.5 5)
        diagonalReadings).tracked_objects_running_d "subject1" = some eC5
      ∧ (∀ sid, sid ≠ "subject1" →
          (feedReadings 12 "subject1" (RTFPA.init 0.5 5)
            diagonalReadings).tracked_objects_running_d sid = none)
      ∧ (feedTrace 12 "subject1" (RTFPA.init 0.5 5) diagonalReadings).map
          (fun e => e.number_of_steps) = [0, 1, 2, 3, 4, 5]
      ∧ eC5.number_of_steps = 5
      ∧ 0.9 < eC5.D ∧ eC5.D < 1.1) := by
  obtain ⟨h99l, h99u⟩ := logb_ninetynine_hundredths_bounds
  obtain ⟨h9l, h9u⟩ := logb_nine_tenths_bounds
  refine ⟨⟨?_, ?_, ?_⟩, ?_, ?_, diagonal_five_trace, rfl, ?_, ?_⟩
  · rw [collinear_five_run]
    simp [rtB]
  · rw [show eB6.D = 1 + (Real.logb 10 (11/10) + Real.logb 10 (9/10)) / 2 from rfl,
      eB6_D_combined]
    linarith
  · rw [show eB6.D = 1 + (Real.logb 10 (11/10) + Real.logb 10 (9/10)) / 2 from rfl,
      eB6_D_combined]
    linarith
  · rw [diagonal_five_run]
    simp [rtB]
  · rw [diagonal_five_run]
    intro sid h
    simp [rtB, h]
  · rw [show eC5.D = 1 + Real.logb 10 (9/10) from rfl]
    linarith
  · rw [show eC5.D = 1 + Real.logb 10 (9/10) from rfl]
    linarith

/-- Witness for the amended C1 theorem's universally-quantified component. -/
theorem C1_claim_amended_witness :
    ("other" : String) ≠ "subject1" ∧
      (feedReadings 12 "subject1" (RTFPA.init 0.5 5)
        diagonalReadings).tracked_objects_running_d "other" = none :=
  ⟨by decide, C1_claim_amended.2.2.1 "other" (by decide)⟩

-- ### Claim C2: clamp-then-filter behavior of the constrained intersection

theorem lsiKeep_true_constrained (p1 p2 c : Point3D) (r t : ℝ)
    (h : lsiKeep p1 p2 c r true t = true) :
    (0 ≤ t ∧ t ≤ 1) ∧ Point3D.distance (pointOnLine p1 p2 t) c ≤ r := by
  unfold lsiKeep at h
  by_cases h1 : (true = true) ∧ ¬(0 ≤ t ∧ t ≤ 1)
  · rw [if_pos h1] at h
    exact absurd h (by simp)
  · rw [if_neg h1] at h
    by_cases h2 : (true = true) ∧ r < Point3D.distance (pointOnLine p1 p2 t) c
    · rw [if_pos h2] at h
      exact absurd h (by simp)
    · push_neg at h1 h2
      exact ⟨h1 rfl, h2 rfl⟩

theorem lsi_concrete_constrained :
    line_sphere_intersect ⟨-2, 0, 0⟩ ⟨2, 0, 0⟩ ⟨0, 0, 0⟩ 3 true
      = some [⟨2, 0, 0⟩, ⟨-2, 0, 0⟩] := by
  have hsq : Real.sqrt 576 = 24 := by
    rw [show (576:ℝ) = 24 ^ 2 by norm_num, Real.sqrt_sq (by norm_num)]
  have hd2 : Point3D.distance ⟨2, 0, 0⟩ ⟨0, 0, 0⟩ = 2 := by rw [dist_axis]; norm_num
  have hd2' : Point3D.distance ⟨-2, 0, 0⟩ ⟨0, 0, 0⟩ = 2 := by rw [dist_axis]; norm_num
  norm_num [line_sphere_intersect, lsi_two_roots, lsiResults, lsiClamp, lsiKeep,
    lsiT1, lsiT2, discriminant, lineA, lineB, lineC, pointOnLine, hsq, hd2, hd2']
  simp

theorem lsi_concrete_unconstrained :
    line_sphere_intersect ⟨-2, 0, 0⟩ ⟨2, 0, 0⟩ ⟨0, 0, 0⟩ 3 false
      = some [⟨3, 0, 0⟩, ⟨-3, 0, 0⟩] := by
  have hsq : Real.sqrt 576 = 24 := by
    rw [show (576:ℝ) = 24 ^ 2 by norm_num, Real.sqrt_sq (by norm_num)]
  norm_num [line_sphere_intersect, lsi_two_roots, lsiResults, lsiClamp, lsiKeep,
    lsiT1, lsiT2, discriminant, lineA, lineB, lineC, pointOnLine, hsq]
  simp

/-- C2: whenever the discriminant is positive and `constrain_to_segment` is
set, every returned point corresponds to a (clamped) parameter in `[0, 1]` and
lies within the radius of the sphere center; concretely, for the radius-3
sphere at the origin and the segment from `(-2,0,0)` to `(2,0,0)`, the
constrained call returns the segment endpoints `x = ±2` and the unconstrained
call the true intersections `x = ±3`. -/
theorem C2_claim :
    (∀ p1 p2 c : Point3D, ∀ r : ℝ, 0 < discriminant p1 p2 c r →
      ∀ q ∈ (line_sphere_intersect p1 p2 c r true).getD [],
        (∃ t, 0 ≤ t ∧ t ≤ 1 ∧ q = pointOnLine p1 p2 t) ∧ Point3D.distance q c ≤ r)
    ∧ line_sphere_intersect ⟨-2, 0, 0⟩ ⟨2, 0, 0⟩ ⟨0, 0, 0⟩ 3 true
        = some [⟨2, 0, 0⟩, ⟨-2, 0, 0⟩]
    ∧ line_sphere_intersect ⟨-2, 0, 0⟩ ⟨2, 0, 0⟩ ⟨0, 0, 0⟩ 3 false
        = some [⟨3, 0, 0⟩, ⟨-3, 0, 0⟩] := by
  refine ⟨?_, lsi_concrete_constrained, lsi_concrete_unconstrained⟩
  intro p1 p2 c r hdisc q hq
  unfold line_sphere_intersect at hq
  rw [if_neg (not_lt.mpr (le_of_lt hdisc)), if_neg (ne_of_gt hdisc)] at hq
  unfold lsi_two_roots at hq
  by_cases hres : lsiResults p1 p2 c r true = []
  · rw [if_pos hres] at hq
    simp at hq
  · rw [if_neg hres] at hq
    simp only [Option.getD_some] at hq
    unfold lsiResults at hq
    obtain ⟨t, ht, hq⟩ := List.mem_map.mp hq
    obtain ⟨⟨ht0, ht1⟩, hdist⟩ :=
      lsiKeep_true_constrained p1 p2 c r t (List.mem_filter.mp ht).2
    exact ⟨⟨t, ht0, ht1, hq.symm⟩, hq ▸ hdist⟩

/-- Witness for C2: the first component applied at the concrete call. -/
theorem C2_claim_witness :
    0 < discriminant ⟨-2, 0, 0⟩ ⟨2, 0, 0⟩ ⟨0, 0, 0⟩ 3 ∧
      ((⟨2, 0, 0⟩ : Point3D) ∈
          (line_sphere_intersect ⟨-2, 0, 0⟩ ⟨2, 0, 0⟩ ⟨0, 0, 0⟩ 3 true).getD [] ∧
        Point3D.distance ⟨2, 0, 0⟩ ⟨0, 0, 0⟩ ≤ 3) := by
  have hdisc : (0:ℝ) < discriminant ⟨-2, 0, 0⟩ ⟨2, 0, 0⟩ ⟨0, 0, 0⟩ 3 := by
    unfold discriminant lineA lineB lineC
    norm_num
  have hmem : (⟨2, 0, 0⟩ : Point3D) ∈
      (line_sphere_intersect ⟨-2, 0, 0⟩ ⟨2, 0, 0⟩ ⟨0, 0, 0⟩ 3 true).getD [] := by
    rw [lsi_concrete_constrained]
    simp
  exact ⟨hdisc, hmem,
    (C2_claim.1 ⟨-2, 0, 0⟩ ⟨2, 0, 0⟩ ⟨0, 0, 0⟩ 3 hdisc ⟨2, 0, 0⟩ hmem).2⟩

-- ### Claim C3: the fractal dimension is the mean over qualifying anchors

/-- The spec's own description of the estimate, stated independently of the
code: the arithmetic mean of `1 - Δlog(length)/Δlog(scale)` over exactly those
anchor indices whose two path lengths and two scales are strictly positive and
whose log-scale difference is nonzero (`fd_i` is automatically finite over ℝ);
0 when no index qualifies. -/
noncomputable def specFractalDimension (min_path_length max_path_length : List ℝ)
    (min_scale max_scale : ℝ) : ℝ :=
  let Q := (Finset.range 4).filter (fun i =>
    0 < min_path_length.getD i 0 ∧ 0 < max_path_length.getD i 0 ∧
    0 < min_scale ∧ 0 < max_scale ∧
    Real.logb 10 min_scale - Real.logb 10 max_scale ≠ 0)
  if Q = ∅ then 0
  else (∑ i in Q, (1 - (Real.logb 10 (min_path_length.getD i 0) -
      Real.logb 10 (max_path_length.getD i 0)) /
    (Real.logb 10 min_scale - Real.logb 10 max_scale))) / (Q.card : ℝ)

theorem filterMap_if_sum (n : ℕ) (P : ℕ → Prop) [DecidablePred P] (g : ℕ → ℝ) :
    ((List.range n).filterMap fun i => if P i then some (g i) else none).sum
      = ∑ i in (Finset.range n).filter P, g i := by
  induction n with
  | zero => simp
  | succ n ih =>
    rw [List.range_succ, List.filterMap_append, List.sum_append, Finset.range_succ,
      Finset.filter_insert]
    by_cases h : P n
    · rw [if_pos h, Finset.sum_insert (by simp), ih]
      simp [h]
      ring
    · rw [if_neg h, ih]
      simp [h]

theorem filterMap_if_length (n : ℕ) (P : ℕ → Prop) [DecidablePred P] (g : ℕ → ℝ) :
    ((List.range n).filterMap fun i => if P i then some (g i) else none).length
      = ((Finset.range n).filter P).card := by
  induction n with
  | zero => simp
  | succ n ih =>
    rw [List.range_succ, List.filterMap_append, List.length_append, Finset.range_succ,
      Finset.filter_insert]
    by_cases h : P n
    · rw [if_pos h, Finset.card_insert_of_not_mem (by simp), ih]
      simp [h]
    · rw [if_neg h, ih]
      simp [h]

theorem fdEstimates_eq_filterMap (L1 L2 : List ℝ) (a b : ℝ) :
    fdEstimates L1 L2 a b = (List.range 4).filterMap (fun i =>
      if 0 < L1.getD i 0 ∧ 0 < L2.getD i 0 ∧ 0 < a ∧ 0 < b ∧
          Real.logb 10 a - Real.logb 10 b ≠ 0 then
        some (1 - (Real.logb 10 (L1.getD i 0) - Real.logb 10 (L2.getD i 0)) /
          (Real.logb 10 a - Real.logb 10 b))
      else none) := by
  unfold fdEstimates
  congr 1
  funext i
  by_cases h1 : 0 < L1.getD i 0 ∧ 0 < L2.getD i 0 ∧ 0 < a ∧ 0 < b
  · rw [if_pos h1]
    by_cases h2 : Real.logb 10 a - Real.logb 10 b ≠ 0
    · rw [if_pos h2, if_pos ⟨h1.1, h1.2.1, h1.2.2.1, h1.2.2.2, h2⟩]
    · rw [if_neg h2, if_neg (fun hc => h2 hc.2.2.2.2)]
  · rw [if_neg h1, if_neg (fun hc => h1 ⟨hc.1, hc.2.1, hc.2.2.1, hc.2.2.2.1⟩)]

theorem fd_mean_eq_spec (L1 L2 : List ℝ) (a b : ℝ) :
    (if fdEstimates L1 L2 a b = [] then (0:ℝ) else
      (fdEstimates L1 L2 a b).sum / ((fdEstimates L1 L2 a b).length : ℝ))
    = specFractalDimension L1 L2 a b := by
  rw [fdEstimates_eq_filterMap]
  unfold specFractalDimension
  rw [filterMap_if_sum 4 _ _, filterMap_if_length 4 _ _]
  by_cases hQ : (Finset.range 4).filter (fun i =>
      0 < L1.getD i 0 ∧ 0 < L2.getD i 0 ∧ 0 < a ∧ 0 < b ∧
      Real.logb 10 a - Real.logb 10 b ≠ 0) = ∅
  · have hempty : ((List.range 4).filterMap fun i =>
        if 0 < L1.getD i 0 ∧ 0 < L2.getD i 0 ∧ 0 < a ∧ 0 < b ∧
            Real.logb 10 a - Real.logb 10 b ≠ 0 then
          some (1 - (Real.logb 10 (L1.getD i 0) - Real.logb 10 (L2.getD i 0)) /
            (Real.logb 10 a - Real.logb 10 b))
        else none) = [] := by
      rw [← List.length_eq_zero, filterMap_if_length 4 _ _, hQ]
      simp
    rw [if_pos hempty, if_pos hQ]
  · have hne : ((List.range 4).filterMap fun i =>
        if 0 < L1.getD i 0 ∧ 0 < L2.getD i 0 ∧ 0 < a ∧ 0 < b ∧
            Real.logb 10 a - Real.logb 10 b ≠ 0 then
          some (1 - (Real.logb 10 (L1.getD i 0) - Real.logb 10 (L2.getD i 0)) /
            (Real.logb 10 a - Real.logb 10 b))
        else none) ≠ [] := by
      rw [← List.length_pos_iff_ne_nil, filterMap_if_length 4 _ _]
      exact Finset.card_pos.mpr (Finset.nonempty_iff_ne_empty.mpr hQ)
    rw [if_neg hne, if_neg hQ]

/-- C3: after every fractal recomputation, `D` equals the spec's arithmetic
mean over exactly the qualifying anchor indices of the post-walk length lists;
and whenever the two selected scales coincide (in particular both zero, or
structurally when the two multipliers coincide), `D` is reset to 0. -/
theorem C3_claim : ∀ (f : ℕ) (s : RunningD) (ctp uv : Bool),
    (RunningD.fractal s f ctp uv).D = specFractalDimension
        (calculate_path_length f s.min_sphere_center
          (if uv then s.min_step_velocity else s.min_step_size) s.min_path_length
          (if ctp then ⟨s.position.x, s.position.y, 0⟩ else s.position) ctp).2
        (calculate_path_length f s.max_sphere_center
          (if uv then s.max_step_velocity else s.max_step_size) s.max_path_length
          (if ctp then ⟨s.position.x, s.position.y, 0⟩ else s.position) ctp).2
        (if uv then s.min_step_velocity else s.min_step_size)
        (if uv then s.max_step_velocity else s.max_step_size)
    ∧ ((if uv then s.min_step_velocity else s.min_step_size)
          = (if uv then s.max_step_velocity else s.max_step_size) →
        (RunningD.fractal s f ctp uv).D = 0) := by
  intro f s ctp uv
  have h1 : (RunningD.fractal s f ctp uv).D = specFractalDimension
      (calculate_path_length f s.min_sphere_center
        (if uv then s.min_step_velocity else s.min_step_size) s.min_path_length
        (if ctp then ⟨s.position.x, s.position.y, 0⟩ else s.position) ctp).2
      (calculate_path_length f s.max_sphere_center
        (if uv then s.max_step_velocity else s.max_step_size) s.max_path_length
        (if ctp then ⟨s.position.x, s.position.y, 0⟩ else s.position) ctp).2
      (if uv then s.min_step_velocity else s.min_step_size)
      (if uv then s.max_step_velocity else s.max_step_size) := by
    simp only [RunningD.fractal]
    exact fd_mean_eq_spec _ _ _ _
  refine ⟨h1, fun heq => ?_⟩
  rw [h1]
  unfold specFractalDimension
  rw [if_pos]
  rw [Finset.filter_eq_empty_iff]
  intro i _
  rw [heq]
  simp

/-- Witness for C3: on a freshly started engine both scales are 0, so the
recomputed `D` is 0. -/
theorem C3_claim_witness : (RunningD.fractal eA0 12 false false).D = 0 :=
  (C3_claim 12 eA0 false false).2 rfl

-- ### Claim C4: add_point field equations (non-velocity mode)

theorem dist_flatten (p q : Point3D) :
    Point3D.distance ⟨p.x, p.y, 0⟩ ⟨q.x, q.y, 0⟩ = Point3D.xy_distance p q := by
  unfold Point3D.distance Point3D.xy_distance
  congr 1
  ring

/-- Shared description of one non-velocity `add_point` call's scalar fields. -/
theorem add_point_fields (f : ℕ) (s : RunningD) (p : Point3D) (ts : ℝ) (ctp : Bool)
    (hvm : s.velocity_mode = false) :
    (s.add_point f p ts ctp).number_of_steps = s.number_of_steps + 1
    ∧ (s.add_point f p ts ctp).real_path_length = s.real_path_length +
        (if ctp then Point3D.xy_distance s.position p
          else Point3D.distance s.position p)
    ∧ (s.add_point f p ts ctp).mean_step_size =
        (s.add_point f p ts ctp).real_path_length /
          ((s.add_point f p ts ctp).number_of_steps : ℝ)
    ∧ (s.add_point f p ts ctp).min_step_size =
        (s.add_point f p ts ctp).mean_step_size * s.min_multiplier
    ∧ (s.add_point f p ts ctp).max_step_size =
        (s.add_point f p ts ctp).mean_step_size * s.max_multiplier
    ∧ (s.add_point f p ts ctp).position = p
    ∧ (s.add_point f p ts ctp).end_timestamp = ts := by
  refine ⟨rfl, ?_, ?_, rfl, rfl, rfl, rfl⟩
  · cases ctp
    · simp [RunningD.add_point, RunningD.fractal]
    · simp [RunningD.add_point, RunningD.fractal, dist_flatten]
  · simp only [RunningD.add_point, RunningD.fractal, hvm, Bool.false_eq_true, if_false]

/-- C4: after every non-velocity `add_point`, `number_of_steps` grows by one,
`real_path_length` grows by the (plane-constrained) distance covered,
`mean_step_size` is the path length over the step count, the min/max step
sizes are the mean times the stored multipliers, and position/end time are
the new reading's. -/
theorem C4_claim : ∀ (f : ℕ) (s : RunningD) (p : Point3D) (ts : ℝ) (ctp : Bool),
    s.velocity_mode = false →
    (s.add_point f p ts ctp).number_of_steps = s.number_of_steps + 1
    ∧ (s.add_point f p ts ctp).real_path_length = s.real_path_length +
        (if ctp then Point3D.xy_distance s.position p
          else Point3D.distance s.position p)
    ∧ (s.add_point f p ts ctp).mean_step_size =
        (s.add_point f p ts ctp).real_path_length /
          ((s.add_point f p ts ctp).number_of_steps : ℝ)
    ∧ (s.add_point f p ts ctp).min_step_size =
        (s.add_point f p ts ctp).mean_step_size * s.min_multiplier
    ∧ (s.add_point f p ts ctp).max_step_size =
        (s.add_point f p ts ctp).mean_step_size * s.max_multiplier
    ∧ (s.add_point f p ts ctp).position = p
    ∧ (s.add_point f p ts ctp).end_timestamp = ts :=
  fun f s p ts ctp hvm => add_point_fields f s p ts ctp hvm

/-- Witness for C4 at a concrete engine and reading. -/
theorem C4_claim_witness :
    eA0.velocity_mode = false ∧
      (eA0.add_point 12 ⟨10, 0, 0⟩ 1 false).number_of_steps =
        eA0.number_of_steps + 1 ∧
      (eA0.add_point 12 ⟨10, 0, 0⟩ 1 false).position = ⟨10, 0, 0⟩ :=
  ⟨rfl, (C4_claim 12 eA0 ⟨10, 0, 0⟩ 1 false rfl).1,
    (C4_claim 12 eA0 ⟨10, 0, 0⟩ 1 false rfl).2.2.2.2.2.1⟩

-- ### Claim C5: the timeout branch replaces the engine with a fresh one

/-- C5: for a tracked subject, when the position check fails (the reading is
not suppressed) and the absolute time gap exceeds the timeout, `new_reading`
stores and returns a brand-new engine built by `start` from the new point and
timestamp, with `number_of_steps = 0` and `real_path_length = 0`. -/
theorem C5_claim : ∀ (f : ℕ) (m : RTFPA) (sid : String) (x y z ts : ℝ)
    (prev : RunningD),
    m.tracked_objects_running_d sid = some prev →
    (if m.constrain_to_plane then Point3D.xy_distance ⟨x, y, z⟩ prev.position
      else Point3D.distance ⟨x, y, z⟩ prev.position) ≠ 0 →
    m.seconds_till_new_path < |ts - prev.end_timestamp| →
    (m.new_reading f sid x y z ts).2 =
        { RunningD.start sid ⟨x, y, z⟩ ts m.min_multiplier m.max_multiplier with
          velocity_mode := m.velocity_mode }
    ∧ (m.new_reading f sid x y z ts).2.number_of_steps = 0
    ∧ (m.new_reading f sid x y z ts).2.real_path_length = 0
    ∧ (m.new_reading f sid x y z ts).1.tracked_objects_running_d sid =
        some (m.new_reading f sid x y z ts).2 := by
  intro f m sid x y z ts prev htr hdup htime
  unfold RTFPA.new_reading
  rw [htr]
  simp only [if_neg hdup, if_pos htime]
  refine ⟨rfl, rfl, rfl, ?_⟩
  simp [RTFPA.start_new_path]

/-- Witness for C5: a reading 100 s after the stored engine's end time. -/
theorem C5_claim_witness :
    ((rtA eA0).new_reading 12 "subject1" 10 0 0 100).2.number_of_steps = 0 ∧
      ((rtA eA0).new_reading 12 "subject1" 10 0 0 100).2.real_path_length = 0 := by
  have h := C5_claim 12 (rtA eA0) "subject1" 10 0 0 100 eA0 rfl
    (by simp only [rtA, eA0]; rw [dist_axis]; norm_num)
    (by simp only [rtA, eA0]; norm_num)
  exact ⟨h.2.1, h.2.2.1⟩

-- ### Claim C6: duplicate suppression within the timeout

/-- C6: for a tracked subject, a reading at the engine's current position
(XY-only equality when `constrain_to_plane`, so a differing z still counts as
identical) with a timestamp inside the timeout returns the stored engine
itself and leaves the dispatcher state unchanged. -/
theorem C6_claim : ∀ (f : ℕ) (m : RTFPA) (sid : String) (x y z ts : ℝ)
    (prev : RunningD),
    m.tracked_objects_running_d sid = some prev →
    ¬ (m.seconds_till_new_path < |ts - prev.end_timestamp|) →
    (((if m.constrain_to_plane then Point3D.xy_distance ⟨x, y, z⟩ prev.position
        else Point3D.distance ⟨x, y, z⟩ prev.position) = 0 →
      m.new_reading f sid x y z ts = (m, prev))
    ∧ (m.constrain_to_plane = true → x = prev.position.x → y = prev.position.y →
        m.new_reading f sid x y z ts = (m, prev))) := by
  intro f m sid x y z ts prev htr _htime
  have key : ∀ h0 : (if m.constrain_to_plane then
      Point3D.xy_distance ⟨x, y, z⟩ prev.position
      else Point3D.distance ⟨x, y, z⟩ prev.position) = 0,
      m.new_reading f sid x y z ts = (m, prev) := by
    intro h0
    unfold RTFPA.new_reading
    rw [htr]
    simp only [if_pos h0]
  refine ⟨key, fun hctp hx hy => key ?_⟩
  rw [hctp]
  simp only [if_true]
  unfold Point3D.xy_distance
  rw [hx, hy]
  simp

/-- Witness for C6: feeding the same position twice, 4 s apart. -/
theorem C6_claim_witness :
    (rtA eA1).new_reading 12 "subject1" 10 0 0 5 = (rtA eA1, eA1) :=
  (C6_claim 12 (rtA eA1) "subject1" 10 0 0 5 eA1 rfl
    (by simp only [rtA, eA1]; norm_num)).1
    (by simp [rtA, eA1, dist_axis])

-- ### Claim C9: same-position suppression precedes the timeout check

/-- C9: a duplicate-position reading is suppressed for every timestamp,
including ones whose gap exceeds the timeout: the same-position check runs
before the timeout check, so a late duplicate never starts a new segment. -/
theorem C9_claim : ∀ (f : ℕ) (m : RTFPA) (sid : String) (x y z ts : ℝ)
    (prev : RunningD),
    m.tracked_objects_running_d sid = some prev →
    (if m.constrain_to_plane then Point3D.xy_distance ⟨x, y, z⟩ prev.position
      else Point3D.distance ⟨x, y, z⟩ prev.position) = 0 →
    m.new_reading f sid x y z ts = (m, prev) := by
  intro f m sid x y z ts prev htr h0
  unfold RTFPA.new_reading
  rw [htr]
  simp only [if_pos h0]

/-- Witness for C9: a duplicate position arriving 999 s late (far beyond the
60 s timeout) is still suppressed. -/
theorem C9_claim_witness :
    (rtA eA1).new_reading 12 "subject1" 10 0 0 1000 = (rtA eA1, eA1) :=
  C9_claim 12 (rtA eA1) "subject1" 10 0 0 1000 eA1 rfl
    (by simp [rtA, eA1, dist_axis])

-- ### Claim C10: the intersection call pattern is nondegenerate

/-- C10: whenever `line_sphere_intersect` is called the way
`calculate_path_length` calls it — the line from the sphere center `c` to the
target `T`, with radius `0 < r ≤ distance c T` — the quadratic coefficient
`a = |T - c|²` is strictly positive, the divisor `2a` is nonzero, and the
routine returns the two-point hop result (never a division by zero, never
`none`). -/
theorem C10_claim : ∀ (c T : Point3D) (r : ℝ), 0 < r →
    r ≤ Point3D.distance c T →
    0 < lineA c T ∧ 2 * lineA c T ≠ 0 ∧
      line_sphere_intersect c T c r true = some [hopPoint c T r, c] := by
  intro c T r hr hle
  have hApos : 0 < lineA c T := by
    rw [← sq_distance c T]
    have hd : 0 < Point3D.distance c T := lt_of_lt_of_le hr hle
    positivity
  exact ⟨hApos, by linarith [hApos], lsi_self_center c T r hr hle⟩

/-- Witness for C10 at a concrete anchor, target and radius. -/
theorem C10_claim_witness :
    0 < lineA ⟨0, 0, 0⟩ ⟨3, 0, 0⟩ ∧
      line_sphere_intersect ⟨0, 0, 0⟩ ⟨3, 0, 0⟩ ⟨0, 0, 0⟩ 1 true ≠ none := by
  have h := C10_claim ⟨0, 0, 0⟩ ⟨3, 0, 0⟩ 1 (by norm_num)
    (by rw [dist_axis]; norm_num)
  refine ⟨h.1, ?_⟩
  rw [h.2.2]
  simp

-- ### Claim C7: velocity_mode is a per-engine snapshot, not read live

/-- Dispatcher like `rtA` but with `velocity_mode := true`. -/
noncomputable def rtAv (e : RunningD) : RTFPA :=
  ⟨0.5, 10, true, fun sid => if sid = "subject1" then some e else none, 60, false⟩

theorem dist_345 : Point3D.distance ⟨(0:ℝ), 0, 0⟩ ⟨3, 4, 0⟩ = 5 := by
  unfold Point3D.distance
  rw [show ((0:ℝ) - 3) ^ 2 + (0 - 4) ^ 2 + (0 - 0) ^ 2 = 5 ^ 2 from by norm_num]
  rw [Real.sqrt_sq]
  norm_num

theorem dist_345' : Point3D.distance ⟨(3:ℝ), 4, 0⟩ ⟨0, 0, 0⟩ = 5 := by
  unfold Point3D.distance
  rw [show ((3:ℝ) - 0) ^ 2 + (4 - 0) ^ 2 + (0 - 0) ^ 2 = 5 ^ 2 from by norm_num]
  rw [Real.sqrt_sq]
  norm_num

/-- The continuation branch of `new_reading` returns the previous engine
extended by one `add_point` call. -/
theorem new_reading_engine (m : RTFPA) (f : ℕ) (sid : String) (x y z ts : ℝ)
    (prev : RunningD)
    (htr : m.tracked_objects_running_d sid = some prev)
    (hdup : (if m.constrain_to_plane then
        Point3D.xy_distance ⟨x, y, z⟩ prev.position
      else Point3D.distance ⟨x, y, z⟩ prev.position) ≠ 0)
    (htime : ¬ (m.seconds_till_new_path < |ts - prev.end_timestamp|)) :
    (m.new_reading f sid x y z ts).2 =
      prev.add_point f ⟨x, y, z⟩ ts m.constrain_to_plane := by
  unfold RTFPA.new_reading
  rw [htr]
  simp only [if_neg hdup, if_neg htime]

/-- C7 counterexample: an engine created while `velocity_mode = false`
keeps dividing by the step count alone even after the dispatcher's
`set_velocity_mode true`: the next reading at (3,4,0), 2 s later, yields
`mean_step_size = 5`, not the `5 / 2` that live velocity mode would give. -/
theorem C7_claim_counterexample :
    ((((RTFPA.init 0.5 10).new_reading 12 "subject1" 0 0 0 0).1.set_velocity_mode
        true).new_reading 12 "subject1" 3 4 0 2).2.mean_step_size = 5
    ∧ (5 : ℝ) ≠ 5 / 2 := by
  refine ⟨?_, by norm_num⟩
  rw [dA0]
  rw [show (rtA eA0, eA0).1.set_velocity_mode true = rtAv eA0 from rfl]
  rw [new_reading_engine (rtAv eA0) 12 "subject1" 3 4 0 2 eA0 rfl
    (by simp [rtAv, eA0, dist_345'] <;> norm_num)
    (by simp only [rtAv, eA0] <;> norm_num)]
  have h := add_point_fields 12 eA0 ⟨3, 4, 0⟩ 2 false rfl
  rw [show (rtAv eA0).constrain_to_plane = false from rfl]
  rw [h.2.2.1, h.2.1, h.1]
  simp only [Bool.false_eq_true, if_false,
    show eA0.position = ⟨0, 0, 0⟩ from rfl,
    show eA0.real_path_length = (0 : ℝ) from rfl,
    show eA0.number_of_steps = 0 from rfl]
  rw [dist_345]
  norm_num

/-- C7 amended: the engine returned for a continued path does not depend on
the dispatcher's current `velocity_mode` — flipping it with
`set_velocity_mode` leaves the continuation result unchanged — while an
engine started for an untracked subject snapshots the dispatcher's
`velocity_mode` at creation time. -/
theorem C7_claim_amended : ∀ (f : ℕ) (m : RTFPA) (sid : String) (x y z ts : ℝ)
    (prev : RunningD) (b : Bool),
    (m.tracked_objects_running_d sid = some prev →
      (if m.constrain_to_plane then Point3D.xy_distance ⟨x, y, z⟩ prev.position
        else Point3D.distance ⟨x, y, z⟩ prev.position) ≠ 0 →
      ¬ (m.seconds_till_new_path < |ts - prev.end_timestamp|) →
      ((m.set_velocity_mode b).new_reading f sid x y z ts).2 =
        (m.new_reading f sid x y z ts).2)
    ∧ (m.tracked_objects_running_d sid = none →
      (m.new_reading f sid x y z ts).2.velocity_mode = m.velocity_mode) := by
  intro f m sid x y z ts prev b
  constructor
  · intro htr hdup htime
    rw [new_reading_engine (m.set_velocity_mode b) f sid x y z ts prev htr hdup htime,
      new_reading_engine m f sid x y z ts prev htr hdup htime]
    rfl
  · intro hnone
    unfold RTFPA.new_reading
    rw [hnone]
    rfl

/-- Witness for C7 amended: flipping velocity mode before a continuation
reading does not change the returned engine. -/
theorem C7_claim_amended_witness :
    (((rtA eA1).set_velocity_mode true).new_reading 12 "subject1" 20 0 0 2).2 =
      ((rtA eA1).new_reading 12 "subject1" 20 0 0 2).2 :=
  (C7_claim_amended 12 (rtA eA1) "subject1" 20 0 0 2 eA1 true).1 rfl
    (by simp [rtA, eA1, dist_axis] <;> norm_num)
    (by simp only [rtA, eA1] <;> norm_num)

-- ### Claim C8: per-call growth of a path-length accumulator

theorem getD_set_of_ne {α : Type} (l : List α) (i j : ℕ) (v d : α) (h : i ≠ j) :
    (l.set i v).getD j d = l.getD j d := by
  rw [List.getD_eq_getElem?_getD, List.getD_eq_getElem?_getD, List.getElem?_set_ne h]

theorem getD_set_self {α : Type} (l : List α) (i : ℕ) (v d : α) (h : i < l.length) :
    (l.set i v).getD i d = v := by
  rw [List.getD_eq_getElem?_getD, List.getElem?_set_self h]
  rfl

/-- Loop invariant for the compass walk: while every anchor at index ≥ i lies
within `2 * scale` of the target, indices below `i` are frozen and every
other accumulator entry grows by at most `run + scale`. -/
theorem calcLoop_run_bound (s : ℝ) (T : Point3D) (hs : 0 < s) :
    ∀ (f i : ℕ) (run : ℝ) (C : List (Option Point3D)) (L : List ℝ),
      0 ≤ run →
      (∀ k c, i ≤ k → C.getD k none = some c → Point3D.distance c T ≤ 2 * s) →
      ((∀ j, j < i → (calcLoop s T false f i run C L).2.getD j 0 = L.getD j 0)
      ∧ (∀ j, i ≤ j →
          (calcLoop s T false f i run C L).2.getD j 0 ≤ L.getD j 0 + run + s)) := by
  intro f
  induction f with
  | zero =>
    intro i run C L hrun _hyp
    refine ⟨fun j _ => rfl, fun j _ => ?_⟩
    show L.getD j 0 ≤ L.getD j 0 + run + s
    linarith
  | succ f ih =>
    intro i run C L hrun hyp
    by_cases hi4 : 4 ≤ i
    · rw [calcLoop_exit s T false f i run C L hi4]
      refine ⟨fun j _ => rfl, fun j _ => ?_⟩
      show L.getD j 0 ≤ L.getD j 0 + run + s
      linarith
    · have hi : i < 4 := not_le.mp hi4
      cases hC : C.getD i none with
      | none =>
        rw [calcLoop_none s T false f i run C L hi hC]
        refine ⟨fun j _ => rfl, fun j _ => ?_⟩
        show L.getD j 0 ≤ L.getD j 0 + run + s
        linarith
      | some c =>
        have hd2 : Point3D.distance c T ≤ 2 * s := hyp i c le_rfl hC
        by_cases hdn : Point3D.distance c T < s
        · rw [calcLoop_near s T f i run C L c hi hC hs hdn]
          have IH := ih (i + 1) run C L hrun
            (fun k c' hk hC' => hyp k c' (by omega) hC')
          refine ⟨fun j hj => IH.1 j (by omega), fun j hj => ?_⟩
          rcases Nat.lt_or_ge j (i + 1) with hj1 | hj1
          · rw [IH.1 j hj1]
            linarith
          · exact IH.2 j hj1
        · have hd1 : s ≤ Point3D.distance c T := not_lt.mp hdn
          rw [calcLoop_hop_commit s T f i run C L c hi hC hs hd1 hd2]
          have hyp' : ∀ k c', i + 1 ≤ k →
              (C.set i (some (hopPoint c T s))).getD k none = some c' →
              Point3D.distance c' T ≤ 2 * s := by
            intro k c' hk hC'
            rw [getD_set_of_ne C i k (some (hopPoint c T s)) none (by omega)] at hC'
            exact hyp k c' (by omega) hC'
          have IH := ih (i + 1) 0 (C.set i (some (hopPoint c T s)))
            (L.set i (L.getD i 0 + (run + s))) le_rfl hyp'
          refine ⟨fun j hj => ?_, fun j hj => ?_⟩
          · rw [IH.1 j (by omega)]
            exact getD_set_of_ne L i j (L.getD i 0 + (run + s)) 0 (by omega)
          · rcases Nat.lt_or_ge j (i + 1) with hj1 | hj1
            · rw [IH.1 j hj1]
              have hji : j = i := by omega
              subst hji
              by_cases hlen : j < L.length
              · rw [getD_set_self L j (L.getD j 0 + (run + s)) 0 hlen]
                linarith
              · rw [List.getD_eq_default (L.set j (L.getD j 0 + (run + s))) 0
                  (by rw [List.length_set]; omega)]
                rw [List.getD_eq_default L 0 (by omega)]
                linarith
            · have h2 := IH.2 j hj1
              rw [getD_set_of_ne L i j (L.getD i 0 + (run + s)) 0 (by omega)] at h2
              linarith

/-- Concrete walk in which a single `calculate_path_length` call adds two
scales to the first accumulator: the anchor at (0,0,0) is 5 away from the
target (5,0,0) with scale 2, so it hops once (staying) and then commits. -/
theorem C8_walk_cex :
    calculate_path_length 10 [some ⟨0, 0, 0⟩, none, none, none] 2 [0, 0, 0, 0]
      ⟨5, 0, 0⟩ false
    = ([some ⟨4, 0, 0⟩, none, none, none], [4, 0, 0, 0]) := by
  unfold calculate_path_length
  rw [calcLoop_hop_stay' 2 ⟨5, 0, 0⟩ 10 9 0 0 [some ⟨0, 0, 0⟩, none, none, none]
    [0, 0, 0, 0] ⟨0, 0, 0⟩ (by norm_num) (by norm_num) rfl (by norm_num)
    (by rw [dist_axis]; norm_num)]
  rw [hopPoint_axis 0 5 0 0 2 (by norm_num)]
  norm_num [List.set]
  rw [calcLoop_hop_commit' 2 ⟨5, 0, 0⟩ 9 8 0 2 [some ⟨2, 0, 0⟩, none, none, none]
    [0, 0, 0, 0] ⟨2, 0, 0⟩ (by norm_num) (by norm_num) rfl (by norm_num)
    (by rw [dist_axis]; norm_num) (by rw [dist_axis]; norm_num)]
  rw [hopPoint_axis 2 5 0 0 2 (by norm_num)]
  norm_num [List.set]
  rw [calcLoop_none' 2 ⟨5, 0, 0⟩ false 8 7 1 0
    [some ⟨4, 0, 0⟩, none, none, none] [4, 0, 0, 0] (by norm_num) (by norm_num) rfl]

/-- C8 counterexample: one `calculate_path_length` call can add more than one
scale to an accumulator — here the first entry grows from 0 to 4 = 2 × scale,
because a distant anchor hops repeatedly inside a single call. -/
theorem C8_claim_counterexample :
    (calculate_path_length 10 [some ⟨0, 0, 0⟩, none, none, none] 2 [0, 0, 0, 0]
        ⟨5, 0, 0⟩ false).2.getD 0 0 = 4
    ∧ ¬ ((calculate_path_length 10 [some ⟨0, 0, 0⟩, none, none, none] 2
        [0, 0, 0, 0] ⟨5, 0, 0⟩ false).2.getD 0 0 ≤
          [(0 : ℝ), 0, 0, 0].getD 0 0 + 2) := by
  rw [C8_walk_cex]
  norm_num

/-- C8 amended: when every currently-set anchor is within `2 * scale` of the
new point (in particular after any previous call with the same scale and
target has converged), one `calculate_path_length` call increases each
path-length accumulator by at most one `scale`. -/
theorem C8_claim_amended : ∀ (s : ℝ) (T : Point3D) (fuel : ℕ)
    (C : List (Option Point3D)) (L : List ℝ),
    0 < s →
    (∀ k c, C.getD k none = some c → Point3D.distance c T ≤ 2 * s) →
    ∀ j, (calculate_path_length fuel C s L T false).2.getD j 0 ≤ L.getD j 0 + s := by
  intro s T fuel C L hs hyp j
  have h := (calcLoop_run_bound s T hs fuel 0 0 C L le_rfl
    (fun k c _ hC => hyp k c hC)).2 j (Nat.zero_le j)
  unfold calculate_path_length
  linarith [h]

/-- Witness for C8 amended: anchor 3 away from the target with scale 2. -/
theorem C8_claim_amended_witness :
    (0 : ℝ) < 2 ∧
    (calculate_path_length 10 [some ⟨0, 0, 0⟩, none, none, none] 2 [0, 0, 0, 0]
        ⟨3, 0, 0⟩ false).2.getD 0 0 ≤ [(0 : ℝ), 0, 0, 0].getD 0 0 + 2 := by
  refine ⟨by norm_num, C8_claim_amended 2 ⟨3, 0, 0⟩ 10
    [some ⟨0, 0, 0⟩, none, none, none] [0, 0, 0, 0] (by norm_num) ?_ 0⟩
  intro k c hC
  rcases k with _ | _ | _ | _ | n
  · simp only [List.getD_cons_zero, Option.some.injEq] at hC
    rw [← hC, dist_axis]
    norm_num
  · simp at hC
  · simp at hC
  · simp at hC
  · simp [List.getD] at hC
